import Mathlib

/-!
# A verification development for the `chess` contract (`src/chess.cpp`)

The contract keeps, for every game, a vector `piece_positions` of 32 squares
indexed by piece slot (0..15 White, 16..31 Black), a castling mask, an
en-passant index and a promotion registry. This file embeds the private
helpers of the contract (`same_row` .. `blocked`, the per-kind evaluators,
`in_check`, `in_checkmate`, `valid_move`) and the `move` action as Lean
functions, and proves properties of them.

Conventions of the embedding.
* `uint8_t`, `uint16_t`, `uint32_t` values are natural numbers; `int`
  expressions are integers. C++ integer division and remainder truncate
  towards zero, so they are `Int.tdiv` and `Int.tmod`.
* The board vector has 32 entries; it is a function from the slot index to the
  square. The loops read it at the indices 0..31, and `valid_move` reads it at
  `piece_id`, which `move` has checked to be at most 31. `in_checkmate` indexes
  it with a square; an index outside the vector is reported as `none`, and the
  verdict and the other outputs of `valid_move`, computed before that call,
  are kept as they are.
* A C++ reference parameter is an argument (its value on entry) and a
  component of the result (its value on return).
-/

namespace Chess

/-! ## Constants -/

/-- Mask `0x01`: the white king cannot castle queen side. -/
def W_CAS_Q : Nat := 0x01
/-- Mask `0x02`: the white king cannot castle king side. -/
def W_CAS_K : Nat := 0x02
/-- Mask `0x04`: the black king cannot castle queen side. -/
def B_CAS_Q : Nat := 0x04
/-- Mask `0x08`: the black king cannot castle king side. -/
def B_CAS_K : Nat := 0x08

/-- Promotion kind 0. -/
def PROMOTED_BISHOP : Nat := 0x00
/-- Promotion kind 1. -/
def PROMOTED_KNIGHT : Nat := 0x01
/-- Promotion kind 2. -/
def PROMOTED_ROOK : Nat := 0x02
/-- Promotion kind 3. -/
def PROMOTED_QUEEN : Nat := 0x03

/-- The vector `piece_positions`: slot index to square, 0 meaning captured. -/
abbrev Board := Nat → Nat

/-- The board whose 32 entries are the entries of a list. -/
def board_of (squares : List Nat) : Board := fun index => squares.getD index 0

/-- The initial value of `piece_positions` in `struct game`. -/
def start_positions : Board :=
  board_of [4, 5, 3, 6, 2, 7, 1, 8, 9, 10, 11, 12, 13, 14, 15, 16,
            60, 61, 59, 62, 58, 63, 57, 64, 49, 50, 51, 52, 53, 54, 55, 56]

/-- The 32 entries of a board, in slot order. -/
def entries (piece_positions : Board) : List Nat := (List.range 32).map piece_positions

/-! ## Geometry predicates -/

/-- The function `is_enemy_piece`. -/
def is_enemy_piece (is_whites_move : Bool) (piece_index : Nat) : Bool :=
  if is_whites_move && decide (piece_index > 15) then true
  else if !is_whites_move && decide (piece_index < 16) then true
  else false

/-- The expression `(position - 1) / 8`, computed on `int`. -/
def row_of (position : Nat) : Int := Int.tdiv ((position : Int) - 1) 8

/-- The expression `(position - 1) % 8` stored into a `uint8_t`. -/
def col_of (position : Nat) : Nat := (Int.tmod ((position : Int) - 1) 8 % 256).toNat

/-- The expression `std::abs(position2 - position1)` stored into a `uint8_t`. -/
def diag_diff (position1 position2 : Nat) : Nat :=
  ((position2 : Int) - (position1 : Int)).natAbs % 256

/-- The function `same_row`. -/
def same_row (position1 position2 : Nat) : Bool :=
  if position1 < 65 ∧ position2 < 65 then
    if row_of position1 = row_of position2 then true else false
  else false

/-- The function `same_col`. -/
def same_col (position1 position2 : Nat) : Bool :=
  if position1 < 65 ∧ position2 < 65 then
    if position1 % 8 = position2 % 8 then true else false
  else false

/-- The function `same_nw_diag`. -/
def same_nw_diag (position1 position2 : Nat) : Bool :=
  if position1 < 65 ∧ position2 < 65 then
    if position1 > position2 ∧ col_of position1 > col_of position2
        ∧ diag_diff position1 position2 % 9 = 0 then true else false
  else false

/-- The function `same_ne_diag`. -/
def same_ne_diag (position1 position2 : Nat) : Bool :=
  if position1 < 65 ∧ position2 < 65 then
    if position1 > position2 ∧ col_of position1 < col_of position2
        ∧ diag_diff position1 position2 % 7 = 0 then true else false
  else false

/-- The function `same_sw_diag`. -/
def same_sw_diag (position1 position2 : Nat) : Bool :=
  if position1 < 65 ∧ position2 < 65 then
    if position1 < position2 ∧ col_of position1 > col_of position2
        ∧ diag_diff position1 position2 % 7 = 0 then true else false
  else false

/-- The function `same_se_diag`. -/
def same_se_diag (position1 position2 : Nat) : Bool :=
  if position1 < 65 ∧ position2 < 65 then
    if position1 < position2 ∧ col_of position1 < col_of position2
        ∧ diag_diff position1 position2 % 9 = 0 then true else false
  else false

/-- The function `blocked`. -/
def blocked (current_position new_position test_position : Nat) : Bool :=
  if current_position < 65 ∧ new_position < 65 ∧ test_position < 65 then
    if (same_row current_position new_position && same_row current_position test_position)
        || (same_col current_position new_position && same_col current_position test_position)
        || (same_ne_diag current_position new_position
              && same_ne_diag current_position test_position)
        || (same_nw_diag current_position new_position
              && same_nw_diag current_position test_position)
        || (same_se_diag current_position new_position
              && same_se_diag current_position test_position)
        || (same_sw_diag current_position new_position
              && same_sw_diag current_position test_position) then
      if current_position < new_position ∧ current_position < test_position
          ∧ test_position < new_position then true
      else if current_position > new_position ∧ current_position > test_position
          ∧ test_position > new_position then true
      else false
    else false
  else false

/-! ## Promotion registry -/

/-- The local `offset` of `is_pawn_promoted` and `promote_pawn`, a `uint8_t`. -/
def pawn_offset (pawn_index : Nat) : Nat :=
  if pawn_index < 16 then (pawn_index + 256 - 8) % 256 else pawn_index - 16

/-- The function `is_pawn_promoted`: the returned flag and the value of
`promoted_pawn_type` on return (`promoted_pawn_type` on entry when the flag is
false). The shifts are exact for the pawn slots 8..15 and 24..31, the only
slots the contract passes. -/
def is_pawn_promoted (pawn_index promoted_pawns promoted_pawn_types promoted_pawn_type : Nat) :
    Bool × Nat :=
  if pawn_index > 31 then (false, promoted_pawn_type)
  else
    let offset := pawn_offset pawn_index
    let promoted := decide ((promoted_pawns &&& (0x01 <<< offset)) > 0)
    if promoted then
      (true, ((promoted_pawn_types &&& (0x03 <<< (offset * 2))) >>> (offset * 2)) % 256)
    else (false, promoted_pawn_type)

/-- The function `promote_pawn`: the values of `promoted_pawns` and
`promoted_pawn_types` on return. -/
def promote_pawn (pawn_index promoted_pawns promoted_pawn_types promoted_pawn_type : Nat) :
    Nat × Nat :=
  if pawn_index > 31 then (promoted_pawns, promoted_pawn_types)
  else
    let offset := pawn_offset pawn_index
    (promoted_pawns ||| (0x01 <<< offset),
     promoted_pawn_types ||| ((promoted_pawn_type &&& 0x03) <<< (offset * 2)))

/-! ## Per-kind evaluators

Every evaluator returns its verdict and the value of `captured_piece_index`
on return. -/

/-- The loop over the 32 slots of `valid_king_move` and `valid_knight_move`:
an enemy slot on the destination is recorded, a friendly one ends the call
with `false`. -/
def landing_loop (piece_positions : Board) (new_position : Nat) (is_whites_move : Bool) :
    List Nat → Nat → Bool × Nat
  | [], captured_piece_index => (true, captured_piece_index)
  | index :: rest, captured_piece_index =>
    if piece_positions index = new_position then
      if is_enemy_piece is_whites_move index then
        landing_loop piece_positions new_position is_whites_move rest index
      else (false, captured_piece_index)
    else landing_loop piece_positions new_position is_whites_move rest captured_piece_index

/-- The loop over the 32 slots of `valid_queen_move` and `valid_bishop_move`. -/
def sliding_loop (piece_positions : Board) (current_position new_position : Nat)
    (is_whites_move : Bool) : List Nat → Nat → Bool × Nat
  | [], captured_piece_index => (true, captured_piece_index)
  | index :: rest, captured_piece_index =>
    if piece_positions index = new_position then
      if is_enemy_piece is_whites_move index then
        sliding_loop piece_positions current_position new_position is_whites_move rest index
      else (false, captured_piece_index)
    else if piece_positions index ≠ current_position ∧ piece_positions index ≠ 0 then
      if blocked current_position new_position (piece_positions index) then
        (false, captured_piece_index)
      else sliding_loop piece_positions current_position new_position is_whites_move rest
        captured_piece_index
    else sliding_loop piece_positions current_position new_position is_whites_move rest
      captured_piece_index

/-- The loop over the 32 slots of `valid_rook_move`. -/
def rook_loop (piece_positions : Board) (current_position new_position : Nat)
    (is_whites_move : Bool) : List Nat → Nat → Bool × Nat
  | [], captured_piece_index => (true, captured_piece_index)
  | index :: rest, captured_piece_index =>
    if piece_positions index = new_position then
      if is_enemy_piece is_whites_move index then
        rook_loop piece_positions current_position new_position is_whites_move rest index
      else (false, captured_piece_index)
    else if blocked current_position new_position (piece_positions index) then
      (false, captured_piece_index)
    else rook_loop piece_positions current_position new_position is_whites_move rest
      captured_piece_index

/-- The function `valid_king_move`. -/
def valid_king_move (current_position new_position _castle : Nat) (piece_positions : Board)
    (is_whites_move : Bool) (captured_piece_index : Nat) : Bool × Nat :=
  let diff : Int := (new_position : Int) - (current_position : Int)
  let abs_diff := diff.natAbs
  if abs_diff ≠ 1 ∧ abs_diff ≠ 7 ∧ abs_diff ≠ 8 ∧ abs_diff ≠ 9 then
    (false, captured_piece_index)
  else if ((diff = -7 ∨ diff = 1 ∨ diff = 9) ∧ current_position % 8 = 0)
      ∨ ((diff = -9 ∨ diff = -8 ∨ diff = -7) ∧ current_position < 9)
      ∨ ((diff = -9 ∨ diff = -1 ∨ diff = 7) ∧ current_position % 8 = 1)
      ∨ ((diff = 7 ∨ diff = 8 ∨ diff = 9) ∧ current_position > 56) then
    (false, captured_piece_index)
  else
    landing_loop piece_positions new_position is_whites_move (List.range 32) captured_piece_index

/-- The function `valid_queen_move`. -/
def valid_queen_move (current_position new_position : Nat) (piece_positions : Board)
    (is_whites_move : Bool) (captured_piece_index : Nat) : Bool × Nat :=
  if current_position = 0 then (false, captured_piece_index)
  else if !same_row current_position new_position
      && !same_col current_position new_position
      && !same_ne_diag current_position new_position
      && !same_nw_diag current_position new_position
      && !same_se_diag current_position new_position
      && !same_sw_diag current_position new_position then
    (false, captured_piece_index)
  else
    sliding_loop piece_positions current_position new_position is_whites_move (List.range 32)
      captured_piece_index

/-- The function `valid_bishop_move`. -/
def valid_bishop_move (current_position new_position : Nat) (piece_positions : Board)
    (is_whites_move : Bool) (captured_piece_index : Nat) : Bool × Nat :=
  if current_position = 0 then (false, captured_piece_index)
  else if !same_ne_diag current_position new_position
      && !same_nw_diag current_position new_position
      && !same_se_diag current_position new_position
      && !same_sw_diag current_position new_position then
    (false, captured_piece_index)
  else
    sliding_loop piece_positions current_position new_position is_whites_move (List.range 32)
      captured_piece_index

/-- The function `valid_knight_move`. -/
def valid_knight_move (current_position new_position : Nat) (piece_positions : Board)
    (is_whites_move : Bool) (captured_piece_index : Nat) : Bool × Nat :=
  let diff : Int := (new_position : Int) - (current_position : Int)
  let abs_diff := diff.natAbs
  let col : Int := Int.tmod ((current_position : Int) - 1) 8
  if current_position = 0 then (false, captured_piece_index)
  else if abs_diff ≠ 6 ∧ abs_diff ≠ 10 ∧ abs_diff ≠ 15 ∧ abs_diff ≠ 17 then
    (false, captured_piece_index)
  else if ((diff = 6 ∨ diff = -10) ∧ col < 2)
      ∨ ((diff = 15 ∨ diff = -17) ∧ col < 1)
      ∨ ((diff = 17 ∨ diff = -15) ∧ col > 6)
      ∨ ((diff = 10 ∨ diff = -6) ∧ col > 5)
      ∨ ((diff = -17 ∨ diff = -15) ∧ current_position < 17)
      ∨ ((diff = -10 ∨ diff = -6) ∧ current_position < 9)
      ∨ ((diff = 6 ∨ diff = 10) ∧ current_position > 56)
      ∨ ((diff = 15 ∨ diff = 17) ∧ current_position > 48) then
    (false, captured_piece_index)
  else
    landing_loop piece_positions new_position is_whites_move (List.range 32) captured_piece_index

/-- The function `valid_rook_move`. -/
def valid_rook_move (current_position new_position : Nat) (piece_positions : Board)
    (is_whites_move : Bool) (captured_piece_index : Nat) : Bool × Nat :=
  if current_position = 0 then (false, captured_piece_index)
  else if !same_row current_position new_position
      && !same_col current_position new_position then
    (false, captured_piece_index)
  else
    rook_loop piece_positions current_position new_position is_whites_move (List.range 32)
      captured_piece_index

/-- The loop of `valid_pawn_move` for a straight advance: `false` as soon as a
slot stands on the destination or on the square one step ahead. -/
def pawn_straight_loop (piece_positions : Board) (new_position : Nat) (step_square : Int) :
    List Nat → Bool
  | [] => true
  | index :: rest =>
    if piece_positions index = new_position ∨ (piece_positions index : Int) = step_square then
      false
    else pawn_straight_loop piece_positions new_position step_square rest

/-- The loop of `valid_pawn_move` for a diagonal step; `beside` is the square
`current_position - 1` or `current_position + 1` of the en-passant test. The
loop stops at the first enemy slot that matches; when no slot matches it runs
to its end and the call goes on to `return true`. -/
def pawn_diag_loop (piece_positions : Board) (new_position : Nat) (beside : Int)
    (is_whites_move : Bool) (en_passant_idx : Nat) : List Nat → Nat → Bool × Nat
  | [], captured_piece_index => (true, captured_piece_index)
  | index :: rest, captured_piece_index =>
    if is_enemy_piece is_whites_move index then
      if piece_positions index = new_position
          ∨ (index = en_passant_idx ∧ (piece_positions index : Int) = beside) then
        (true, index)
      else pawn_diag_loop piece_positions new_position beside is_whites_move en_passant_idx rest
        captured_piece_index
    else if piece_positions index = new_position then (false, captured_piece_index)
    else pawn_diag_loop piece_positions new_position beside is_whites_move en_passant_idx rest
      captured_piece_index

/-- What `valid_pawn_move` leaves behind: the verdict and the values of the
reference parameters `captured_piece_index` and `en_passant_idx` on return. -/
structure PawnResult where
  /-- The returned verdict. -/
  ok : Bool
  /-- The variable `captured_piece_index` on return. -/
  captured_piece_index : Nat
  /-- The variable `en_passant_idx` on return. -/
  en_passant_idx : Nat
  deriving DecidableEq, Repr

/-- The function `valid_pawn_move`. -/
def valid_pawn_move (pawn_index new_position : Nat) (piece_positions : Board)
    (is_whites_move : Bool) (captured_piece_index promoted_pawns promoted_pawn_types
      en_passant_idx : Nat) : PawnResult :=
  let current_position := piece_positions pawn_index
  let via (r : Bool × Nat) : PawnResult := ⟨r.1, r.2, en_passant_idx⟩
  if current_position = 0 then ⟨false, captured_piece_index, en_passant_idx⟩
  else
    let promoted := is_pawn_promoted pawn_index promoted_pawns promoted_pawn_types 0
    if promoted.1 then
      if promoted.2 = PROMOTED_BISHOP then
        via (valid_bishop_move current_position new_position piece_positions is_whites_move
          captured_piece_index)
      else if promoted.2 = PROMOTED_KNIGHT then
        via (valid_knight_move current_position new_position piece_positions is_whites_move
          captured_piece_index)
      else if promoted.2 = PROMOTED_ROOK then
        via (valid_rook_move current_position new_position piece_positions is_whites_move
          captured_piece_index)
      else if promoted.2 = PROMOTED_QUEEN then
        via (valid_queen_move current_position new_position piece_positions is_whites_move
          captured_piece_index)
      else ⟨false, captured_piece_index, en_passant_idx⟩
    else
      let diff : Int := (new_position : Int) - (current_position : Int)
      if is_whites_move then
        if diff = 8 ∨ diff = 16 then
          if pawn_straight_loop piece_positions new_position ((current_position : Int) + 8)
              (List.range 32) then
            ⟨true, captured_piece_index, if diff = 16 then pawn_index else 32⟩
          else ⟨false, captured_piece_index, en_passant_idx⟩
        else if diff = 7 then
          via (pawn_diag_loop piece_positions new_position ((current_position : Int) - 1)
            is_whites_move en_passant_idx (List.range 32) captured_piece_index)
        else if diff = 9 then
          via (pawn_diag_loop piece_positions new_position ((current_position : Int) + 1)
            is_whites_move en_passant_idx (List.range 32) captured_piece_index)
        else ⟨false, captured_piece_index, en_passant_idx⟩
      else
        if diff = -8 ∨ diff = -16 then
          if pawn_straight_loop piece_positions new_position ((current_position : Int) - 8)
              (List.range 32) then
            ⟨true, captured_piece_index, if diff = -16 then pawn_index else 32⟩
          else ⟨false, captured_piece_index, en_passant_idx⟩
        else if diff = -7 then
          via (pawn_diag_loop piece_positions new_position ((current_position : Int) + 1)
            is_whites_move en_passant_idx (List.range 32) captured_piece_index)
        else if diff = -9 then
          via (pawn_diag_loop piece_positions new_position ((current_position : Int) - 1)
            is_whites_move en_passant_idx (List.range 32) captured_piece_index)
        else ⟨false, captured_piece_index, en_passant_idx⟩

/-! ## Attack and checkmate detectors -/

/-- The function `in_check`. The local `throwaway` receives the capture index
of every evaluator call and is never read, so every call is given 0 here. -/
def in_check (is_whites_move : Bool) (piece_positions : Board)
    (promoted_pawns promoted_pawn_types : Nat) : Bool :=
  let position := if is_whites_move then piece_positions 0 else piece_positions 16
  let enemy_king_pos := if is_whites_move then piece_positions 16 else piece_positions 0
  let enemy_queen_pos := if is_whites_move then piece_positions 17 else piece_positions 1
  let enemy_bishop1_pos := if is_whites_move then piece_positions 18 else piece_positions 2
  let enemy_bishop2_pos := if is_whites_move then piece_positions 19 else piece_positions 3
  let enemy_knight1_pos := if is_whites_move then piece_positions 20 else piece_positions 4
  let enemy_knight2_pos := if is_whites_move then piece_positions 21 else piece_positions 5
  let enemy_rook1_pos := if is_whites_move then piece_positions 22 else piece_positions 6
  let enemy_rook2_pos := if is_whites_move then piece_positions 23 else piece_positions 7
  let enemy_pawn_index_offset := if is_whites_move then 24 else 8
  if (valid_king_move enemy_king_pos position 0xFF piece_positions is_whites_move 0).1 then true
  else if (valid_queen_move enemy_queen_pos position piece_positions (!is_whites_move) 0).1 then
    true
  else if (valid_bishop_move enemy_bishop1_pos position piece_positions (!is_whites_move) 0).1
    then true
  else if (valid_bishop_move enemy_bishop2_pos position piece_positions (!is_whites_move) 0).1
    then true
  else if (valid_knight_move enemy_knight1_pos position piece_positions (!is_whites_move) 0).1
    then true
  else if (valid_knight_move enemy_knight2_pos position piece_positions (!is_whites_move) 0).1
    then true
  else if (valid_rook_move enemy_rook1_pos position piece_positions (!is_whites_move) 0).1 then
    true
  else if (valid_rook_move enemy_rook2_pos position piece_positions (!is_whites_move) 0).1 then
    true
  else
    (List.range 8).any fun index =>
      (valid_pawn_move (index + enemy_pawn_index_offset) position piece_positions
        (!is_whites_move) 0 promoted_pawns promoted_pawn_types 32).ok

/-- One escape probe of `in_checkmate`: the king evaluator accepts the step
from `from_square` to `to_square` on the original board, and the probed board
is not in check. -/
def escape_probe (check_white : Bool) (piece_positions new_piece_positions : Board)
    (promoted_pawns promoted_pawn_types from_square to_square : Nat) : Bool :=
  (valid_king_move from_square to_square 0xFF piece_positions check_white 32).1
    && !in_check check_white new_piece_positions promoted_pawns promoted_pawn_types

/-- The two `for` loops of `in_checkmate` over the king step offsets: the
entry of the king slot (0 or 16) of the probed board is overwritten with the
king square plus the offset, stored into a `uint8_t`. The result is `true`
when a probe succeeds (the call returns `false`). -/
def offset_probes (check_white : Bool) (piece_positions : Board)
    (promoted_pawns promoted_pawn_types : Nat) : List Int → Board → Bool
  | [], _ => false
  | offset :: rest, new_piece_positions =>
    let king_pos := if check_white then 0 else 16
    let target := (((piece_positions king_pos : Int) + offset) % 256).toNat
    let probed := Function.update new_piece_positions king_pos target
    if escape_probe check_white piece_positions probed promoted_pawns promoted_pawn_types
        (piece_positions king_pos) target then true
    else offset_probes check_white piece_positions promoted_pawns promoted_pawn_types rest probed

/-- The function `in_checkmate`. Its first two probes index both vectors with
`king_pos`, the king's square; the result is `none` when that index is not
below 32, the size of the vector, and the returned flag otherwise. -/
def in_checkmate (check_white : Bool) (piece_positions : Board)
    (promoted_pawns promoted_pawn_types : Nat) : Option Bool :=
  let king_pos := if check_white then piece_positions 0 else piece_positions 16
  if king_pos < 32 then
    let plus := (piece_positions king_pos + 1) % 256
    let probed1 := Function.update piece_positions king_pos plus
    if escape_probe check_white piece_positions probed1 promoted_pawns promoted_pawn_types
        (piece_positions king_pos) plus then some false
    else
      let minus := (piece_positions king_pos + 255) % 256
      let probed2 := Function.update probed1 king_pos minus
      if escape_probe check_white piece_positions probed2 promoted_pawns promoted_pawn_types
          (piece_positions king_pos) minus then some false
      else if offset_probes check_white piece_positions promoted_pawns promoted_pawn_types
          [-9, -8, -7, 7, 8, 9] probed2 then some false
      else if !in_check check_white piece_positions promoted_pawns promoted_pawn_types then
        some false
      else some true
  else none

/-! ## The move validator -/

/-- What a call of `valid_move` leaves behind: the verdict and the values of
its reference parameters on return. -/
structure MoveResult where
  /-- The returned verdict. -/
  ok : Bool
  /-- The variable `castle` on return. -/
  castle : Nat
  /-- The variable `en_passant_idx` on return. -/
  en_passant_idx : Nat
  /-- The variable `promoted_pawns` on return. -/
  promoted_pawns : Nat
  /-- The variable `promoted_pawn_types` on return. -/
  promoted_pawn_types : Nat
  /-- The variable `captured_piece_index` on return. -/
  captured_piece_index : Nat
  /-- The variable `checkmate` on return; `none` when `in_checkmate` indexed
  the board vector outside its 32 entries. -/
  checkmate : Option Bool
  deriving DecidableEq, Repr

/-- The castling special case of `valid_move` (slots 0 and 16), entered when
the rights test has passed: `true` when none of its three checks returns
`false`. -/
def castling_checks (is_whites_move : Bool) (current_position new_position : Nat)
    (piece_positions : Board) (promoted_pawns promoted_pawn_types : Nat) : Bool :=
  let rook_index :=
    if is_whites_move then (if new_position = 2 then 6 else 7)
    else (if new_position = 58 then 22 else 23)
  let rook_pos := piece_positions rook_index
  if (List.range 32).any fun index =>
      blocked current_position new_position (piece_positions index)
        || blocked rook_pos new_position (piece_positions index) then false
  else if in_check is_whites_move piece_positions promoted_pawns promoted_pawn_types then false
  else
    let new_piece_positions :=
      Function.update piece_positions (if is_whites_move then 0 else 16)
        ((current_position + new_position) / 2)
    if in_check is_whites_move new_piece_positions promoted_pawns promoted_pawn_types then false
    else true

/-- The cases 0 and 16 of the `switch` of `valid_move`; `near` and `far` are
the masks tested for the destinations `near_square` and `far_square`. -/
def king_case (home near_square far_square near far : Nat) (is_whites_move : Bool)
    (current_position new_position : Nat) (piece_positions : Board) (s : MoveResult) :
    MoveResult :=
  let r := valid_king_move current_position new_position s.castle piece_positions
    is_whites_move s.captured_piece_index
  if r.1 then
    { s with ok := true, captured_piece_index := r.2, castle := s.castle ||| near ||| far }
  else if (s.castle &&& near = 0 ∧ current_position = home ∧ new_position = near_square)
      ∨ (s.castle &&& far = 0 ∧ current_position = home ∧ new_position = far_square) then
    if castling_checks is_whites_move current_position new_position piece_positions
        s.promoted_pawns s.promoted_pawn_types then
      { s with ok := true, captured_piece_index := r.2, castle := s.castle ||| near ||| far }
    else { s with ok := false, captured_piece_index := r.2 }
  else { s with ok := false, captured_piece_index := r.2 }

/-- A case of the `switch` that only calls an evaluator. -/
def plain_case (r : Bool × Nat) (s : MoveResult) : MoveResult :=
  { s with ok := r.1, captured_piece_index := r.2 }

/-- A rook case of the `switch`: the evaluator, then the mask added to `castle`. -/
def rook_case (r : Bool × Nat) (mask : Nat) (s : MoveResult) : MoveResult :=
  if r.1 then { s with ok := true, captured_piece_index := r.2, castle := s.castle ||| mask }
  else { s with ok := false, captured_piece_index := r.2 }

/-- The pawn cases 8..15 and 24..31 of the `switch`; `on_rank` is the test
`new_position > 56` or `new_position < 9`. -/
def pawn_case (piece_id new_position : Nat) (piece_positions : Board) (is_whites_move : Bool)
    (promotion_type : Nat) (on_rank : Bool) (s : MoveResult) : MoveResult :=
  let r := valid_pawn_move piece_id new_position piece_positions is_whites_move
    s.captured_piece_index s.promoted_pawns s.promoted_pawn_types s.en_passant_idx
  let s1 := { s with captured_piece_index := r.captured_piece_index,
                     en_passant_idx := r.en_passant_idx }
  if !r.ok then { s1 with ok := false }
  else if on_rank then
    let p := promote_pawn piece_id s.promoted_pawns s.promoted_pawn_types promotion_type
    { s1 with ok := true, promoted_pawns := p.1, promoted_pawn_types := p.2 }
  else { s1 with ok := true }

/-- The `switch (piece_id)` of `valid_move`. In the result `ok` is `false`
when a case returned `false`, and `true` when control leaves the switch.
Case 6 has no `break`: when its evaluator accepts, control runs on into
case 7. -/
def valid_move_switch (piece_id new_position current_position : Nat) (is_whites_move : Bool)
    (piece_positions : Board) (promotion_type : Nat) (s : MoveResult) : MoveResult :=
  if piece_id = 0 then
    king_case 4 2 6 W_CAS_K W_CAS_Q is_whites_move current_position new_position
      piece_positions s
  else if piece_id = 1 then
    plain_case (valid_queen_move current_position new_position piece_positions is_whites_move
      s.captured_piece_index) s
  else if 2 ≤ piece_id ∧ piece_id ≤ 3 then
    plain_case (valid_bishop_move current_position new_position piece_positions is_whites_move
      s.captured_piece_index) s
  else if 4 ≤ piece_id ∧ piece_id ≤ 5 then
    plain_case (valid_knight_move current_position new_position piece_positions is_whites_move
      s.captured_piece_index) s
  else if piece_id = 6 then
    let s1 := rook_case (valid_rook_move current_position new_position piece_positions
      is_whites_move s.captured_piece_index) W_CAS_K s
    if !s1.ok then s1
    else rook_case (valid_rook_move current_position new_position piece_positions
      is_whites_move s1.captured_piece_index) W_CAS_Q s1
  else if piece_id = 7 then
    rook_case (valid_rook_move current_position new_position piece_positions
      is_whites_move s.captured_piece_index) W_CAS_Q s
  else if 8 ≤ piece_id ∧ piece_id ≤ 15 then
    pawn_case piece_id new_position piece_positions is_whites_move promotion_type
      (decide (new_position > 56)) s
  else if piece_id = 16 then
    king_case 60 58 62 B_CAS_K B_CAS_Q is_whites_move current_position new_position
      piece_positions s
  else if piece_id = 17 then
    plain_case (valid_queen_move current_position new_position piece_positions is_whites_move
      s.captured_piece_index) s
  else if 18 ≤ piece_id ∧ piece_id ≤ 19 then
    plain_case (valid_bishop_move current_position new_position piece_positions is_whites_move
      s.captured_piece_index) s
  else if 20 ≤ piece_id ∧ piece_id ≤ 21 then
    plain_case (valid_knight_move current_position new_position piece_positions is_whites_move
      s.captured_piece_index) s
  else if piece_id = 22 then
    rook_case (valid_rook_move current_position new_position piece_positions
      is_whites_move s.captured_piece_index) B_CAS_K s
  else if piece_id = 23 then
    rook_case (valid_rook_move current_position new_position piece_positions
      is_whites_move s.captured_piece_index) B_CAS_Q s
  else if 24 ≤ piece_id ∧ piece_id ≤ 31 then
    pawn_case piece_id new_position piece_positions is_whites_move promotion_type
      (decide (new_position < 9)) s
  else { s with ok := true }

/-- The vector `new_piece_positions` that `valid_move` builds after the
switch: the moved slot on its destination, the captured slot (an index below
32) on square 0. -/
def board_after (piece_positions : Board) (piece_id new_position captured_piece_index : Nat) :
    Board :=
  let new_piece_positions := Function.update piece_positions piece_id new_position
  if captured_piece_index < 32 then Function.update new_piece_positions captured_piece_index 0
  else new_piece_positions

/-- The reference parameters of `valid_move` after its statement
`en_passant_idx = 32`, before any check. -/
def entry_state (castle promoted_pawns promoted_pawn_types captured_piece_index : Nat)
    (checkmate : Bool) : MoveResult :=
  { ok := false, castle := castle, en_passant_idx := 32, promoted_pawns := promoted_pawns,
    promoted_pawn_types := promoted_pawn_types, captured_piece_index := captured_piece_index,
    checkmate := some checkmate }

/-- The end of `valid_move`, after the switch: the self-check test on the new
board, then the checkmate flag. -/
def valid_move_finish (piece_id new_position : Nat) (piece_positions : Board)
    (is_whites_move : Bool) (s : MoveResult) : MoveResult :=
  let new_piece_positions :=
    board_after piece_positions piece_id new_position s.captured_piece_index
  if in_check is_whites_move new_piece_positions s.promoted_pawns s.promoted_pawn_types then
    { s with ok := false }
  else
    { s with ok := true,
             checkmate := in_checkmate (!is_whites_move) new_piece_positions
               s.promoted_pawns s.promoted_pawn_types }

/-- The function `valid_move`. The argument `en_passant_idx` is the value of
the reference on entry; the first statement of the body overwrites it with 32. -/
def valid_move (piece_id new_position : Nat) (piece_positions : Board)
    (castle _en_passant_idx promoted_pawns promoted_pawn_types promotion_type
      captured_piece_index : Nat) (checkmate : Bool) : MoveResult :=
  let current_position := piece_positions piece_id
  let is_whites_move := decide (piece_id < 16)
  let s0 := entry_state castle promoted_pawns promoted_pawn_types captured_piece_index checkmate
  if current_position = 0 then s0
  else if current_position = new_position then s0
  else
    let s := valid_move_switch piece_id new_position current_position is_whites_move
      piece_positions promotion_type s0
    if !s.ok then s
    else valid_move_finish piece_id new_position piece_positions is_whites_move s

/-! ## The game record and the `move` action -/

/-- The table row `struct game`. Account names are numbers, the empty name
being 0. -/
structure Game where
  /-- The primary key. -/
  game_id : Nat
  /-- The account playing Black. -/
  player_b : Nat
  /-- The account playing White. -/
  player_w : Nat
  /-- The winner, the empty name while the game is in progress. -/
  winner : Nat
  /-- The player who has declared a draw. -/
  draw_decl : Nat
  /-- The number of accepted moves, a `uint32_t`. -/
  move_count : Nat
  /-- The castling mask. -/
  castle : Nat
  /-- The slot of the pawn that has just advanced two squares, or 32. -/
  en_passant_idx : Nat
  /-- The promotion flags. -/
  promoted_pawns : Nat
  /-- The promotion kinds. -/
  promoted_pawn_types : Nat
  /-- The board. -/
  piece_positions : Board

/-- The row that `newgame` emplaces: the member initialisers of `struct game`. -/
def new_game (game_id player_w player_b : Nat) : Game :=
  { game_id := game_id, player_b := player_b, player_w := player_w, winner := 0,
    draw_decl := 0, move_count := 0, castle := 0, en_passant_idx := 32, promoted_pawns := 0,
    promoted_pawn_types := 0, piece_positions := start_positions }

/-- The body of the `modify` call of `move`, for the king slot `king` of the
mover (0 in the White branch, 16 in the Black branch) with its two castling
destinations and rook relocations. -/
def modify_row (itr : Game) (player piece_id new_position : Nat) (r : MoveResult)
    (checkmate : Bool) (king near_square near_rook near_rook_square far_square far_rook
      far_rook_square : Nat) : Game :=
  let positions := board_after itr.piece_positions piece_id new_position r.captured_piece_index
  let castled : Board :=
    if itr.castle ≠ r.castle ∧ piece_id = king then
      if new_position = near_square then Function.update positions near_rook near_rook_square
      else if new_position = far_square then Function.update positions far_rook far_rook_square
      else positions
    else positions
  { itr with
    piece_positions := castled
    move_count := (itr.move_count + 1) % 4294967296
    castle := if itr.castle ≠ r.castle then r.castle else itr.castle
    promoted_pawns := r.promoted_pawns
    promoted_pawn_types := r.promoted_pawn_types
    en_passant_idx := r.en_passant_idx
    winner := if checkmate then player else itr.winner }

/-- The part of `move` that follows a successful `game_index.find`: `none`
when the action returns without calling `modify`, the modified row otherwise.
`self` is the contract account. `stray` stands for the flag `checkmate` when
`in_checkmate` has read outside the board vector. -/
def move_row (self : Nat) (stray : Bool) (itr : Game)
    (player piece_id new_position promotion_type : Nat) : Option Game :=
  if itr.winner = self then none
  else if itr.winner ≠ 0 then none
  else
    let r := valid_move piece_id new_position itr.piece_positions itr.castle itr.en_passant_idx
      itr.promoted_pawns itr.promoted_pawn_types promotion_type 32 false
    let checkmate := r.checkmate.getD stray
    if player = itr.player_w then
      if itr.move_count % 2 ≠ 0 then none
      else if piece_id > 15 then none
      else if r.ok then
        some (modify_row itr player piece_id new_position r checkmate 0 2 6 3 6 7 5)
      else none
    else if player = itr.player_b then
      if itr.move_count % 2 = 0 then none
      else if piece_id < 16 then none
      else if r.ok then
        some (modify_row itr player piece_id new_position r checkmate 16 58 22 59 62 23 61)
      else none
    else none

/-- The action `move` on the table `game_index`, a map from the game id to the
row. -/
def move (self : Nat) (stray : Bool) (game_index : Nat → Option Game)
    (player game_id piece_id new_position promotion_type : Nat) : Nat → Option Game :=
  if new_position > 64 ∨ new_position = 0 then game_index
  else if piece_id > 31 then game_index
  else
    match game_index game_id with
    | none => game_index
    | some itr =>
      match move_row self stray itr player piece_id new_position promotion_type with
      | none => game_index
      | some row => Function.update game_index game_id (some row)

/-- The board invariant: no two slots with a nonzero square stand on the same
square. -/
def no_shared_square (piece_positions : Board) : Prop :=
  ∀ i < 32, ∀ j < 32, i ≠ j → piece_positions i ≠ 0 → piece_positions i ≠ piece_positions j

instance (piece_positions : Board) : Decidable (no_shared_square piece_positions) := by
  unfold no_shared_square; infer_instance

/-! ## Positions and tables used in the statements -/

/-- The table that holds one row. -/
def single_game (g : Game) : Nat → Option Game :=
  fun game_id => if game_id = g.game_id then some g else none

/-- The board of a game of the table; the board with every slot captured
when the table has no such game. -/
def board_in (game_index : Nat → Option Game) (game_id : Nat) : Board :=
  match game_index game_id with
  | some g => g.piece_positions
  | none => fun _ => 0

/-- The en-passant index of a game of the table, 32 when there is no such game. -/
def en_passant_in (game_index : Nat → Option Game) (game_id : Nat) : Nat :=
  match game_index game_id with
  | some g => g.en_passant_idx
  | none => 32

/-- The move counter of a game of the table, 0 when there is no such game. -/
def move_count_in (game_index : Nat → Option Game) (game_id : Nat) : Nat :=
  match game_index game_id with
  | some g => g.move_count
  | none => 0

/-- A table with game 7 between the accounts 100 (White) and 200 (Black), as
`newgame` creates it. The contract account is 1 in the examples. -/
def opening_table : Nat → Option Game := single_game (new_game 7 100 200)

/-- The starting position without White pawn slot 11 and with Black rook
slot 22 on square 12, where it attacks the White king on square 4. -/
def rook_check_board : Board :=
  board_of [4, 5, 3, 6, 2, 7, 1, 8, 9, 10, 11, 0, 13, 14, 15, 16,
            60, 61, 59, 62, 58, 63, 12, 64, 49, 50, 51, 52, 53, 54, 55, 56]

/-- Game 7 after four accepted moves from the opening: White pawn slot 9 to
18, Black pawn slot 24 to 41, White bishop slot 2 to 10, Black pawn slot 24
to 33. Square 3 is empty and White knight slot 4 still stands on square 2. -/
def knight_castle_table : Nat → Option Game :=
  move 1 false (move 1 false (move 1 false (move 1 false opening_table
    100 7 9 18 0) 200 7 24 41 0) 100 7 2 10 0) 200 7 24 33 0

/-- Game 7 after four accepted moves from the opening: White pawn slot 12
from 13 to 29, Black pawn slot 24 to 41, White pawn slot 12 to 37, Black pawn
slot 27 from 52 to 36, two squares, which stores 27 as the en-passant index. -/
def en_passant_table : Nat → Option Game :=
  move 1 false (move 1 false (move 1 false (move 1 false opening_table
    100 7 12 29 0) 200 7 24 41 0) 100 7 12 37 0) 200 7 27 36 0

/-- The board of `en_passant_table`. -/
def en_passant_board : Board :=
  board_of [4, 5, 3, 6, 2, 7, 1, 8, 9, 10, 11, 12, 37, 14, 15, 16,
            60, 61, 59, 62, 58, 63, 57, 64, 41, 50, 51, 36, 53, 54, 55, 56]

/-- The move of a pawn slot that is not promoted (by the registry on entry)
to the square two rows ahead: 16 squares up for a White pawn slot, 16 squares
down for a Black one. -/
def double_pawn_advance (piece_id new_position : Nat) (piece_positions : Board)
    (promoted_pawns promoted_pawn_types : Nat) : Prop :=
  (is_pawn_promoted piece_id promoted_pawns promoted_pawn_types 0).1 = false
  ∧ ((8 ≤ piece_id ∧ piece_id ≤ 15 ∧ new_position = piece_positions piece_id + 16)
    ∨ (24 ≤ piece_id ∧ piece_id ≤ 31 ∧ piece_positions piece_id = new_position + 16))

instance (piece_id new_position : Nat) (piece_positions : Board)
    (promoted_pawns promoted_pawn_types : Nat) :
    Decidable (double_pawn_advance piece_id new_position piece_positions promoted_pawns
      promoted_pawn_types) := by
  unfold double_pawn_advance; infer_instance

/-- A castling request: the White king, slot 0, from square 4 to 2 or 6, or
the Black king, slot 16, from square 60 to 58 or 62. -/
def castling_request (piece_id current_position new_position : Nat) : Prop :=
  (piece_id = 0 ∧ current_position = 4 ∧ (new_position = 2 ∨ new_position = 6))
  ∨ (piece_id = 16 ∧ current_position = 60 ∧ (new_position = 58 ∨ new_position = 62))

instance (piece_id current_position new_position : Nat) :
    Decidable (castling_request piece_id current_position new_position) := by
  unfold castling_request; infer_instance

/-- The rook slot of a castling destination: 6 for square 2, 7 for square 6,
22 for square 58, 23 for square 62. -/
def castling_rook (new_position : Nat) : Nat :=
  if new_position = 2 then 6 else if new_position = 6 then 7
  else if new_position = 58 then 22 else 23

/-- The square next to the castled king on which the rook is put: 3, 5, 59
or 61. -/
def rook_landing (new_position : Nat) : Nat :=
  if new_position = 2 then 3 else if new_position = 6 then 5
  else if new_position = 58 then 59 else 61

/-- The row `(s - 1) / 8` of a square 1..64. -/
def row_index (square : Nat) : Int := ((square - 1) / 8 : Nat)

/-- The column `(s - 1) % 8` of a square 1..64. -/
def col_index (square : Nat) : Int := ((square - 1) % 8 : Nat)

/-- Square `t` lies strictly between the squares `a` and `b` on the row,
column or diagonal that joins them: all three are squares 1..64, `b` is
reached from `a` along a row, a column or a diagonal, and `t` is a point of
the open segment from `a` to `b` (collinear with it, and its projection falls
strictly inside). -/
def strictly_between (a b t : Nat) : Prop :=
  (1 ≤ a ∧ a ≤ 64) ∧ (1 ≤ b ∧ b ≤ 64) ∧ (1 ≤ t ∧ t ≤ 64)
  ∧ (row_index b - row_index a = 0 ∨ col_index b - col_index a = 0
      ∨ row_index b - row_index a = col_index b - col_index a
      ∨ row_index b - row_index a = -(col_index b - col_index a))
  ∧ (row_index t - row_index a) * (col_index b - col_index a)
      = (col_index t - col_index a) * (row_index b - row_index a)
  ∧ 0 < (row_index t - row_index a) * (row_index b - row_index a)
        + (col_index t - col_index a) * (col_index b - col_index a)
  ∧ (row_index t - row_index a) * (row_index b - row_index a)
        + (col_index t - col_index a) * (col_index b - col_index a)
      < (row_index b - row_index a) * (row_index b - row_index a)
        + (col_index b - col_index a) * (col_index b - col_index a)

instance (a b t : Nat) : Decidable (strictly_between a b t) := by
  unfold strictly_between; infer_instance

/-- The mask that `valid_move` tests for a castling destination: `W_CAS_K` for
square 2, `W_CAS_Q` for square 6, `B_CAS_K` for square 58, `B_CAS_Q` for
square 62. -/
def castling_mask (new_position : Nat) : Nat :=
  if new_position = 2 then W_CAS_K else if new_position = 6 then W_CAS_Q
  else if new_position = 58 then B_CAS_K else B_CAS_Q

/-- A position with the squares 2 and 3 between the White king and the rook
slot 6 empty: pawn slot 9 on 18, bishop slot 2 on 10, knight slot 4 on 19. -/
def castle_ready_board : Board :=
  board_of [4, 5, 10, 6, 19, 7, 1, 8, 9, 18, 11, 12, 13, 14, 15, 16,
            60, 61, 59, 62, 58, 63, 57, 64, 49, 50, 51, 52, 53, 54, 55, 56]

/-- A row of game 7 with `castle_ready_board`, White to move. -/
def castle_ready_game : Game :=
  { new_game 7 100 200 with piece_positions := castle_ready_board, move_count := 4 }

/-- The row after White's castling request from 4 to 2 in `castle_ready_game`
(the row itself if the request were rejected). -/
def castled_game : Game :=
  (move_row 1 false castle_ready_game 100 0 2 0).getD castle_ready_game

/-- One call of the `move` action: the arguments of the action, and the
`stray` flag of that call. -/
structure MoveCall where
  /-- The flag `checkmate` of this call when `in_checkmate` reads outside the
  board vector. -/
  stray : Bool
  /-- The argument `player`. -/
  player : Nat
  /-- The argument `game_id`. -/
  game_id : Nat
  /-- The argument `piece_id`. -/
  piece_id : Nat
  /-- The argument `new_position`. -/
  new_position : Nat
  /-- The argument `promotion_type`. -/
  promotion_type : Nat

/-- The table after a sequence of calls of `move`, accepted or not. -/
def play (self : Nat) (game_index : Nat → Option Game) : List MoveCall → (Nat → Option Game)
  | [] => game_index
  | c :: rest =>
    play self (move self c.stray game_index c.player c.game_id c.piece_id c.new_position
      c.promotion_type) rest

/-- The castling mask of a game of the table, 0 when there is no such game. -/
def castle_in (game_index : Nat → Option Game) (game_id : Nat) : Nat :=
  match game_index game_id with
  | some g => g.castle
  | none => 0

/-- Game 7 after two accepted moves from the opening: White pawn slot 8 from 9
to 25, Black pawn slot 24 from 49 to 33. Both rooks of the a-side have the
square ahead of them free. -/
def rook_lift_table : Nat → Option Game :=
  move 1 false (move 1 false opening_table 100 7 8 25 0) 200 7 24 33 0

/-- The board of `rook_lift_table`. -/
def rook_lift_board : Board :=
  board_of [4, 5, 3, 6, 2, 7, 1, 8, 25, 10, 11, 12, 13, 14, 15, 16,
            60, 61, 59, 62, 58, 63, 57, 64, 33, 50, 51, 52, 53, 54, 55, 56]

/-- The pawn slots: 8..15 for White, 24..31 for Black. -/
def is_pawn_slot (slot : Nat) : Prop := (8 ≤ slot ∧ slot ≤ 15) ∨ (24 ≤ slot ∧ slot ≤ 31)

instance (slot : Nat) : Decidable (is_pawn_slot slot) := by
  unfold is_pawn_slot; infer_instance

/-- The move of a pawn slot onto its promotion rank: a White pawn slot to a
square above 56, a Black pawn slot to a square below 9. -/
def reaches_promotion_rank (piece_id new_position : Nat) : Prop :=
  (8 ≤ piece_id ∧ piece_id ≤ 15 ∧ new_position > 56)
  ∨ (24 ≤ piece_id ∧ piece_id ≤ 31 ∧ new_position < 9)

instance (piece_id new_position : Nat) :
    Decidable (reaches_promotion_rank piece_id new_position) := by
  unfold reaches_promotion_rank; infer_instance

/-- A position with White pawn slot 8 on square 49, one step from its
promotion rank: Black pawn slot 24 and Black rook slot 22 are captured. -/
def promotion_board : Board :=
  board_of [4, 5, 3, 6, 2, 7, 1, 8, 49, 10, 11, 12, 13, 14, 15, 16,
            60, 61, 59, 62, 58, 63, 0, 64, 0, 50, 51, 52, 53, 54, 55, 56]

/-- The position of `promotion_board` with pawn slot 8 on square 57, next to
Black knight slot 20 on square 58. -/
def promoted_board : Board :=
  board_of [4, 5, 3, 6, 2, 7, 1, 8, 57, 10, 11, 12, 13, 14, 15, 16,
            60, 61, 59, 62, 58, 63, 0, 64, 0, 50, 51, 52, 53, 54, 55, 56]

/-- The winner of a game of the table, the empty name 0 when there is no such
game. -/
def winner_in (game_index : Nat → Option Game) (game_id : Nat) : Nat :=
  match game_index game_id with
  | some g => g.winner
  | none => 0

/-- Game 7 after eight accepted moves from the opening: White moves pawn slot
15 from 16 to 24, 32 and 40 and pawn slot 14 from 15 to 23, while Black knight
slot 20 goes from 58 over 41, 35 and 25 to square 19. -/
def smothered_table : Nat → Option Game :=
  play 1 opening_table
    [⟨false, 100, 7, 15, 24, 0⟩, ⟨false, 200, 7, 20, 41, 0⟩,
     ⟨false, 100, 7, 15, 32, 0⟩, ⟨false, 200, 7, 20, 35, 0⟩,
     ⟨false, 100, 7, 15, 40, 0⟩, ⟨false, 200, 7, 20, 25, 0⟩,
     ⟨false, 100, 7, 14, 23, 0⟩, ⟨false, 200, 7, 20, 19, 0⟩]

/-- The board of `smothered_table`: Black knight slot 20 on square 19 attacks
the White king on square 4, which has its own pieces on every neighbouring
square. -/
def smothered_board : Board :=
  board_of [4, 5, 3, 6, 2, 7, 1, 8, 9, 10, 11, 12, 13, 14, 23, 40,
            60, 61, 59, 62, 19, 63, 57, 64, 49, 50, 51, 52, 53, 54, 55, 56]

/-- A board with the White king on square 28, the Black king beside it on
square 29 and every other slot captured. -/
def adjacent_kings_board : Board :=
  board_of [28, 0, 0, 0, 0, 0, 0, 0, 0, 0, 0, 0, 0, 0, 0, 0,
            29, 0, 0, 0, 0, 0, 0, 0, 0, 0, 0, 0, 0, 0, 0, 0]

/-- The verdict of `valid_knight_move` on the board with every slot captured:
for a destination 1..64 nothing stands on it, so only the tests of the offset
and of the edges decide. -/
def knight_step (current_position new_position : Nat) : Bool :=
  (valid_knight_move current_position new_position (fun _ => 0) true 0).1

/-- Square `b` is reached from square `a` by `k` steps, `k` at least 1, each
of `row_step` rows and `col_step` columns. A board has 8 rows, so `k` is at
most 7. -/
def diagonal_shift (a b : Nat) (row_step col_step : Int) : Prop :=
  ∃ k, k < 8 ∧ 1 ≤ k ∧ row_index b = row_index a + row_step * (k : Nat)
    ∧ col_index b = col_index a + col_step * (k : Nat)

instance (a b : Nat) (row_step col_step : Int) :
    Decidable (diagonal_shift a b row_step col_step) := by
  unfold diagonal_shift; infer_instance

/-- Square `t` is a square of the line from `a` to `b`, strictly between
them: for one of the eight one-square steps (a row step and a column step in
-1, 0, 1, not both 0), `b` is `n` steps from `a` and `t` is `j` steps from
`a` with `0 < j < n`. A line of the board has 8 squares, so `n` is at most 7. -/
def steps_between (a b t : Nat) : Prop :=
  ∃ row_step ∈ [-1, 0, 1], ∃ col_step ∈ [-1, 0, 1], (row_step ≠ 0 ∨ col_step ≠ 0)
    ∧ ∃ n, n < 8 ∧ ∃ j, j < n ∧ 0 < j
      ∧ row_index b = row_index a + row_step * (n : Nat)
      ∧ col_index b = col_index a + col_step * (n : Nat)
      ∧ row_index t = row_index a + row_step * (j : Nat)
      ∧ col_index t = col_index a + col_step * (j : Nat)

instance (a b t : Nat) : Decidable (steps_between a b t) := by
  unfold steps_between; infer_instance

/-- The verdict of `valid_king_move` on the board with every slot captured:
for a destination 1..64 nothing stands on it, so only the tests of the offset
and of the edges decide. -/
def king_step (current_position new_position : Nat) : Bool :=
  (valid_king_move current_position new_position 0 (fun _ => 0) true 0).1

/-- Square `b` is a neighbour of square `a`: another square, at most one row
and at most one column away. -/
def king_adjacent (a b : Nat) : Prop :=
  a ≠ b ∧ (row_index a - row_index b).natAbs ≤ 1 ∧ (col_index a - col_index b).natAbs ≤ 1

instance (a b : Nat) : Decidable (king_adjacent a b) := by
  unfold king_adjacent; infer_instance

/-- Square `b` is a knight leap from square `a`: one row and two columns away,
or two rows and one column. -/
def knight_leap (a b : Nat) : Prop :=
  ((row_index a - row_index b).natAbs = 1 ∧ (col_index a - col_index b).natAbs = 2)
  ∨ ((row_index a - row_index b).natAbs = 2 ∧ (col_index a - col_index b).natAbs = 1)

instance (a b : Nat) : Decidable (knight_leap a b) := by
  unfold knight_leap; infer_instance

/-- The action `concede` on the table `game_index`. -/
def concede (game_index : Nat → Option Game) (player game_id : Nat) : Nat → Option Game :=
  match game_index game_id with
  | some itr =>
    if player = itr.player_b then
      Function.update game_index game_id (some { itr with winner := itr.player_w })
    else if player = itr.player_w then
      Function.update game_index game_id (some { itr with winner := itr.player_b })
    else game_index
  | none => game_index

/-- The action `draw` on the table `game_index`; `self` is the contract
account. -/
def draw (self : Nat) (game_index : Nat → Option Game) (player game_id : Nat) :
    Nat → Option Game :=
  match game_index game_id with
  | some itr =>
    if itr.player_w = player ∨ itr.player_b = player then
      Function.update game_index game_id (some
        (if itr.draw_decl = 0 then { itr with draw_decl := player }
         else if (player = itr.player_b ∧ itr.draw_decl = itr.player_w)
             ∨ (player = itr.player_w ∧ itr.draw_decl = itr.player_b) then
           { itr with winner := self }
         else itr))
    else game_index
  | none => game_index

/-- The reasons for which `move` refuses a request once the row `itr` is
found: the game is drawn or won, the caller is neither player, it is not the
caller's turn, the slot is of the other colour, or `valid_move` returns
`false`. -/
def row_refused (self : Nat) (itr : Game) (player piece_id new_position promotion_type : Nat) :
    Prop :=
  itr.winner = self ∨ itr.winner ≠ 0
  ∨ (player ≠ itr.player_w ∧ player ≠ itr.player_b)
  ∨ (player = itr.player_w ∧ (itr.move_count % 2 ≠ 0 ∨ piece_id > 15))
  ∨ (player ≠ itr.player_w ∧ player = itr.player_b ∧ (itr.move_count % 2 = 0 ∨ piece_id < 16))
  ∨ (valid_move piece_id new_position itr.piece_positions itr.castle itr.en_passant_idx
      itr.promoted_pawns itr.promoted_pawn_types promotion_type 32 false).ok = false

instance (self : Nat) (itr : Game) (player piece_id new_position promotion_type : Nat) :
    Decidable (row_refused self itr player piece_id new_position promotion_type) := by
  unfold row_refused; infer_instance

/-- The reasons for which `move` refuses a request: the destination or the
slot id is out of range, the table has no such game, or the row is found and
one of the reasons of `row_refused` holds. -/
def move_refused (self : Nat) (game_index : Nat → Option Game)
    (player game_id piece_id new_position promotion_type : Nat) : Prop :=
  new_position > 64 ∨ new_position = 0 ∨ piece_id > 31
  ∨ match game_index game_id with
    | none => True
    | some itr => row_refused self itr player piece_id new_position promotion_type

instance (self : Nat) (game_index : Nat → Option Game)
    (player game_id piece_id new_position promotion_type : Nat) :
    Decidable (move_refused self game_index player game_id piece_id new_position
      promotion_type) := by
  unfold move_refused
  cases game_index game_id <;> infer_instance

/-- The starting position with the White king, slot 0, on square 20 and Black
rook slot 22 on square 45: the rook attacks square 21 down its column. -/
def king_walk_board : Board :=
  board_of [20, 5, 3, 6, 2, 7, 1, 8, 9, 10, 11, 12, 13, 14, 15, 16,
            60, 61, 59, 62, 58, 63, 45, 64, 49, 50, 51, 52, 53, 54, 55, 56]

/-- The position of `promotion_board` without White pawn slot 11 and with
Black rook slot 23 on square 12, where it attacks the White king on square 4. -/
def checked_promotion_board : Board :=
  board_of [4, 5, 3, 6, 2, 7, 1, 8, 49, 10, 11, 0, 13, 14, 15, 16,
            60, 61, 59, 62, 58, 63, 0, 12, 0, 50, 51, 52, 53, 54, 55, 56]

/-- A table with game 7 between the accounts 100 (White) and 200 (Black) on a
given board, White to move, everything else as `newgame` creates it. -/
def table_on (piece_positions : Board) : Nat → Option Game :=
  single_game { new_game 7 100 200 with piece_positions := piece_positions }

/-- Game 7 after two accepted moves from the opening: White pawn slot 8 from 9
to 17, Black pawn slot 24 from 49 to 41. -/
def late_double_table : Nat → Option Game :=
  play 1 opening_table [⟨false, 100, 7, 8, 17, 0⟩, ⟨false, 200, 7, 24, 41, 0⟩]

/-- Game 7 after ten accepted moves from the opening. White plays knight slot
4 from 2 to 19, pawn slot 9 from 10 to 18, bishop slot 2 from 3 to 10 and pawn
slot 15 from 16 to 24 and 32; Black knight slot 20 goes from 58 over 43 and 26
to 11, where it captures pawn slot 10, then to square 1, where it captures
rook slot 6, and back to 11. The White king and rook slot 7 have not moved. -/
def lost_rook_table : Nat → Option Game :=
  play 1 opening_table
    [⟨false, 100, 7, 4, 19, 0⟩, ⟨false, 200, 7, 20, 43, 0⟩,
     ⟨false, 100, 7, 9, 18, 0⟩, ⟨false, 200, 7, 20, 26, 0⟩,
     ⟨false, 100, 7, 2, 10, 0⟩, ⟨false, 200, 7, 20, 11, 0⟩,
     ⟨false, 100, 7, 15, 24, 0⟩, ⟨false, 200, 7, 20, 1, 0⟩,
     ⟨false, 100, 7, 15, 32, 0⟩, ⟨false, 200, 7, 20, 11, 0⟩]

/-- The row of game 7 before the last move of `smothered_table`: Black knight
slot 20 stands on square 25, Black to move. -/
def smothering_game : Game :=
  { new_game 7 100 200 with
    move_count := 7
    piece_positions :=
      board_of [4, 5, 3, 6, 2, 7, 1, 8, 9, 10, 11, 12, 13, 14, 23, 40,
                60, 61, 59, 62, 25, 63, 57, 64, 49, 50, 51, 52, 53, 54, 55, 56] }

/-- A position with Black rook slot 22 captured and the squares 58 and 59
empty: Black pawn slot 25 stands on 42, bishop slot 18 on 50, knight slot 20
on 43. -/
def lost_black_rook_board : Board :=
  board_of [4, 5, 3, 6, 2, 7, 1, 8, 9, 10, 11, 12, 13, 14, 15, 16,
            60, 61, 50, 62, 43, 63, 0, 64, 49, 42, 51, 52, 53, 54, 55, 56]

/-- The promotion registry of a game of the table, `promoted_pawns` and
`promoted_pawn_types`; the empty registry when there is no such game. -/
def registry_in (game_index : Nat → Option Game) (game_id : Nat) : Nat × Nat :=
  match game_index game_id with
  | some g => (g.promoted_pawns, g.promoted_pawn_types)
  | none => (0, 0)

/-- Game 7 after ten accepted moves from the opening. White pawn slot 8 goes
from 9 over 25, 33 and 41 to 50, where it captures pawn slot 25, and to 57,
where it captures rook slot 22 and is promoted with `promotion_type` 2, a
rook; Black knight slot 21 goes back and forth between 63 and 48. -/
def promoted_rook_table : Nat → Option Game :=
  play 1 opening_table
    [⟨false, 100, 7, 8, 25, 0⟩, ⟨false, 200, 7, 21, 48, 0⟩,
     ⟨false, 100, 7, 8, 33, 0⟩, ⟨false, 200, 7, 21, 63, 0⟩,
     ⟨false, 100, 7, 8, 41, 0⟩, ⟨false, 200, 7, 21, 48, 0⟩,
     ⟨false, 100, 7, 8, 50, 0⟩, ⟨false, 200, 7, 21, 63, 0⟩,
     ⟨false, 100, 7, 8, 57, 2⟩, ⟨false, 200, 7, 21, 48, 0⟩]

/-- Square `new_position` is one row ahead of square `current_position` for
the colour, and one column to its side. -/
def one_step_diagonal (is_whites_move : Bool) (current_position new_position : Nat) : Prop :=
  row_index new_position = row_index current_position + (if is_whites_move then 1 else -1)
  ∧ (col_index new_position - col_index current_position).natAbs = 1

instance (is_whites_move : Bool) (current_position new_position : Nat) :
    Decidable (one_step_diagonal is_whites_move current_position new_position) := by
  unfold one_step_diagonal; infer_instance

/-- Game 7 after six accepted moves from the opening: White pawn slot 11 goes
from 12 over 20 and 28 to 36, Black knight slot 20 from 58 over 41 and 35 to
25. White pawn slot 15 still stands on square 16. -/
def wrap_capture_table : Nat → Option Game :=
  play 1 opening_table
    [⟨false, 100, 7, 11, 20, 0⟩, ⟨false, 200, 7, 20, 41, 0⟩,
     ⟨false, 100, 7, 11, 28, 0⟩, ⟨false, 200, 7, 20, 35, 0⟩,
     ⟨false, 100, 7, 11, 36, 0⟩, ⟨false, 200, 7, 20, 25, 0⟩]

/-- The starting position with the White king, slot 0, on square 40, the last
square of the fifth row; Black pawn slot 24 stands on square 49, the first
square of the seventh row. -/
def wrapped_attack_board : Board :=
  board_of [40, 5, 3, 6, 2, 7, 1, 8, 9, 10, 11, 12, 13, 14, 15, 16,
            60, 61, 59, 62, 58, 63, 57, 64, 49, 50, 51, 52, 53, 54, 55, 56]

/-- The local `king_pos` that `in_checkmate` declares on entry, the square of
the king, with which its first two probes index `piece_positions` and
`new_piece_positions`. -/
def checkmate_probe_index (check_white : Bool) (piece_positions : Board) : Nat :=
  if check_white then piece_positions 0 else piece_positions 16

/-- Game 7 after ten accepted moves from the opening. White knight slot 5
goes back and forth between 7 and 22; Black pawn slot 27 goes from 52 over 36
to 20, and Black knight slot 20 from 58 over 43 and 28 to 11, where it
captures White pawn slot 10. -/
def knight_capture_table : Nat → Option Game :=
  play 1 opening_table
    [⟨false, 100, 7, 5, 22, 0⟩, ⟨false, 200, 7, 27, 36, 0⟩,
     ⟨false, 100, 7, 5, 7, 0⟩, ⟨false, 200, 7, 27, 20, 0⟩,
     ⟨false, 100, 7, 5, 22, 0⟩, ⟨false, 200, 7, 20, 43, 0⟩,
     ⟨false, 100, 7, 5, 7, 0⟩, ⟨false, 200, 7, 20, 28, 0⟩,
     ⟨false, 100, 7, 5, 22, 0⟩, ⟨false, 200, 7, 20, 11, 0⟩]

/-- The vector `new_piece_positions` of `in_checkmate` for White on the board
of `knight_capture_table`, at the probe with offset 7, built by the stores of
the source in their order. The king's square 4 is the index of the first two
stores, which put slot 4 on square 2 + 1 and then on 2 - 1; the loop over the
offsets -9, -8, -7 stores 4 + offset, as a `uint8_t`, into slot 0, and the
offset 7 stores 11. -/
def capture_probe_board : Board :=
  Function.update (Function.update (Function.update (Function.update (Function.update
    (Function.update (board_in knight_capture_table 7) 4 3) 4 1) 0 251) 0 252) 0 253) 0 11

/-! ## Properties -/

/-- An accepted call of `valid_move` has passed every test: the slot is alive,
the destination differs from its square, the switch did not return `false`,
the new board is not in check, and the result is the state after the switch
with the checkmate flag. -/
theorem valid_move_accepted (piece_id new_position : Nat) (piece_positions : Board)
    (castle en_passant_idx promoted_pawns promoted_pawn_types promotion_type
      captured_piece_index : Nat) (checkmate : Bool)
    (h : (valid_move piece_id new_position piece_positions castle en_passant_idx promoted_pawns
      promoted_pawn_types promotion_type captured_piece_index checkmate).ok = true) :
    piece_positions piece_id ≠ 0 ∧ piece_positions piece_id ≠ new_position
    ∧ (valid_move_switch piece_id new_position (piece_positions piece_id)
        (decide (piece_id < 16)) piece_positions promotion_type
        (entry_state castle promoted_pawns promoted_pawn_types captured_piece_index
          checkmate)).ok = true
    ∧ valid_move piece_id new_position piece_positions castle en_passant_idx promoted_pawns
        promoted_pawn_types promotion_type captured_piece_index checkmate
      = valid_move_finish piece_id new_position piece_positions (decide (piece_id < 16))
          (valid_move_switch piece_id new_position (piece_positions piece_id)
            (decide (piece_id < 16)) piece_positions promotion_type
            (entry_state castle promoted_pawns promoted_pawn_types captured_piece_index
              checkmate)) := by
  unfold valid_move at h ⊢
  simp only at h ⊢
  by_cases h1 : piece_positions piece_id = 0
  · simp [h1, entry_state] at h
  by_cases h2 : piece_positions piece_id = new_position
  · simp [h1, h2, entry_state] at h
  rw [if_neg h1, if_neg h2] at h ⊢
  by_cases h3 : (valid_move_switch piece_id new_position (piece_positions piece_id)
        (decide (piece_id < 16)) piece_positions promotion_type
        (entry_state castle promoted_pawns promoted_pawn_types captured_piece_index
          checkmate)).ok = true
  · simp [h3, h1, h2]
  · simp [h3] at h

/-- The end of `valid_move` changes the verdict and the checkmate flag only. -/
theorem valid_move_finish_fields (piece_id new_position : Nat) (piece_positions : Board)
    (is_whites_move : Bool) (s : MoveResult) :
    (valid_move_finish piece_id new_position piece_positions is_whites_move s).castle = s.castle
    ∧ (valid_move_finish piece_id new_position piece_positions is_whites_move s).en_passant_idx
        = s.en_passant_idx
    ∧ (valid_move_finish piece_id new_position piece_positions is_whites_move s).promoted_pawns
        = s.promoted_pawns
    ∧ (valid_move_finish piece_id new_position piece_positions is_whites_move
        s).promoted_pawn_types = s.promoted_pawn_types
    ∧ (valid_move_finish piece_id new_position piece_positions is_whites_move
        s).captured_piece_index = s.captured_piece_index := by
  unfold valid_move_finish
  simp only
  split_ifs <;> simp

/-- The end of `valid_move` accepts only a new board that is not in check. -/
theorem valid_move_finish_ok (piece_id new_position : Nat) (piece_positions : Board)
    (is_whites_move : Bool) (s : MoveResult)
    (h : (valid_move_finish piece_id new_position piece_positions is_whites_move s).ok = true) :
    in_check is_whites_move
      (board_after piece_positions piece_id new_position s.captured_piece_index)
      s.promoted_pawns s.promoted_pawn_types = false := by
  unfold valid_move_finish at h
  simp only at h
  split_ifs at h with h4
  simpa using h4

/-- C1. Self-check rejection: whenever `valid_move` accepts a move, `in_check`
for the mover's colour is false on the resulting board, that is the board with
the moved slot on its destination and the captured slot, if any, on square 0
(with the promotion registry the call returns). -/
theorem valid_move_rejects_self_check (piece_id new_position : Nat) (piece_positions : Board)
    (castle en_passant_idx promoted_pawns promoted_pawn_types promotion_type
      captured_piece_index : Nat) (checkmate : Bool)
    (h : (valid_move piece_id new_position piece_positions castle en_passant_idx promoted_pawns
      promoted_pawn_types promotion_type captured_piece_index checkmate).ok = true) :
    in_check (decide (piece_id < 16))
      (board_after piece_positions piece_id new_position
        (valid_move piece_id new_position piece_positions castle en_passant_idx promoted_pawns
          promoted_pawn_types promotion_type captured_piece_index checkmate).captured_piece_index)
      (valid_move piece_id new_position piece_positions castle en_passant_idx promoted_pawns
          promoted_pawn_types promotion_type captured_piece_index checkmate).promoted_pawns
      (valid_move piece_id new_position piece_positions castle en_passant_idx promoted_pawns
          promoted_pawn_types promotion_type captured_piece_index checkmate).promoted_pawn_types
      = false := by
  obtain ⟨_, _, _, hfin⟩ := valid_move_accepted _ _ _ _ _ _ _ _ _ _ h
  rw [hfin] at h ⊢
  obtain ⟨_, _, hp, ht, hc⟩ := valid_move_finish_fields piece_id new_position piece_positions
    (decide (piece_id < 16)) (valid_move_switch piece_id new_position (piece_positions piece_id)
      (decide (piece_id < 16)) piece_positions promotion_type
      (entry_state castle promoted_pawns promoted_pawn_types captured_piece_index checkmate))
  rw [hp, ht, hc]
  exact valid_move_finish_ok _ _ _ _ _ h

/-- Spec scenario 5 as an instance of C1: Black rook slot 22 on square 12
checks the White king; the White queen, slot 1, captures it from square 5, the
move is accepted, and the king is not in check on the resulting board. -/
theorem valid_move_rejects_self_check_witness :
    in_check true rook_check_board 0 0 = true
    ∧ (valid_move 1 12 rook_check_board 0 32 0 0 0 32 false).ok = true
    ∧ (valid_move 1 12 rook_check_board 0 32 0 0 0 32 false).captured_piece_index = 22
    ∧ in_check (decide (1 < 16))
        (board_after rook_check_board 1 12
          (valid_move 1 12 rook_check_board 0 32 0 0 0 32 false).captured_piece_index)
        (valid_move 1 12 rook_check_board 0 32 0 0 0 32 false).promoted_pawns
        (valid_move 1 12 rook_check_board 0 32 0 0 0 32 false).promoted_pawn_types = false :=
  ⟨by decide!, by decide!, by decide!,
    valid_move_rejects_self_check 1 12 rook_check_board 0 32 0 0 0 32 false (by decide!)⟩

/-- C2, evaluated where the code breaks it. Game 7 reaches, by four accepted
moves from the opening, a board with no shared square on which square 3 is
empty and White knight slot 4 stands on square 2. The castling request of the
White king, slot 0 from 4 to 2, is then accepted, whatever the undefined
checkmate flag is, and the new board has the king and the knight both on
square 2. -/
theorem castling_lands_on_own_knight :
    entries (board_in knight_castle_table 7)
      = [4, 5, 10, 6, 2, 7, 1, 8, 9, 18, 11, 12, 13, 14, 15, 16,
         60, 61, 59, 62, 58, 63, 57, 64, 33, 50, 51, 52, 53, 54, 55, 56]
    ∧ no_shared_square (board_in knight_castle_table 7)
    ∧ ∀ stray : Bool,
        move_count_in (move 1 stray knight_castle_table 100 7 0 2 0) 7 = 5
        ∧ entries (board_in (move 1 stray knight_castle_table 100 7 0 2 0) 7)
          = [2, 5, 10, 6, 2, 7, 3, 8, 9, 18, 11, 12, 13, 14, 15, 16,
             60, 61, 59, 62, 58, 63, 57, 64, 33, 50, 51, 52, 53, 54, 55, 56]
        ∧ ¬ no_shared_square (board_in (move 1 stray knight_castle_table 100 7 0 2 0) 7) := by
  decide!

/-- C4, evaluated where the code breaks it. In the starting position square
18 is empty and there is no en-passant index (32), yet `valid_pawn_move`
accepts the diagonal step of White pawn slot 8 from 9 to 18 and leaves
`captured_piece_index` at 32; `valid_move` accepts the move, and the `move`
action applies it to a new game. -/
theorem pawn_steps_diagonally_onto_empty_square :
    start_positions 8 = 9
    ∧ (∀ index < 32, start_positions index ≠ 18)
    ∧ valid_pawn_move 8 18 start_positions true 32 0 0 32
        = { ok := true, captured_piece_index := 32, en_passant_idx := 32 }
    ∧ (valid_move 8 18 start_positions 0 32 0 0 0 32 false).ok = true
    ∧ (valid_move 8 18 start_positions 0 32 0 0 0 32 false).captured_piece_index = 32
    ∧ entries (board_in (move 1 false opening_table 100 7 8 18 0) 7)
        = [4, 5, 3, 6, 2, 7, 1, 8, 18, 10, 11, 12, 13, 14, 15, 16,
           60, 61, 59, 62, 58, 63, 57, 64, 49, 50, 51, 52, 53, 54, 55, 56] := by
  decide!

/-- C5, evaluated where the code breaks it. In game 7 Black pawn slot 27 has
just advanced from 52 to 36 beside White pawn slot 12 on square 37, and the
stored en-passant index is 27. White's pawn steps to the empty square 44
behind it. `valid_pawn_move`, given the stored index, reports the capture of
slot 27; `valid_move` overwrites the index with 32 before the evaluator reads
it, accepts the move with `captured_piece_index` 32, and after the `move`
action slot 27 still stands on square 36. -/
theorem en_passant_index_erased_before_use :
    entries (board_in en_passant_table 7) = entries en_passant_board
    ∧ en_passant_in en_passant_table 7 = 27
    ∧ (∀ index < 32, en_passant_board index ≠ 44)
    ∧ valid_pawn_move 12 44 en_passant_board true 32 0 0 27
        = { ok := true, captured_piece_index := 27, en_passant_idx := 27 }
    ∧ (valid_move 12 44 en_passant_board 0 27 0 0 0 32 false).ok = true
    ∧ (valid_move 12 44 en_passant_board 0 27 0 0 0 32 false).captured_piece_index = 32
    ∧ entries (board_in (move 1 false en_passant_table 100 7 12 44 0) 7)
        = [4, 5, 3, 6, 2, 7, 1, 8, 9, 10, 11, 12, 44, 14, 15, 16,
           60, 61, 59, 62, 58, 63, 57, 64, 41, 50, 51, 36, 53, 54, 55, 56] := by
  decide!

/-- An accepted call of `valid_pawn_move` that entered with en-passant index 32
returns the pawn's slot after a two-square advance of a pawn that is not
promoted, and 32 otherwise. -/
theorem valid_pawn_move_en_passant (pawn_index new_position : Nat) (piece_positions : Board)
    (is_whites_move : Bool) (captured_piece_index promoted_pawns promoted_pawn_types : Nat)
    (h : (valid_pawn_move pawn_index new_position piece_positions is_whites_move
      captured_piece_index promoted_pawns promoted_pawn_types 32).ok = true) :
    (valid_pawn_move pawn_index new_position piece_positions is_whites_move
      captured_piece_index promoted_pawns promoted_pawn_types 32).en_passant_idx
      = if (is_pawn_promoted pawn_index promoted_pawns promoted_pawn_types 0).1 = false
          ∧ ((is_whites_move = true ∧ new_position = piece_positions pawn_index + 16)
            ∨ (is_whites_move = false ∧ piece_positions pawn_index = new_position + 16))
        then pawn_index else 32 := by
  unfold valid_pawn_move at h ⊢
  simp only at h ⊢
  split_ifs at h ⊢ <;> simp_all <;> omega

/-- The king cases leave `en_passant_idx` alone. -/
theorem king_case_en_passant (home near_square far_square near far : Nat) (w : Bool)
    (current_position new_position : Nat) (piece_positions : Board) (s : MoveResult) :
    (king_case home near_square far_square near far w current_position new_position
      piece_positions s).en_passant_idx = s.en_passant_idx := by
  unfold king_case
  simp only
  split_ifs <;> rfl

/-- The rook cases leave `en_passant_idx` alone. -/
theorem rook_case_en_passant (r : Bool × Nat) (mask : Nat) (s : MoveResult) :
    (rook_case r mask s).en_passant_idx = s.en_passant_idx := by
  unfold rook_case
  split_ifs <;> rfl

/-- The pawn cases return the en-passant index of `valid_pawn_move`. -/
theorem pawn_case_en_passant_eq (piece_id new_position : Nat) (piece_positions : Board)
    (w : Bool) (promotion_type : Nat) (on_rank : Bool) (s : MoveResult) :
    (pawn_case piece_id new_position piece_positions w promotion_type on_rank s).en_passant_idx
      = (valid_pawn_move piece_id new_position piece_positions w s.captured_piece_index
          s.promoted_pawns s.promoted_pawn_types s.en_passant_idx).en_passant_idx := by
  unfold pawn_case
  simp only
  split_ifs <;> rfl

/-- The pawn cases return the verdict of `valid_pawn_move`. -/
theorem pawn_case_ok (piece_id new_position : Nat) (piece_positions : Board)
    (w : Bool) (promotion_type : Nat) (on_rank : Bool) (s : MoveResult) :
    (pawn_case piece_id new_position piece_positions w promotion_type on_rank s).ok
      = (valid_pawn_move piece_id new_position piece_positions w s.captured_piece_index
          s.promoted_pawns s.promoted_pawn_types s.en_passant_idx).ok := by
  unfold pawn_case
  simp only
  split_ifs with h1 h2
  · simpa using h1
  · simpa using h1
  · simpa using h1

/-- The en-passant index after an accepted pawn case. -/
theorem pawn_case_en_passant (piece_id new_position : Nat) (piece_positions : Board)
    (w : Bool) (promotion_type : Nat) (on_rank : Bool) (s : MoveResult)
    (hs : s.en_passant_idx = 32)
    (h : (pawn_case piece_id new_position piece_positions w promotion_type on_rank s).ok = true) :
    (pawn_case piece_id new_position piece_positions w promotion_type on_rank s).en_passant_idx
      = if (is_pawn_promoted piece_id s.promoted_pawns s.promoted_pawn_types 0).1 = false
          ∧ ((w = true ∧ new_position = piece_positions piece_id + 16)
            ∨ (w = false ∧ piece_positions piece_id = new_position + 16))
        then piece_id else 32 := by
  rw [pawn_case_ok, hs] at h
  rw [pawn_case_en_passant_eq, hs]
  exact valid_pawn_move_en_passant _ _ _ _ _ _ _ h

/-- Which case of the switch runs for which slot. -/
theorem valid_move_switch_shape (piece_id new_position current_position : Nat)
    (is_whites_move : Bool) (piece_positions : Board) (promotion_type : Nat) (s : MoveResult) :
    (piece_id = 0 ∧ valid_move_switch piece_id new_position current_position is_whites_move
        piece_positions promotion_type s
      = king_case 4 2 6 W_CAS_K W_CAS_Q is_whites_move current_position new_position
          piece_positions s)
    ∨ (piece_id = 16 ∧ valid_move_switch piece_id new_position current_position is_whites_move
        piece_positions promotion_type s
      = king_case 60 58 62 B_CAS_K B_CAS_Q is_whites_move current_position new_position
          piece_positions s)
    ∨ ((piece_id = 1 ∨ piece_id = 17)
      ∧ valid_move_switch piece_id new_position current_position is_whites_move
        piece_positions promotion_type s
      = plain_case (valid_queen_move current_position new_position piece_positions
          is_whites_move s.captured_piece_index) s)
    ∨ ((piece_id = 2 ∨ piece_id = 3 ∨ piece_id = 18 ∨ piece_id = 19)
      ∧ valid_move_switch piece_id new_position current_position is_whites_move
        piece_positions promotion_type s
      = plain_case (valid_bishop_move current_position new_position piece_positions
          is_whites_move s.captured_piece_index) s)
    ∨ ((piece_id = 4 ∨ piece_id = 5 ∨ piece_id = 20 ∨ piece_id = 21)
      ∧ valid_move_switch piece_id new_position current_position is_whites_move
        piece_positions promotion_type s
      = plain_case (valid_knight_move current_position new_position piece_positions
          is_whites_move s.captured_piece_index) s)
    ∨ (piece_id = 6 ∧ valid_move_switch piece_id new_position current_position is_whites_move
        piece_positions promotion_type s
      = if !(rook_case (valid_rook_move current_position new_position piece_positions
            is_whites_move s.captured_piece_index) W_CAS_K s).ok then
          rook_case (valid_rook_move current_position new_position piece_positions
            is_whites_move s.captured_piece_index) W_CAS_K s
        else rook_case (valid_rook_move current_position new_position piece_positions
            is_whites_move (rook_case (valid_rook_move current_position new_position
              piece_positions is_whites_move s.captured_piece_index) W_CAS_K
                s).captured_piece_index) W_CAS_Q
            (rook_case (valid_rook_move current_position new_position piece_positions
              is_whites_move s.captured_piece_index) W_CAS_K s))
    ∨ (∃ mask, (piece_id = 7 ∧ mask = W_CAS_Q ∨ piece_id = 22 ∧ mask = B_CAS_K
          ∨ piece_id = 23 ∧ mask = B_CAS_Q)
      ∧ valid_move_switch piece_id new_position current_position is_whites_move
        piece_positions promotion_type s
      = rook_case (valid_rook_move current_position new_position piece_positions
          is_whites_move s.captured_piece_index) mask s)
    ∨ (∃ on_rank, ((8 ≤ piece_id ∧ piece_id ≤ 15 ∧ on_rank = decide (new_position > 56))
          ∨ (24 ≤ piece_id ∧ piece_id ≤ 31 ∧ on_rank = decide (new_position < 9)))
      ∧ valid_move_switch piece_id new_position current_position is_whites_move
        piece_positions promotion_type s
      = pawn_case piece_id new_position piece_positions is_whites_move promotion_type on_rank s)
    ∨ (32 ≤ piece_id ∧ valid_move_switch piece_id new_position current_position is_whites_move
        piece_positions promotion_type s = { s with ok := true }) := by
  by_cases hlt : piece_id < 32
  · interval_cases piece_id
    · exact Or.inl ⟨rfl, rfl⟩
    · exact Or.inr (Or.inr (Or.inl ⟨by omega, rfl⟩))
    · exact Or.inr (Or.inr (Or.inr (Or.inl ⟨by omega, rfl⟩)))
    · exact Or.inr (Or.inr (Or.inr (Or.inl ⟨by omega, rfl⟩)))
    · exact Or.inr (Or.inr (Or.inr (Or.inr (Or.inl ⟨by omega, rfl⟩))))
    · exact Or.inr (Or.inr (Or.inr (Or.inr (Or.inl ⟨by omega, rfl⟩))))
    · exact Or.inr (Or.inr (Or.inr (Or.inr (Or.inr (Or.inl ⟨rfl, rfl⟩)))))
    · exact Or.inr (Or.inr (Or.inr (Or.inr (Or.inr (Or.inr (Or.inl ⟨W_CAS_Q, Or.inl ⟨rfl, rfl⟩, rfl⟩))))))
    · exact Or.inr (Or.inr (Or.inr (Or.inr (Or.inr (Or.inr (Or.inr (Or.inl ⟨_, Or.inl ⟨by omega, by omega, rfl⟩, rfl⟩)))))))
    · exact Or.inr (Or.inr (Or.inr (Or.inr (Or.inr (Or.inr (Or.inr (Or.inl ⟨_, Or.inl ⟨by omega, by omega, rfl⟩, rfl⟩)))))))
    · exact Or.inr (Or.inr (Or.inr (Or.inr (Or.inr (Or.inr (Or.inr (Or.inl ⟨_, Or.inl ⟨by omega, by omega, rfl⟩, rfl⟩)))))))
    · exact Or.inr (Or.inr (Or.inr (Or.inr (Or.inr (Or.inr (Or.inr (Or.inl ⟨_, Or.inl ⟨by omega, by omega, rfl⟩, rfl⟩)))))))
    · exact Or.inr (Or.inr (Or.inr (Or.inr (Or.inr (Or.inr (Or.inr (Or.inl ⟨_, Or.inl ⟨by omega, by omega, rfl⟩, rfl⟩)))))))
    · exact Or.inr (Or.inr (Or.inr (Or.inr (Or.inr (Or.inr (Or.inr (Or.inl ⟨_, Or.inl ⟨by omega, by omega, rfl⟩, rfl⟩)))))))
    · exact Or.inr (Or.inr (Or.inr (Or.inr (Or.inr (Or.inr (Or.inr (Or.inl ⟨_, Or.inl ⟨by omega, by omega, rfl⟩, rfl⟩)))))))
    · exact Or.inr (Or.inr (Or.inr (Or.inr (Or.inr (Or.inr (Or.inr (Or.inl ⟨_, Or.inl ⟨by omega, by omega, rfl⟩, rfl⟩)))))))
    · exact Or.inr (Or.inl ⟨rfl, rfl⟩)
    · exact Or.inr (Or.inr (Or.inl ⟨by omega, rfl⟩))
    · exact Or.inr (Or.inr (Or.inr (Or.inl ⟨by omega, rfl⟩)))
    · exact Or.inr (Or.inr (Or.inr (Or.inl ⟨by omega, rfl⟩)))
    · exact Or.inr (Or.inr (Or.inr (Or.inr (Or.inl ⟨by omega, rfl⟩))))
    · exact Or.inr (Or.inr (Or.inr (Or.inr (Or.inl ⟨by omega, rfl⟩))))
    · exact Or.inr (Or.inr (Or.inr (Or.inr (Or.inr (Or.inr (Or.inl ⟨B_CAS_K, Or.inr (Or.inl ⟨rfl, rfl⟩), rfl⟩))))))
    · exact Or.inr (Or.inr (Or.inr (Or.inr (Or.inr (Or.inr (Or.inl ⟨B_CAS_Q, Or.inr (Or.inr ⟨rfl, rfl⟩), rfl⟩))))))
    · exact Or.inr (Or.inr (Or.inr (Or.inr (Or.inr (Or.inr (Or.inr (Or.inl ⟨_, Or.inr ⟨by omega, by omega, rfl⟩, rfl⟩)))))))
    · exact Or.inr (Or.inr (Or.inr (Or.inr (Or.inr (Or.inr (Or.inr (Or.inl ⟨_, Or.inr ⟨by omega, by omega, rfl⟩, rfl⟩)))))))
    · exact Or.inr (Or.inr (Or.inr (Or.inr (Or.inr (Or.inr (Or.inr (Or.inl ⟨_, Or.inr ⟨by omega, by omega, rfl⟩, rfl⟩)))))))
    · exact Or.inr (Or.inr (Or.inr (Or.inr (Or.inr (Or.inr (Or.inr (Or.inl ⟨_, Or.inr ⟨by omega, by omega, rfl⟩, rfl⟩)))))))
    · exact Or.inr (Or.inr (Or.inr (Or.inr (Or.inr (Or.inr (Or.inr (Or.inl ⟨_, Or.inr ⟨by omega, by omega, rfl⟩, rfl⟩)))))))
    · exact Or.inr (Or.inr (Or.inr (Or.inr (Or.inr (Or.inr (Or.inr (Or.inl ⟨_, Or.inr ⟨by omega, by omega, rfl⟩, rfl⟩)))))))
    · exact Or.inr (Or.inr (Or.inr (Or.inr (Or.inr (Or.inr (Or.inr (Or.inl ⟨_, Or.inr ⟨by omega, by omega, rfl⟩, rfl⟩)))))))
    · exact Or.inr (Or.inr (Or.inr (Or.inr (Or.inr (Or.inr (Or.inr (Or.inl ⟨_, Or.inr ⟨by omega, by omega, rfl⟩, rfl⟩)))))))
  · refine Or.inr (Or.inr (Or.inr (Or.inr (Or.inr (Or.inr (Or.inr (Or.inr ⟨by omega, ?_⟩)))))))
    have slot : ∀ k, k < 32 → ¬ piece_id = k := fun k hk hp => by omega
    have span : ∀ a b, b < 32 → ¬ (a ≤ piece_id ∧ piece_id ≤ b) := fun a b hb hp => by omega
    unfold valid_move_switch
    rw [if_neg (slot 0 (by decide)), if_neg (slot 1 (by decide)), if_neg (span 2 3 (by decide)),
      if_neg (span 4 5 (by decide)), if_neg (slot 6 (by decide)), if_neg (slot 7 (by decide)),
      if_neg (span 8 15 (by decide)), if_neg (slot 16 (by decide)), if_neg (slot 17 (by decide)),
      if_neg (span 18 19 (by decide)), if_neg (span 20 21 (by decide)),
      if_neg (slot 22 (by decide)), if_neg (slot 23 (by decide)), if_neg (span 24 31 (by decide))]

/-- The en-passant index after the switch. -/
theorem valid_move_switch_en_passant (piece_id new_position : Nat) (piece_positions : Board)
    (promotion_type : Nat) (s : MoveResult) (hs : s.en_passant_idx = 32)
    (h : (valid_move_switch piece_id new_position (piece_positions piece_id)
      (decide (piece_id < 16)) piece_positions promotion_type s).ok = true) :
    (valid_move_switch piece_id new_position (piece_positions piece_id)
      (decide (piece_id < 16)) piece_positions promotion_type s).en_passant_idx
      = if double_pawn_advance piece_id new_position piece_positions s.promoted_pawns
          s.promoted_pawn_types then piece_id else 32 := by
  have hno : ∀ p : Prop, (piece_id < 8 ∨ (16 ≤ piece_id ∧ piece_id < 24) ∨ 32 ≤ piece_id) →
      ¬ (p ∧ ((8 ≤ piece_id ∧ piece_id ≤ 15 ∧ new_position = piece_positions piece_id + 16)
          ∨ (24 ≤ piece_id ∧ piece_id ≤ 31 ∧ piece_positions piece_id = new_position + 16))) := by
    intro p hp hq
    omega
  unfold double_pawn_advance
  rcases valid_move_switch_shape piece_id new_position (piece_positions piece_id)
    (decide (piece_id < 16)) piece_positions promotion_type s with
    ⟨hp, e⟩ | ⟨hp, e⟩ | ⟨hp, e⟩ | ⟨hp, e⟩ | ⟨hp, e⟩ | ⟨hp, e⟩ | ⟨mask, hp, e⟩ | ⟨on_rank, hp, e⟩
      | ⟨hp, e⟩
  · rw [e, king_case_en_passant, hs, if_neg (hno _ (by omega))]
  · rw [e, king_case_en_passant, hs, if_neg (hno _ (by omega))]
  · rw [e, if_neg (hno _ (by omega))]; exact hs
  · rw [e, if_neg (hno _ (by omega))]; exact hs
  · rw [e, if_neg (hno _ (by omega))]; exact hs
  · rw [e, if_neg (hno _ (by omega))]
    split_ifs
    · rw [rook_case_en_passant, hs]
    · rw [rook_case_en_passant, rook_case_en_passant, hs]
  · rw [e, rook_case_en_passant, hs, if_neg (hno _ (by omega))]
  · rw [e] at h ⊢
    rw [pawn_case_en_passant _ _ _ _ _ _ _ hs h]
    congr 1
    apply propext
    constructor
    · rintro ⟨h1, h2⟩
      refine ⟨h1, ?_⟩
      simp only [decide_eq_true_eq, decide_eq_false_iff_not] at h2
      omega
    · rintro ⟨h1, h2⟩
      refine ⟨h1, ?_⟩
      simp only [decide_eq_true_eq, decide_eq_false_iff_not]
      omega
  · rw [e, if_neg (hno _ (by omega))]; exact hs

/-- A move of two squares along the row is no king step: `valid_king_move`
returns `false` at its first test and leaves the capture index alone. -/
theorem valid_king_move_two_squares (current_position new_position castle : Nat)
    (piece_positions : Board) (is_whites_move : Bool) (captured_piece_index : Nat)
    (h : new_position = current_position + 2 ∨ current_position = new_position + 2) :
    valid_king_move current_position new_position castle piece_positions is_whites_move
      captured_piece_index = (false, captured_piece_index) := by
  unfold valid_king_move
  simp only
  rw [if_pos]
  omega

/-- The king case for a move of two squares along the row: the castling
branch decides. -/
theorem king_case_two_squares (home near_square far_square near far : Nat) (w : Bool)
    (current_position new_position : Nat) (piece_positions : Board) (s : MoveResult)
    (h : new_position = current_position + 2 ∨ current_position = new_position + 2) :
    king_case home near_square far_square near far w current_position new_position
      piece_positions s
    = if ((s.castle &&& near = 0 ∧ current_position = home ∧ new_position = near_square)
          ∨ (s.castle &&& far = 0 ∧ current_position = home ∧ new_position = far_square))
        ∧ castling_checks w current_position new_position piece_positions
            s.promoted_pawns s.promoted_pawn_types = true
      then { s with ok := true, castle := s.castle ||| near ||| far }
      else { s with ok := false } := by
  unfold king_case
  simp only [valid_king_move_two_squares _ _ _ _ _ _ h]
  split_ifs <;> simp_all

/-- The first mask added to `castle` is set in the result. -/
theorem or_masks_and_left (c a b : Nat) : (c ||| a ||| b) &&& a = a := by
  apply Nat.eq_of_testBit_eq
  intro i
  simp only [Nat.testBit_and, Nat.testBit_or]
  cases Nat.testBit c i <;> cases Nat.testBit a i <;> cases Nat.testBit b i <;> rfl

/-- The second mask added to `castle` is set in the result. -/
theorem or_masks_and_right (c a b : Nat) : (c ||| a ||| b) &&& b = b := by
  apply Nat.eq_of_testBit_eq
  intro i
  simp only [Nat.testBit_and, Nat.testBit_or]
  cases Nat.testBit c i <;> cases Nat.testBit a i <;> cases Nat.testBit b i <;> rfl

/-- Adding the two masks changes `castle` when one of them was not set. -/
theorem or_masks_ne (c a b : Nat) (ha : a ≠ 0) (hb : b ≠ 0)
    (h : c &&& a = 0 ∨ c &&& b = 0) : c ≠ c ||| a ||| b := by
  intro e
  rcases h with h | h
  · have := or_masks_and_left c a b
    rw [← e, h] at this
    exact ha this.symm
  · have := or_masks_and_right c a b
    rw [← e, h] at this
    exact hb this.symm

/-- Towards a castling destination `blocked` finds every square strictly
between: checked for each of the 65 by 65 values of the other two squares. -/
theorem blocked_of_strictly_between_bounded :
    ∀ a < 65, ∀ t < 65,
      (strictly_between a 2 t → blocked a 2 t = true)
      ∧ (strictly_between a 6 t → blocked a 6 t = true)
      ∧ (strictly_between a 58 t → blocked a 58 t = true)
      ∧ (strictly_between a 62 t → blocked a 62 t = true) := by
  decide!

/-- What the three checks of the castling special case establish. -/
theorem castling_checks_true (w : Bool) (current_position new_position : Nat)
    (piece_positions : Board) (promoted_pawns promoted_pawn_types : Nat)
    (h : castling_checks w current_position new_position piece_positions promoted_pawns
      promoted_pawn_types = true) :
    (∀ index < 32,
      blocked current_position new_position (piece_positions index) = false
      ∧ blocked (piece_positions (if w then (if new_position = 2 then 6 else 7)
            else (if new_position = 58 then 22 else 23))) new_position
          (piece_positions index) = false)
    ∧ in_check w piece_positions promoted_pawns promoted_pawn_types = false
    ∧ in_check w (Function.update piece_positions (if w then 0 else 16)
        ((current_position + new_position) / 2)) promoted_pawns promoted_pawn_types
      = false := by
  unfold castling_checks at h
  simp only at h
  generalize (if w = true then (if new_position = 2 then 6 else 7)
    else (if new_position = 58 then 22 else 23)) = rook_index at h ⊢
  generalize (if w = true then 0 else 16) = king at h ⊢
  split_ifs at h with h1 h2 h3
  refine ⟨?_, by simpa using h2, by simpa using h3⟩
  intro index hlt
  have := h1
  simp only [List.any_eq_true, List.mem_range, Bool.or_eq_true, not_exists, not_and,
    not_or] at this
  have hb := this index hlt
  exact ⟨by simpa using hb.1, by simpa using hb.2⟩

/-- An accepted castling request went through the castling branch of the king
case: the right for the destination was still there, the three castling
checks passed, and the call ends with both masks of the colour added to
`castle` and the capture index of the caller. -/
theorem valid_move_castling (piece_id new_position : Nat) (piece_positions : Board)
    (castle en_passant_idx promoted_pawns promoted_pawn_types promotion_type
      captured_piece_index : Nat) (checkmate : Bool)
    (hc : castling_request piece_id (piece_positions piece_id) new_position)
    (h : (valid_move piece_id new_position piece_positions castle en_passant_idx promoted_pawns
      promoted_pawn_types promotion_type captured_piece_index checkmate).ok = true) :
    ∃ near far,
      ((piece_id = 0 ∧ near = W_CAS_K ∧ far = W_CAS_Q
          ∧ ((castle &&& near = 0 ∧ new_position = 2) ∨ (castle &&& far = 0 ∧ new_position = 6)))
        ∨ (piece_id = 16 ∧ near = B_CAS_K ∧ far = B_CAS_Q
          ∧ ((castle &&& near = 0 ∧ new_position = 58)
            ∨ (castle &&& far = 0 ∧ new_position = 62))))
      ∧ castling_checks (decide (piece_id < 16)) (piece_positions piece_id) new_position
          piece_positions promoted_pawns promoted_pawn_types = true
      ∧ valid_move piece_id new_position piece_positions castle en_passant_idx promoted_pawns
          promoted_pawn_types promotion_type captured_piece_index checkmate
        = valid_move_finish piece_id new_position piece_positions (decide (piece_id < 16))
            { entry_state castle promoted_pawns promoted_pawn_types captured_piece_index
                checkmate with ok := true, castle := castle ||| near ||| far } := by
  obtain ⟨_, _, hsw, hfin⟩ := valid_move_accepted _ _ _ _ _ _ _ _ _ _ h
  rw [hfin]
  rcases hc with ⟨rfl, h4, hn⟩ | ⟨rfl, h60, hn⟩
  · have e : valid_move_switch 0 new_position (piece_positions 0) (decide (0 < 16))
        piece_positions promotion_type (entry_state castle promoted_pawns promoted_pawn_types
          captured_piece_index checkmate)
        = king_case 4 2 6 W_CAS_K W_CAS_Q (decide (0 < 16)) (piece_positions 0) new_position
            piece_positions (entry_state castle promoted_pawns promoted_pawn_types
              captured_piece_index checkmate) := rfl
    rw [e, king_case_two_squares _ _ _ _ _ _ _ _ _ _ (by omega)] at hsw ⊢
    refine ⟨W_CAS_K, W_CAS_Q, ?_⟩
    split_ifs at hsw ⊢ with hcond
    · refine ⟨Or.inl ⟨rfl, rfl, rfl, ?_⟩, hcond.2, rfl⟩
      rcases hcond.1 with ⟨a, _, b⟩ | ⟨a, _, b⟩
      · exact Or.inl ⟨a, b⟩
      · exact Or.inr ⟨a, b⟩
  · have e : valid_move_switch 16 new_position (piece_positions 16) (decide (16 < 16))
        piece_positions promotion_type (entry_state castle promoted_pawns promoted_pawn_types
          captured_piece_index checkmate)
        = king_case 60 58 62 B_CAS_K B_CAS_Q (decide (16 < 16)) (piece_positions 16)
            new_position piece_positions (entry_state castle promoted_pawns
              promoted_pawn_types captured_piece_index checkmate) := rfl
    rw [e, king_case_two_squares _ _ _ _ _ _ _ _ _ _ (by omega)] at hsw ⊢
    refine ⟨B_CAS_K, B_CAS_Q, ?_⟩
    split_ifs at hsw ⊢ with hcond
    · refine ⟨Or.inr ⟨rfl, rfl, rfl, ?_⟩, hcond.2, rfl⟩
      rcases hcond.1 with ⟨a, _, b⟩ | ⟨a, _, b⟩
      · exact Or.inl ⟨a, b⟩
      · exact Or.inr ⟨a, b⟩

/-- C6. En-passant target transition: for every accepted move, whatever index
was stored before, the `en_passant_idx` that `valid_move` returns is the moved
slot when that slot is a pawn slot, not promoted, that advanced two squares
(+16 for White, -16 for Black), and 32 in every other case. -/
theorem en_passant_target_transition (piece_id new_position : Nat) (piece_positions : Board)
    (castle en_passant_idx promoted_pawns promoted_pawn_types promotion_type
      captured_piece_index : Nat) (checkmate : Bool)
    (h : (valid_move piece_id new_position piece_positions castle en_passant_idx promoted_pawns
      promoted_pawn_types promotion_type captured_piece_index checkmate).ok = true) :
    (valid_move piece_id new_position piece_positions castle en_passant_idx promoted_pawns
      promoted_pawn_types promotion_type captured_piece_index checkmate).en_passant_idx
      = if double_pawn_advance piece_id new_position piece_positions promoted_pawns
          promoted_pawn_types then piece_id else 32 := by
  obtain ⟨_, _, hsw, hfin⟩ := valid_move_accepted _ _ _ _ _ _ _ _ _ _ h
  rw [hfin, (valid_move_finish_fields _ _ _ _ _).2.1]
  exact valid_move_switch_en_passant piece_id new_position piece_positions promotion_type
    (entry_state castle promoted_pawns promoted_pawn_types captured_piece_index checkmate)
    rfl hsw

/-- Spec scenario 4 as instances of C6: from the starting position White pawn
slot 8 moving from 9 to 25 is accepted and yields the index 8; on the board
after it, with 8 stored, the move of Black knight slot 20 to 43 is accepted
and yields 32. -/
theorem en_passant_target_transition_witness :
    (valid_move 8 25 start_positions 0 32 0 0 0 32 false).ok = true
    ∧ (valid_move 8 25 start_positions 0 32 0 0 0 32 false).en_passant_idx = 8
    ∧ (valid_move 20 43 (board_after start_positions 8 25 32) 0 8 0 0 0 32 false).ok = true
    ∧ (valid_move 20 43 (board_after start_positions 8 25 32) 0 8 0 0 0 32 false).en_passant_idx
        = 32 :=
  ⟨by decide!,
   (en_passant_target_transition 8 25 start_positions 0 32 0 0 0 32 false (by decide!)).trans
     (by decide!),
   by decide!,
   (en_passant_target_transition 20 43 (board_after start_positions 8 25 32) 0 8 0 0 0 32 false
     (by decide!)).trans (by decide!)⟩

/-- C7. Lost castling rights forbid castling: when `castle` has the bit of
the castling set of a request (`W_CAS_K` for the White king 4 to 2, `W_CAS_Q`
for 4 to 6, `B_CAS_K` for the Black king 60 to 58, `B_CAS_Q` for 60 to 62),
`valid_move` rejects the request on every board and registry. -/
theorem lost_rights_forbid_castling (piece_id new_position : Nat) (piece_positions : Board)
    (castle en_passant_idx promoted_pawns promoted_pawn_types promotion_type
      captured_piece_index : Nat) (checkmate : Bool)
    (hc : castling_request piece_id (piece_positions piece_id) new_position)
    (hbit : castle &&& castling_mask new_position ≠ 0) :
    (valid_move piece_id new_position piece_positions castle en_passant_idx promoted_pawns
      promoted_pawn_types promotion_type captured_piece_index checkmate).ok = false := by
  by_contra hne
  have h : (valid_move piece_id new_position piece_positions castle en_passant_idx
      promoted_pawns promoted_pawn_types promotion_type captured_piece_index checkmate).ok
      = true := by simpa using hne
  obtain ⟨near, far, hr, -, -⟩ := valid_move_castling _ _ _ _ _ _ _ _ _ _ hc h
  rcases hr with ⟨-, rfl, rfl, ⟨hz, rfl⟩ | ⟨hz, rfl⟩⟩ | ⟨-, rfl, rfl, ⟨hz, rfl⟩ | ⟨hz, rfl⟩⟩ <;>
    exact hbit hz

/-- An instance of C7: on `castle_ready_board` the squares between king and
rook are empty, and the request of the White king from 4 to 2 is accepted
with `castle` 0 but rejected once `castle` has the bit `W_CAS_K`. -/
theorem lost_rights_forbid_castling_witness :
    castling_request 0 (castle_ready_board 0) 2
    ∧ W_CAS_K &&& castling_mask 2 ≠ 0
    ∧ (valid_move 0 2 castle_ready_board 0 32 0 0 0 32 false).ok = true
    ∧ (valid_move 0 2 castle_ready_board W_CAS_K 32 0 0 0 32 false).ok = false :=
  ⟨by decide, by decide, by decide!,
    lost_rights_forbid_castling 0 2 castle_ready_board W_CAS_K 32 0 0 0 32 false
      (by decide) (by decide)⟩

/-- Towards a castling destination `blocked` finds every square strictly
between, for every pair of squares. -/
theorem blocked_of_strictly_between (a new_position t : Nat)
    (hn : new_position = 2 ∨ new_position = 6 ∨ new_position = 58 ∨ new_position = 62)
    (h : strictly_between a new_position t) : blocked a new_position t = true := by
  have ha : a < 65 := by have := h.1.2; omega
  have ht : t < 65 := by have := h.2.2.1.2; omega
  have key := blocked_of_strictly_between_bounded a ha t ht
  rcases hn with rfl | rfl | rfl | rfl
  · exact key.1 h
  · exact key.2.1 h
  · exact key.2.2.1 h
  · exact key.2.2.2 h

/-- C8. Castling path must be empty: when `valid_move` accepts a castling
request (king slot 0 from 4 to 2 or 6, king slot 16 from 60 to 58 or 62), no
slot stands on a square strictly between the king's square and its
destination, nor on a square strictly between the square of the rook of that
castling and the king's destination. -/
theorem castling_path_is_empty (piece_id new_position : Nat) (piece_positions : Board)
    (castle en_passant_idx promoted_pawns promoted_pawn_types promotion_type
      captured_piece_index : Nat) (checkmate : Bool)
    (hc : castling_request piece_id (piece_positions piece_id) new_position)
    (h : (valid_move piece_id new_position piece_positions castle en_passant_idx promoted_pawns
      promoted_pawn_types promotion_type captured_piece_index checkmate).ok = true) :
    ∀ index < 32, ∀ t,
      (strictly_between (piece_positions piece_id) new_position t
        ∨ strictly_between (piece_positions (castling_rook new_position)) new_position t) →
      piece_positions index ≠ t := by
  obtain ⟨near, far, -, hchecks, -⟩ := valid_move_castling _ _ _ _ _ _ _ _ _ _ hc h
  obtain ⟨hpath, -, -⟩ := castling_checks_true _ _ _ _ _ _ hchecks
  have hn : new_position = 2 ∨ new_position = 6 ∨ new_position = 58 ∨ new_position = 62 := by
    rcases hc with ⟨-, -, h1 | h1⟩ | ⟨-, -, h1 | h1⟩ <;> simp [h1]
  have hrook : (if decide (piece_id < 16) = true then (if new_position = 2 then 6 else 7)
      else (if new_position = 58 then 22 else 23)) = castling_rook new_position := by
    rcases hc with ⟨rfl, -, rfl | rfl⟩ | ⟨rfl, -, rfl | rfl⟩ <;> decide
  rw [hrook] at hpath
  intro index hlt t hbetween heq
  obtain ⟨hking, hrk⟩ := hpath index hlt
  rw [heq] at hking hrk
  rcases hbetween with hb | hb
  · rw [blocked_of_strictly_between _ _ _ hn hb] at hking
    exact Bool.noConfusion hking
  · rw [blocked_of_strictly_between _ _ _ hn hb] at hrk
    exact Bool.noConfusion hrk

/-- Spec scenario 3 and an instance of C8. From the starting position both
castling requests of the White king are rejected. On `castle_ready_board` the
request from 4 to 2 is accepted; square 3 lies strictly between 4 and 2, and
no slot stands on it. -/
theorem castling_path_is_empty_witness :
    (valid_move 0 2 start_positions 0 32 0 0 0 32 false).ok = false
    ∧ (valid_move 0 6 start_positions 0 32 0 0 0 32 false).ok = false
    ∧ castling_request 0 (castle_ready_board 0) 2
    ∧ (valid_move 0 2 castle_ready_board 0 32 0 0 0 32 false).ok = true
    ∧ strictly_between (castle_ready_board 0) 2 3
    ∧ ∀ index < 32, castle_ready_board index ≠ 3 :=
  ⟨by decide!, by decide!, by decide, by decide!, by decide,
    fun index hlt =>
      castling_path_is_empty 0 2 castle_ready_board 0 32 0 0 0 32 false (by decide)
        (by decide!) index hlt 3 (Or.inl (by decide))⟩

/-- C9. No castling out of or through check: when `valid_move`, entered
without a capture index (32 or more), accepts a castling request, `in_check`
for the mover's colour is false on the current board, on the board with the
king on the square midway between its square and its destination, and on the
board with the king on its destination. -/
theorem no_castling_out_of_or_through_check (piece_id new_position : Nat)
    (piece_positions : Board)
    (castle en_passant_idx promoted_pawns promoted_pawn_types promotion_type
      captured_piece_index : Nat) (checkmate : Bool)
    (hc : castling_request piece_id (piece_positions piece_id) new_position)
    (hcap : 32 ≤ captured_piece_index)
    (h : (valid_move piece_id new_position piece_positions castle en_passant_idx promoted_pawns
      promoted_pawn_types promotion_type captured_piece_index checkmate).ok = true) :
    in_check (decide (piece_id < 16)) piece_positions promoted_pawns promoted_pawn_types = false
    ∧ in_check (decide (piece_id < 16))
        (Function.update piece_positions piece_id ((piece_positions piece_id + new_position) / 2))
        promoted_pawns promoted_pawn_types = false
    ∧ in_check (decide (piece_id < 16)) (Function.update piece_positions piece_id new_position)
        promoted_pawns promoted_pawn_types = false := by
  obtain ⟨near, far, -, hchecks, hfin⟩ := valid_move_castling _ _ _ _ _ _ _ _ _ _ hc h
  obtain ⟨-, hnow, hmid⟩ := castling_checks_true _ _ _ _ _ _ hchecks
  have hking : (if decide (piece_id < 16) = true then 0 else 16) = piece_id := by
    rcases hc with ⟨rfl, -, -⟩ | ⟨rfl, -, -⟩ <;> decide
  rw [hking] at hmid
  refine ⟨hnow, hmid, ?_⟩
  rw [hfin] at h
  have hend := valid_move_finish_ok _ _ _ _ _ h
  have hboard : board_after piece_positions piece_id new_position captured_piece_index
      = Function.update piece_positions piece_id new_position := by
    unfold board_after
    simp only
    rw [if_neg (by omega)]
  simpa [entry_state, hboard] using hend

/-- An instance of C9: the castling request of the White king from 4 to 2 on
`castle_ready_board`, entered with the capture index 32 that `move` passes. -/
theorem no_castling_out_of_or_through_check_witness :
    castling_request 0 (castle_ready_board 0) 2
    ∧ (valid_move 0 2 castle_ready_board 0 32 0 0 0 32 false).ok = true
    ∧ in_check (decide (0 < 16)) castle_ready_board 0 0 = false
    ∧ in_check (decide (0 < 16))
        (Function.update castle_ready_board 0 ((castle_ready_board 0 + 2) / 2)) 0 0 = false
    ∧ in_check (decide (0 < 16)) (Function.update castle_ready_board 0 2) 0 0 = false :=
  ⟨by decide, by decide!,
    no_castling_out_of_or_through_check 0 2 castle_ready_board 0 32 0 0 0 32 false
      (by decide) (by decide) (by decide!)⟩

/-- The row written by `modify` after an accepted castling request: the king
on its destination, the rook of that castling beside it, `castle` with both
masks of the colour. -/
theorem modify_row_castling (itr : Game) (player new_position : Nat) (r : MoveResult)
    (checkmate : Bool) (king near_square near_rook near_rook_square far_square far_rook
      far_rook_square near far : Nat)
    (hn : new_position = near_square ∨ (new_position ≠ near_square ∧ new_position = far_square))
    (hk1 : king ≠ near_rook) (hk2 : king ≠ far_rook)
    (hcap : r.captured_piece_index = 32)
    (hcastle : r.castle = itr.castle ||| near ||| far)
    (hne : itr.castle ≠ itr.castle ||| near ||| far) :
    (modify_row itr player king new_position r checkmate king near_square near_rook
        near_rook_square far_square far_rook far_rook_square).piece_positions king = new_position
    ∧ (new_position = near_square →
        (modify_row itr player king new_position r checkmate king near_square near_rook
          near_rook_square far_square far_rook far_rook_square).piece_positions near_rook
          = near_rook_square)
    ∧ (new_position ≠ near_square →
        (modify_row itr player king new_position r checkmate king near_square near_rook
          near_rook_square far_square far_rook far_rook_square).piece_positions far_rook
          = far_rook_square)
    ∧ (modify_row itr player king new_position r checkmate king near_square near_rook
        near_rook_square far_square far_rook far_rook_square).castle
        = itr.castle ||| near ||| far := by
  unfold modify_row board_after
  simp only [hcap, hcastle, lt_irrefl, if_false]
  rw [if_pos ⟨hne, trivial⟩, if_pos hne]
  rcases hn with h1 | ⟨h1, h2⟩
  · rw [if_pos h1]
    refine ⟨?_, fun _ => ?_, fun h => absurd h1 h, rfl⟩
    · rw [Function.update_noteq hk1, Function.update_same]
    · rw [Function.update_same]
  · rw [if_neg h1, if_pos h2]
    refine ⟨?_, fun h => absurd h h1, fun _ => ?_, rfl⟩
    · rw [Function.update_noteq hk2, Function.update_same]
    · rw [Function.update_same]

/-- The outputs of an accepted castling request: the capture index of the
caller, and `castle` with both masks of the colour, which differs from the
`castle` on entry. -/
theorem valid_move_castling_outputs (piece_id new_position : Nat) (piece_positions : Board)
    (castle en_passant_idx promoted_pawns promoted_pawn_types promotion_type
      captured_piece_index : Nat) (checkmate : Bool)
    (hc : castling_request piece_id (piece_positions piece_id) new_position)
    (h : (valid_move piece_id new_position piece_positions castle en_passant_idx promoted_pawns
      promoted_pawn_types promotion_type captured_piece_index checkmate).ok = true) :
    (valid_move piece_id new_position piece_positions castle en_passant_idx promoted_pawns
      promoted_pawn_types promotion_type captured_piece_index checkmate).captured_piece_index
      = captured_piece_index
    ∧ ∃ near far,
        ((piece_id = 0 ∧ near = W_CAS_K ∧ far = W_CAS_Q)
          ∨ (piece_id = 16 ∧ near = B_CAS_K ∧ far = B_CAS_Q))
        ∧ (valid_move piece_id new_position piece_positions castle en_passant_idx
            promoted_pawns promoted_pawn_types promotion_type captured_piece_index
            checkmate).castle = castle ||| near ||| far
        ∧ castle ≠ castle ||| near ||| far := by
  obtain ⟨near, far, hr, -, hfin⟩ := valid_move_castling _ _ _ _ _ _ _ _ _ _ hc h
  rw [hfin]
  obtain ⟨hcas, -, -, -, hcap⟩ := valid_move_finish_fields piece_id new_position
    piece_positions (decide (piece_id < 16))
    { entry_state castle promoted_pawns promoted_pawn_types captured_piece_index checkmate
        with ok := true, castle := castle ||| near ||| far }
  refine ⟨hcap, near, far, ?_, hcas, ?_⟩
  · rcases hr with ⟨a, b, c, -⟩ | ⟨a, b, c, -⟩
    · exact Or.inl ⟨a, b, c⟩
    · exact Or.inr ⟨a, b, c⟩
  · apply or_masks_ne
    · rcases hr with ⟨-, rfl, -, -⟩ | ⟨-, rfl, -, -⟩ <;> decide
    · rcases hr with ⟨-, -, rfl, -⟩ | ⟨-, -, rfl, -⟩ <;> decide
    · rcases hr with ⟨-, -, -, ⟨hz, -⟩ | ⟨hz, -⟩⟩ | ⟨-, -, -, ⟨hz, -⟩ | ⟨hz, -⟩⟩
      · exact Or.inl hz
      · exact Or.inr hz
      · exact Or.inl hz
      · exact Or.inr hz

/-- C10. Castling state update: whenever the `move` action accepts a castling
request, the new row has the king on its destination and the rook of that
castling next to it (White 4 to 2: slot 6 on square 3; White 4 to 6: slot 7 on
square 5; Black 60 to 58: slot 22 on square 59; Black 60 to 62: slot 23 on
square 61), and both castling bits of the mover's colour are set in the new
`castle`. -/
theorem castling_state_update (self : Nat) (stray : Bool) (itr g : Game)
    (player piece_id new_position promotion_type : Nat)
    (hc : castling_request piece_id (itr.piece_positions piece_id) new_position)
    (h : move_row self stray itr player piece_id new_position promotion_type = some g) :
    g.piece_positions piece_id = new_position
    ∧ g.piece_positions (castling_rook new_position) = rook_landing new_position
    ∧ (piece_id = 0 → g.castle &&& W_CAS_K = W_CAS_K ∧ g.castle &&& W_CAS_Q = W_CAS_Q)
    ∧ (piece_id = 16 → g.castle &&& B_CAS_K = B_CAS_K ∧ g.castle &&& B_CAS_Q = B_CAS_Q) := by
  unfold move_row at h
  simp only at h
  split_ifs at h with w1 w2 pw t1 o1 ok1 pb t2 o2 ok2
  · obtain ⟨hcap, near, far, hmask, hcastle, hne⟩ :=
      valid_move_castling_outputs _ _ _ _ _ _ _ _ _ _ hc ok1
    have hg := Option.some.inj h
    rcases hc with ⟨rfl, -, hn⟩ | ⟨rfl, -, -⟩
    · rcases hmask with ⟨-, rfl, rfl⟩ | ⟨h0, -, -⟩
      · obtain ⟨a, b, c, d⟩ := modify_row_castling itr player new_position _
          (Option.getD _ stray) 0 2 6 3 6 7 5 W_CAS_K W_CAS_Q
          (by rcases hn with rfl | rfl <;> simp) (by decide) (by decide) hcap hcastle hne
        rw [hg] at a b c d
        refine ⟨a, ?_, fun _ => ?_, fun h16 => absurd h16 (by decide)⟩
        · rcases hn with rfl | rfl
          · exact b rfl
          · exact c (by decide)
        · rw [d]
          exact ⟨or_masks_and_left _ _ _, or_masks_and_right _ _ _⟩
      · exact absurd h0 (by decide)
    · exact absurd o1 (by decide)
  · obtain ⟨hcap, near, far, hmask, hcastle, hne⟩ :=
      valid_move_castling_outputs _ _ _ _ _ _ _ _ _ _ hc ok2
    have hg := Option.some.inj h
    rcases hc with ⟨rfl, -, -⟩ | ⟨rfl, -, hn⟩
    · exact absurd o2 (by decide)
    · rcases hmask with ⟨h0, -, -⟩ | ⟨-, rfl, rfl⟩
      · exact absurd h0 (by decide)
      · obtain ⟨a, b, c, d⟩ := modify_row_castling itr player new_position _
          (Option.getD _ stray) 16 58 22 59 62 23 61 B_CAS_K B_CAS_Q
          (by rcases hn with rfl | rfl <;> simp) (by decide) (by decide) hcap hcastle hne
        rw [hg] at a b c d
        refine ⟨a, ?_, fun h0 => absurd h0 (by decide), fun _ => ?_⟩
        · rcases hn with rfl | rfl
          · exact b rfl
          · exact c (by decide)
        · rw [d]
          exact ⟨or_masks_and_left _ _ _, or_masks_and_right _ _ _⟩

/-- An option that is `some` is `some` of its `getD`. -/
theorem some_getD_of_isSome {α : Type} (o : Option α) (d : α) (h : o.isSome = true) :
    o = some (o.getD d) := by
  cases o with
  | none => simp at h
  | some a => rfl

/-- An instance of C10: White's castling request from 4 to 2 in
`castle_ready_game` is accepted; in the new row the king stands on square 2,
rook slot 6 on square 3, and `castle` has the bits `W_CAS_K` and `W_CAS_Q`. -/
theorem castling_state_update_witness :
    castling_request 0 (castle_ready_game.piece_positions 0) 2
    ∧ (move_row 1 false castle_ready_game 100 0 2 0).isSome = true
    ∧ castled_game.piece_positions 0 = 2
    ∧ castled_game.piece_positions (castling_rook 2) = rook_landing 2
    ∧ (0 = 0 → castled_game.castle &&& W_CAS_K = W_CAS_K
        ∧ castled_game.castle &&& W_CAS_Q = W_CAS_Q)
    ∧ (0 = 16 → castled_game.castle &&& B_CAS_K = B_CAS_K
        ∧ castled_game.castle &&& B_CAS_Q = B_CAS_Q) :=
  ⟨by decide, by decide!,
    castling_state_update 1 false castle_ready_game castled_game 100 0 2 0 (by decide)
      (some_getD_of_isSome _ _ (by decide!))⟩

/-- The scan of the king and knight evaluators refuses a destination on which
a slot of the mover's colour stands. -/
theorem landing_loop_friendly (piece_positions : Board) (new_position : Nat) (w : Bool)
    (l : List Nat) (captured_piece_index : Nat)
    (h : ∃ i ∈ l, piece_positions i = new_position ∧ is_enemy_piece w i = false) :
    (landing_loop piece_positions new_position w l captured_piece_index).1 = false := by
  induction l generalizing captured_piece_index with
  | nil => simp at h
  | cons index rest ih =>
    unfold landing_loop
    by_cases hp : piece_positions index = new_position
    · rw [if_pos hp]
      by_cases he : is_enemy_piece w index = true
      · rw [if_pos he]
        apply ih
        obtain ⟨i, hi, hpi, hei⟩ := h
        rcases List.mem_cons.mp hi with rfl | hi
        · rw [he] at hei; exact Bool.noConfusion hei
        · exact ⟨i, hi, hpi, hei⟩
      · rw [if_neg he]
    · rw [if_neg hp]
      apply ih
      obtain ⟨i, hi, hpi, hei⟩ := h
      rcases List.mem_cons.mp hi with rfl | hi
      · exact absurd hpi hp
      · exact ⟨i, hi, hpi, hei⟩

/-- The scan of the queen and bishop evaluators refuses a destination on which
a slot of the mover's colour stands. -/
theorem sliding_loop_friendly (piece_positions : Board) (current_position new_position : Nat)
    (w : Bool) (l : List Nat) (captured_piece_index : Nat)
    (h : ∃ i ∈ l, piece_positions i = new_position ∧ is_enemy_piece w i = false) :
    (sliding_loop piece_positions current_position new_position w l captured_piece_index).1
      = false := by
  induction l generalizing captured_piece_index with
  | nil => simp at h
  | cons index rest ih =>
    unfold sliding_loop
    by_cases hp : piece_positions index = new_position
    · rw [if_pos hp]
      by_cases he : is_enemy_piece w index = true
      · rw [if_pos he]
        apply ih
        obtain ⟨i, hi, hpi, hei⟩ := h
        rcases List.mem_cons.mp hi with rfl | hi
        · rw [he] at hei; exact Bool.noConfusion hei
        · exact ⟨i, hi, hpi, hei⟩
      · rw [if_neg he]
    · rw [if_neg hp]
      have hrest : ∃ i ∈ rest, piece_positions i = new_position ∧ is_enemy_piece w i = false := by
        obtain ⟨i, hi, hpi, hei⟩ := h
        rcases List.mem_cons.mp hi with rfl | hi
        · exact absurd hpi hp
        · exact ⟨i, hi, hpi, hei⟩
      split_ifs
      · rfl
      · exact ih _ hrest
      · exact ih _ hrest

/-- The scan of the rook evaluator refuses a destination on which a slot of
the mover's colour stands. -/
theorem rook_loop_friendly (piece_positions : Board) (current_position new_position : Nat)
    (w : Bool) (l : List Nat) (captured_piece_index : Nat)
    (h : ∃ i ∈ l, piece_positions i = new_position ∧ is_enemy_piece w i = false) :
    (rook_loop piece_positions current_position new_position w l captured_piece_index).1
      = false := by
  induction l generalizing captured_piece_index with
  | nil => simp at h
  | cons index rest ih =>
    unfold rook_loop
    by_cases hp : piece_positions index = new_position
    · rw [if_pos hp]
      by_cases he : is_enemy_piece w index = true
      · rw [if_pos he]
        apply ih
        obtain ⟨i, hi, hpi, hei⟩ := h
        rcases List.mem_cons.mp hi with rfl | hi
        · rw [he] at hei; exact Bool.noConfusion hei
        · exact ⟨i, hi, hpi, hei⟩
      · rw [if_neg he]
    · rw [if_neg hp]
      have hrest : ∃ i ∈ rest, piece_positions i = new_position ∧ is_enemy_piece w i = false := by
        obtain ⟨i, hi, hpi, hei⟩ := h
        rcases List.mem_cons.mp hi with rfl | hi
        · exact absurd hpi hp
        · exact ⟨i, hi, hpi, hei⟩
      split_ifs
      · rfl
      · exact ih _ hrest

/-- The scan of a straight pawn advance refuses an occupied destination. -/
theorem pawn_straight_loop_occupied (piece_positions : Board) (new_position : Nat)
    (step_square : Int) (l : List Nat) (h : ∃ i ∈ l, piece_positions i = new_position) :
    pawn_straight_loop piece_positions new_position step_square l = false := by
  induction l with
  | nil => simp at h
  | cons index rest ih =>
    unfold pawn_straight_loop
    split_ifs with hc
    · rfl
    · apply ih
      obtain ⟨i, hi, hpi⟩ := h
      rcases List.mem_cons.mp hi with rfl | hi
      · exact absurd (Or.inl hpi) hc
      · exact ⟨i, hi, hpi⟩

/-- The scan of a diagonal pawn step refuses a destination on which a slot of
the mover's colour stands, when no slot scanned before that slot leaves the
loop. -/
theorem pawn_diag_loop_friendly (piece_positions : Board) (new_position : Nat) (beside : Int)
    (w : Bool) (en_passant_idx : Nat) (before after : List Nat) (f captured_piece_index : Nat)
    (hquiet : ∀ i ∈ before, is_enemy_piece w i = true →
      ¬ (piece_positions i = new_position
          ∨ (i = en_passant_idx ∧ (piece_positions i : Int) = beside)))
    (hf : is_enemy_piece w f = false) (hpf : piece_positions f = new_position) :
    (pawn_diag_loop piece_positions new_position beside w en_passant_idx
      (before ++ f :: after) captured_piece_index).1 = false := by
  induction before with
  | nil =>
    rw [List.nil_append]
    unfold pawn_diag_loop
    rw [if_neg (by simp [hf]), if_pos hpf]
  | cons index rest ih =>
    have hrest : ∀ i ∈ rest, is_enemy_piece w i = true →
        ¬ (piece_positions i = new_position
          ∨ (i = en_passant_idx ∧ (piece_positions i : Int) = beside)) :=
      fun i hi => hquiet i (List.mem_cons_of_mem _ hi)
    rw [List.cons_append]
    unfold pawn_diag_loop
    by_cases he : is_enemy_piece w index = true
    · rw [if_pos he, if_neg (hquiet index (List.mem_cons_self _ _) he)]
      exact ih hrest
    · rw [if_neg he]
      by_cases hp : piece_positions index = new_position
      · rw [if_pos hp]
      · rw [if_neg hp]
        exact ih hrest

/-- The 32 slot indices, cut at a slot. -/
theorem range_cut (f : Nat) (hf : f < 32) :
    List.range 32 = List.range f ++ f :: List.range' (f + 1) (31 - f) := by
  rw [List.range_eq_range', List.range_eq_range']
  have h1 : List.range' 0 32 = List.range' 0 f ++ List.range' (0 + f) (32 - f) := by
    rw [List.range'_append_1]
    congr 1
    omega
  have h2 : 32 - f = (31 - f) + 1 := by omega
  rw [h1, h2, List.range'_succ, Nat.zero_add]

/-- Where the shared contract of C3 holds: a destination on which a slot of
the mover's colour stands is refused by `valid_king_move`, `valid_queen_move`,
`valid_bishop_move`, `valid_knight_move`, `valid_rook_move`, by
`valid_pawn_move` for a White mover with any en-passant index, and by
`valid_pawn_move` for a Black mover when no White slot stands on the
destination and the en-passant index names no White slot (16 or more, such as
the 32 that the contract always passes). -/
theorem friendly_destination_refused (piece_positions : Board) (w : Bool)
    (current_position new_position captured_piece_index : Nat)
    (h : ∃ i < 32, piece_positions i = new_position ∧ is_enemy_piece w i = false) :
    (∀ castle, (valid_king_move current_position new_position castle piece_positions w
        captured_piece_index).1 = false)
    ∧ (valid_queen_move current_position new_position piece_positions w
        captured_piece_index).1 = false
    ∧ (valid_bishop_move current_position new_position piece_positions w
        captured_piece_index).1 = false
    ∧ (valid_knight_move current_position new_position piece_positions w
        captured_piece_index).1 = false
    ∧ (valid_rook_move current_position new_position piece_positions w
        captured_piece_index).1 = false
    ∧ (∀ pawn_index promoted_pawns promoted_pawn_types en_passant_idx,
        (w = true ∨ (16 ≤ en_passant_idx ∧ ∀ e < 16, piece_positions e ≠ new_position)) →
        (valid_pawn_move pawn_index new_position piece_positions w captured_piece_index
          promoted_pawns promoted_pawn_types en_passant_idx).ok = false) := by
  have hmem : ∃ i ∈ List.range 32, piece_positions i = new_position
      ∧ is_enemy_piece w i = false := by
    obtain ⟨i, hi, hp, he⟩ := h
    exact ⟨i, List.mem_range.mpr hi, hp, he⟩
  have hking : ∀ cur castle cap, (valid_king_move cur new_position castle piece_positions w
      cap).1 = false := by
    intro cur castle cap
    unfold valid_king_move
    simp only
    split_ifs
    · rfl
    · rfl
    · exact landing_loop_friendly _ _ _ _ _ hmem
  have hqueen : ∀ cur cap, (valid_queen_move cur new_position piece_positions w cap).1
      = false := by
    intro cur cap
    unfold valid_queen_move
    split_ifs
    · rfl
    · rfl
    · exact sliding_loop_friendly _ _ _ _ _ _ hmem
  have hbishop : ∀ cur cap, (valid_bishop_move cur new_position piece_positions w cap).1
      = false := by
    intro cur cap
    unfold valid_bishop_move
    split_ifs
    · rfl
    · rfl
    · exact sliding_loop_friendly _ _ _ _ _ _ hmem
  have hknight : ∀ cur cap, (valid_knight_move cur new_position piece_positions w cap).1
      = false := by
    intro cur cap
    unfold valid_knight_move
    simp only
    split_ifs
    · rfl
    · rfl
    · rfl
    · exact landing_loop_friendly _ _ _ _ _ hmem
  have hrook : ∀ cur cap, (valid_rook_move cur new_position piece_positions w cap).1
      = false := by
    intro cur cap
    unfold valid_rook_move
    split_ifs
    · rfl
    · rfl
    · exact rook_loop_friendly _ _ _ _ _ _ hmem
  refine ⟨fun castle => hking _ castle _, hqueen _ _, hbishop _ _, hknight _ _, hrook _ _, ?_⟩
  intro pawn_index promoted_pawns promoted_pawn_types en_passant_idx hside
  have hdiag : ∀ beside : Int, (pawn_diag_loop piece_positions new_position beside w
      en_passant_idx (List.range 32) captured_piece_index).1 = false := by
    intro beside
    obtain ⟨f, hf, hp, he⟩ := h
    rw [range_cut f hf]
    apply pawn_diag_loop_friendly _ _ _ _ _ _ _ _ _ _ he hp
    intro i hi hen
    have hi' : i < f := List.mem_range.mp hi
    rcases hside with rfl | ⟨hep, hfree⟩
    · simp [is_enemy_piece] at hen he
      omega
    · have hw : w = false := by
        cases w
        · rfl
        · simp [is_enemy_piece] at hen he
          omega
      subst hw
      simp [is_enemy_piece] at hen
      rintro (hc | ⟨hc, -⟩)
      · exact hfree i hen hc
      · omega
  have hstraight : ∀ step : Int, pawn_straight_loop piece_positions new_position step
      (List.range 32) = false := by
    intro step
    obtain ⟨i, hi, hp, -⟩ := hmem
    exact pawn_straight_loop_occupied _ _ _ _ ⟨i, hi, hp⟩
  unfold valid_pawn_move
  simp only [hdiag, hstraight, hbishop, hknight, hrook, hqueen]
  split_ifs <;> first | rfl | contradiction

/-- A mask with bits added still has every bit it had. -/
theorem or_and_self_left (c m : Nat) : (c ||| m) &&& c = c := by
  apply Nat.eq_of_testBit_eq
  intro i
  simp only [Nat.testBit_and, Nat.testBit_or]
  cases Nat.testBit c i <;> cases Nat.testBit m i <;> rfl

/-- Having every bit of another mask is transitive. -/
theorem and_keeps_trans (a b c : Nat) (hab : b &&& a = a) (hbc : c &&& b = b) : c &&& a = a := by
  calc c &&& a = c &&& (b &&& a) := by rw [hab]
    _ = (c &&& b) &&& a := by rw [Nat.and_assoc]
    _ = b &&& a := by rw [hbc]
    _ = a := hab

/-- The king cases only add masks to `castle`. -/
theorem king_case_castle (home near_square far_square near far : Nat) (w : Bool)
    (current_position new_position : Nat) (piece_positions : Board) (s : MoveResult) :
    (king_case home near_square far_square near far w current_position new_position
      piece_positions s).castle &&& s.castle = s.castle := by
  unfold king_case
  simp only
  split_ifs
  · show (s.castle ||| near ||| far) &&& s.castle = s.castle
    rw [Nat.or_assoc]; exact or_and_self_left _ _
  · show (s.castle ||| near ||| far) &&& s.castle = s.castle
    rw [Nat.or_assoc]; exact or_and_self_left _ _
  · exact Nat.and_self _
  · exact Nat.and_self _

/-- The rook cases only add a mask to `castle`. -/
theorem rook_case_castle (r : Bool × Nat) (mask : Nat) (s : MoveResult) :
    (rook_case r mask s).castle &&& s.castle = s.castle := by
  unfold rook_case
  split_ifs
  · exact or_and_self_left _ _
  · exact Nat.and_self _

/-- The pawn cases leave `castle` alone. -/
theorem pawn_case_castle (piece_id new_position : Nat) (piece_positions : Board) (w : Bool)
    (promotion_type : Nat) (on_rank : Bool) (s : MoveResult) :
    (pawn_case piece_id new_position piece_positions w promotion_type on_rank s).castle
      = s.castle := by
  unfold pawn_case
  simp only
  split_ifs <;> rfl

/-- The switch only adds masks to `castle`. -/
theorem valid_move_switch_castle (piece_id new_position current_position : Nat)
    (w : Bool) (piece_positions : Board) (promotion_type : Nat) (s : MoveResult) :
    (valid_move_switch piece_id new_position current_position w piece_positions promotion_type
      s).castle &&& s.castle = s.castle := by
  rcases valid_move_switch_shape piece_id new_position current_position w piece_positions
    promotion_type s with
    ⟨-, e⟩ | ⟨-, e⟩ | ⟨-, e⟩ | ⟨-, e⟩ | ⟨-, e⟩ | ⟨-, e⟩ | ⟨mask, -, e⟩ | ⟨on_rank, -, e⟩ | ⟨-, e⟩
  · rw [e]; exact king_case_castle _ _ _ _ _ _ _ _ _ _
  · rw [e]; exact king_case_castle _ _ _ _ _ _ _ _ _ _
  · rw [e]; exact Nat.and_self _
  · rw [e]; exact Nat.and_self _
  · rw [e]; exact Nat.and_self _
  · rw [e]
    split_ifs
    · exact rook_case_castle _ _ _
    · exact and_keeps_trans _ _ _ (rook_case_castle _ W_CAS_K s) (rook_case_castle _ _ _)
  · rw [e]; exact rook_case_castle _ _ _
  · rw [e, pawn_case_castle]; exact Nat.and_self _
  · rw [e]; exact Nat.and_self _

/-- Every call of `valid_move`, accepted or not, returns a `castle` that has
every bit of the `castle` on entry. -/
theorem valid_move_castle (piece_id new_position : Nat) (piece_positions : Board)
    (castle en_passant_idx promoted_pawns promoted_pawn_types promotion_type
      captured_piece_index : Nat) (checkmate : Bool) :
    (valid_move piece_id new_position piece_positions castle en_passant_idx promoted_pawns
      promoted_pawn_types promotion_type captured_piece_index checkmate).castle &&& castle
      = castle := by
  have hsw := valid_move_switch_castle piece_id new_position (piece_positions piece_id)
    (decide (piece_id < 16)) piece_positions promotion_type
    (entry_state castle promoted_pawns promoted_pawn_types captured_piece_index checkmate)
  unfold valid_move
  simp only
  split_ifs
  · exact Nat.and_self _
  · exact Nat.and_self _
  · exact hsw
  · rw [(valid_move_finish_fields _ _ _ _ _).1]; exact hsw

/-- A call of `move` leaves every row of the table alone, except that it may
replace the row of its game by the row that `move_row` returns. -/
theorem move_at (self : Nat) (stray : Bool) (game_index : Nat → Option Game)
    (player game_id piece_id new_position promotion_type id : Nat) :
    move self stray game_index player game_id piece_id new_position promotion_type id
      = game_index id
    ∨ (id = game_id ∧ ∃ itr row, game_index game_id = some itr
        ∧ move_row self stray itr player piece_id new_position promotion_type = some row
        ∧ move self stray game_index player game_id piece_id new_position promotion_type id
          = some row) := by
  unfold move
  split_ifs
  · exact Or.inl rfl
  · exact Or.inl rfl
  · cases hfind : game_index game_id with
    | none => exact Or.inl rfl
    | some itr =>
      simp only
      cases hrow : move_row self stray itr player piece_id new_position promotion_type with
      | none => exact Or.inl rfl
      | some row =>
        simp only
        by_cases hid : id = game_id
        · right
          refine ⟨hid, itr, row, rfl, hrow, ?_⟩
          rw [hid, Function.update_same]
        · left
          rw [Function.update_noteq hid]

/-- The fields that a row written by `move` takes from the outputs of
`valid_move`. -/
theorem move_row_fields (self : Nat) (stray : Bool) (itr row : Game)
    (player piece_id new_position promotion_type : Nat)
    (h : move_row self stray itr player piece_id new_position promotion_type = some row) :
    (valid_move piece_id new_position itr.piece_positions itr.castle itr.en_passant_idx
      itr.promoted_pawns itr.promoted_pawn_types promotion_type 32 false).ok = true
    ∧ row.castle = (valid_move piece_id new_position itr.piece_positions itr.castle
        itr.en_passant_idx itr.promoted_pawns itr.promoted_pawn_types promotion_type 32
        false).castle
    ∧ row.promoted_pawns = (valid_move piece_id new_position itr.piece_positions itr.castle
        itr.en_passant_idx itr.promoted_pawns itr.promoted_pawn_types promotion_type 32
        false).promoted_pawns
    ∧ row.promoted_pawn_types = (valid_move piece_id new_position itr.piece_positions
        itr.castle itr.en_passant_idx itr.promoted_pawns itr.promoted_pawn_types promotion_type
        32 false).promoted_pawn_types
    ∧ row.en_passant_idx = (valid_move piece_id new_position itr.piece_positions itr.castle
        itr.en_passant_idx itr.promoted_pawns itr.promoted_pawn_types promotion_type 32
        false).en_passant_idx := by
  unfold move_row at h
  simp only at h
  split_ifs at h with w1 w2 pw t1 o1 ok1 pb t2 o2 ok2
  · have hg := Option.some.inj h
    subst hg
    refine ⟨ok1, ?_, rfl, rfl, rfl⟩
    unfold modify_row
    simp only
    split_ifs with hc
    · rfl
    · exact not_not.mp hc
  · have hg := Option.some.inj h
    subst hg
    refine ⟨ok2, ?_, rfl, rfl, rfl⟩
    unfold modify_row
    simp only
    split_ifs with hc
    · rfl
    · exact not_not.mp hc

/-- A relation between rows that is reflexive, transitive and holds across
every row change of `move` holds across every sequence of calls of `move`. -/
theorem play_keeps (R : Game → Game → Prop) (hrefl : ∀ g, R g g)
    (htrans : ∀ a b c, R a b → R b c → R a c)
    (hstep : ∀ self stray itr player piece_id new_position promotion_type row,
      move_row self stray itr player piece_id new_position promotion_type = some row →
      R itr row)
    (self : Nat) (calls : List MoveCall) :
    ∀ (game_index : Nat → Option Game) (gid : Nat) (g : Game), game_index gid = some g →
      ∃ row, play self game_index calls gid = some row ∧ R g row := by
  induction calls with
  | nil =>
    intro game_index gid g hg
    exact ⟨g, hg, hrefl g⟩
  | cons c rest ih =>
    intro game_index gid g hg
    unfold play
    rcases move_at self c.stray game_index c.player c.game_id c.piece_id c.new_position
      c.promotion_type gid with hsame | ⟨hid, itr, row, hfind, hrow, hnew⟩
    · exact ih _ gid g (hsame.trans hg)
    · rw [← hid, hg] at hfind
      have hitr : g = itr := Option.some.inj hfind
      rw [← hitr] at hrow
      obtain ⟨last, hlast, hR⟩ := ih _ gid row hnew
      exact ⟨last, hlast, htrans _ _ _ (hstep _ _ _ _ _ _ _ _ hrow) hR⟩

/-- C11. Castling rights are lost permanently: every call of `valid_move`,
accepted or not, returns a `castle` that has every bit that was set on entry
(`castle_out AND castle_in = castle_in`); hence along every sequence of calls
of `move` the `castle` of a game keeps every bit it has. -/
theorem castling_rights_lost_permanently :
    (∀ (piece_id new_position : Nat) (piece_positions : Board)
        (castle en_passant_idx promoted_pawns promoted_pawn_types promotion_type
          captured_piece_index : Nat) (checkmate : Bool),
      (valid_move piece_id new_position piece_positions castle en_passant_idx promoted_pawns
        promoted_pawn_types promotion_type captured_piece_index checkmate).castle &&& castle
        = castle)
    ∧ (∀ (self : Nat) (game_index : Nat → Option Game) (calls : List MoveCall) (id : Nat)
        (g : Game), game_index id = some g →
      ∃ row, play self game_index calls id = some row ∧ row.castle &&& g.castle = g.castle) := by
  refine ⟨valid_move_castle, ?_⟩
  intro self game_index calls id g hg
  refine play_keeps (fun a b => b.castle &&& a.castle = a.castle) (fun a => Nat.and_self _)
    (fun a b c hab hbc => and_keeps_trans _ _ _ hab hbc) ?_ self calls game_index id g hg
  intro self stray itr player piece_id new_position promotion_type row hrow
  obtain ⟨-, hc, -⟩ := move_row_fields _ _ _ _ _ _ _ _ hrow
  show row.castle &&& itr.castle = itr.castle
  rw [hc]
  exact valid_move_castle _ _ _ _ _ _ _ _ _ _

/-- C12, evaluated where the code breaks it. In game 7, two moves after the
opening, `castle` is 0. The move of White rook slot 6 from 1 to 9 is accepted
and returns `castle` 3, the bits `W_CAS_K` and `W_CAS_Q`, not `W_CAS_K` alone;
the `move` action stores 3. The move of Black rook slot 22 from 57 to 49 on
the same board returns `B_CAS_K` alone. -/
theorem rook_six_also_sets_queen_side_bit :
    entries (board_in rook_lift_table 7) = entries rook_lift_board
    ∧ castle_in rook_lift_table 7 = 0
    ∧ (valid_move 6 9 rook_lift_board 0 32 0 0 0 32 false).ok = true
    ∧ (valid_move 6 9 rook_lift_board 0 32 0 0 0 32 false).castle = W_CAS_K ||| W_CAS_Q
    ∧ (valid_move 6 9 rook_lift_board 0 32 0 0 0 32 false).castle ≠ 0 ||| W_CAS_K
    ∧ castle_in (move 1 false rook_lift_table 100 7 6 9 0) 7 = 3
    ∧ (valid_move 22 49 rook_lift_board 0 32 0 0 0 32 false).ok = true
    ∧ (valid_move 22 49 rook_lift_board 0 32 0 0 0 32 false).castle = 0 ||| B_CAS_K := by
  decide!

/-- The rook cases: what `castle` is after the rook evaluator has accepted. -/
theorem rook_case_ok (r : Bool × Nat) (mask : Nat) (s : MoveResult)
    (h : (rook_case r mask s).ok = true) :
    r.1 = true ∧ (rook_case r mask s).castle = s.castle ||| mask := by
  unfold rook_case at h ⊢
  split_ifs at h ⊢ with hr
  exact ⟨hr, rfl⟩

/-- The castle mask after an accepted move of a rook slot: the mask of the
slot is added for the slots 7, 22 and 23, and both White masks are added for
slot 6, whose case runs on into the case of slot 7. -/
theorem rook_move_castle (piece_id new_position : Nat) (piece_positions : Board)
    (castle en_passant_idx promoted_pawns promoted_pawn_types promotion_type
      captured_piece_index : Nat) (checkmate : Bool)
    (h : (valid_move piece_id new_position piece_positions castle en_passant_idx promoted_pawns
      promoted_pawn_types promotion_type captured_piece_index checkmate).ok = true) :
    (piece_id = 6 → (valid_move piece_id new_position piece_positions castle en_passant_idx
        promoted_pawns promoted_pawn_types promotion_type captured_piece_index checkmate).castle
        = castle ||| W_CAS_K ||| W_CAS_Q)
    ∧ (piece_id = 7 → (valid_move piece_id new_position piece_positions castle en_passant_idx
        promoted_pawns promoted_pawn_types promotion_type captured_piece_index checkmate).castle
        = castle ||| W_CAS_Q)
    ∧ (piece_id = 22 → (valid_move piece_id new_position piece_positions castle en_passant_idx
        promoted_pawns promoted_pawn_types promotion_type captured_piece_index checkmate).castle
        = castle ||| B_CAS_K)
    ∧ (piece_id = 23 → (valid_move piece_id new_position piece_positions castle en_passant_idx
        promoted_pawns promoted_pawn_types promotion_type captured_piece_index checkmate).castle
        = castle ||| B_CAS_Q) := by
  obtain ⟨_, _, hsw, hfin⟩ := valid_move_accepted _ _ _ _ _ _ _ _ _ _ h
  rw [hfin, (valid_move_finish_fields _ _ _ _ _).1]
  refine ⟨?_, ?_, ?_, ?_⟩
  · rintro rfl
    have e : valid_move_switch 6 new_position (piece_positions 6) (decide (6 < 16))
        piece_positions promotion_type (entry_state castle promoted_pawns promoted_pawn_types
          captured_piece_index checkmate)
        = if !(rook_case (valid_rook_move (piece_positions 6) new_position piece_positions
              (decide (6 < 16)) captured_piece_index) W_CAS_K (entry_state castle promoted_pawns
                promoted_pawn_types captured_piece_index checkmate)).ok then
            rook_case (valid_rook_move (piece_positions 6) new_position piece_positions
              (decide (6 < 16)) captured_piece_index) W_CAS_K (entry_state castle promoted_pawns
                promoted_pawn_types captured_piece_index checkmate)
          else rook_case (valid_rook_move (piece_positions 6) new_position piece_positions
              (decide (6 < 16)) (rook_case (valid_rook_move (piece_positions 6) new_position
                piece_positions (decide (6 < 16)) captured_piece_index) W_CAS_K
                  (entry_state castle promoted_pawns promoted_pawn_types captured_piece_index
                    checkmate)).captured_piece_index) W_CAS_Q
              (rook_case (valid_rook_move (piece_positions 6) new_position piece_positions
                (decide (6 < 16)) captured_piece_index) W_CAS_K (entry_state castle
                  promoted_pawns promoted_pawn_types captured_piece_index checkmate)) := rfl
    rw [e] at hsw ⊢
    split_ifs at hsw ⊢ with h1
    · simp only [Bool.not_eq_true', ] at h1
      rw [h1] at hsw
      exact Bool.noConfusion hsw
    · have h1' : (rook_case (valid_rook_move (piece_positions 6) new_position piece_positions
          (decide (6 < 16)) captured_piece_index) W_CAS_K (entry_state castle promoted_pawns
            promoted_pawn_types captured_piece_index checkmate)).ok = true := by
        simpa using h1
      rw [(rook_case_ok _ _ _ hsw).2, (rook_case_ok _ _ _ h1').2]
      rfl
  · rintro rfl
    have e : valid_move_switch 7 new_position (piece_positions 7) (decide (7 < 16))
        piece_positions promotion_type (entry_state castle promoted_pawns promoted_pawn_types
          captured_piece_index checkmate)
        = rook_case (valid_rook_move (piece_positions 7) new_position piece_positions
            (decide (7 < 16)) captured_piece_index) W_CAS_Q (entry_state castle promoted_pawns
              promoted_pawn_types captured_piece_index checkmate) := rfl
    rw [e] at hsw ⊢
    exact (rook_case_ok _ _ _ hsw).2
  · rintro rfl
    have e : valid_move_switch 22 new_position (piece_positions 22) (decide (22 < 16))
        piece_positions promotion_type (entry_state castle promoted_pawns promoted_pawn_types
          captured_piece_index checkmate)
        = rook_case (valid_rook_move (piece_positions 22) new_position piece_positions
            (decide (22 < 16)) captured_piece_index) B_CAS_K (entry_state castle promoted_pawns
              promoted_pawn_types captured_piece_index checkmate) := rfl
    rw [e] at hsw ⊢
    exact (rook_case_ok _ _ _ hsw).2
  · rintro rfl
    have e : valid_move_switch 23 new_position (piece_positions 23) (decide (23 < 16))
        piece_positions promotion_type (entry_state castle promoted_pawns promoted_pawn_types
          captured_piece_index checkmate)
        = rook_case (valid_rook_move (piece_positions 23) new_position piece_positions
            (decide (23 < 16)) captured_piece_index) B_CAS_Q (entry_state castle promoted_pawns
              promoted_pawn_types captured_piece_index checkmate) := rfl
    rw [e] at hsw ⊢
    exact (rook_case_ok _ _ _ hsw).2

/-- `promote_pawn` only adds a flag to `promoted_pawns`. -/
theorem promote_pawn_flags (pawn_index promoted_pawns promoted_pawn_types
    promoted_pawn_type : Nat) :
    (promote_pawn pawn_index promoted_pawns promoted_pawn_types promoted_pawn_type).1
      &&& promoted_pawns = promoted_pawns := by
  unfold promote_pawn
  split_ifs
  · exact Nat.and_self _
  · exact or_and_self_left _ _

/-- The king cases leave the promotion registry alone. -/
theorem king_case_registry (home near_square far_square near far : Nat) (w : Bool)
    (current_position new_position : Nat) (piece_positions : Board) (s : MoveResult) :
    (king_case home near_square far_square near far w current_position new_position
      piece_positions s).promoted_pawns = s.promoted_pawns
    ∧ (king_case home near_square far_square near far w current_position new_position
      piece_positions s).promoted_pawn_types = s.promoted_pawn_types := by
  unfold king_case
  simp only
  split_ifs <;> exact ⟨rfl, rfl⟩

/-- The rook cases leave the promotion registry alone. -/
theorem rook_case_registry (r : Bool × Nat) (mask : Nat) (s : MoveResult) :
    (rook_case r mask s).promoted_pawns = s.promoted_pawns
    ∧ (rook_case r mask s).promoted_pawn_types = s.promoted_pawn_types := by
  unfold rook_case
  split_ifs <;> exact ⟨rfl, rfl⟩

/-- The registry after a pawn case: the registry of `promote_pawn` when the
evaluator accepts a move onto the promotion rank, the registry on entry
otherwise. -/
theorem pawn_case_registry (piece_id new_position : Nat) (piece_positions : Board) (w : Bool)
    (promotion_type : Nat) (on_rank : Bool) (s : MoveResult) :
    ((pawn_case piece_id new_position piece_positions w promotion_type on_rank s).ok = true
      ∧ on_rank = true
      ∧ (pawn_case piece_id new_position piece_positions w promotion_type on_rank
          s).promoted_pawns
          = (promote_pawn piece_id s.promoted_pawns s.promoted_pawn_types promotion_type).1
      ∧ (pawn_case piece_id new_position piece_positions w promotion_type on_rank
          s).promoted_pawn_types
          = (promote_pawn piece_id s.promoted_pawns s.promoted_pawn_types promotion_type).2)
    ∨ (((pawn_case piece_id new_position piece_positions w promotion_type on_rank s).ok = false
        ∨ on_rank = false)
      ∧ (pawn_case piece_id new_position piece_positions w promotion_type on_rank
          s).promoted_pawns = s.promoted_pawns
      ∧ (pawn_case piece_id new_position piece_positions w promotion_type on_rank
          s).promoted_pawn_types = s.promoted_pawn_types) := by
  unfold pawn_case
  simp only
  split_ifs with h1 h2
  · exact Or.inr ⟨Or.inl rfl, rfl, rfl⟩
  · exact Or.inl ⟨rfl, h2, rfl, rfl⟩
  · exact Or.inr ⟨Or.inr (by simpa using h2), rfl, rfl⟩

/-- The switch only adds flags to `promoted_pawns`. -/
theorem valid_move_switch_flags (piece_id new_position current_position : Nat)
    (w : Bool) (piece_positions : Board) (promotion_type : Nat) (s : MoveResult) :
    (valid_move_switch piece_id new_position current_position w piece_positions promotion_type
      s).promoted_pawns &&& s.promoted_pawns = s.promoted_pawns := by
  rcases valid_move_switch_shape piece_id new_position current_position w piece_positions
    promotion_type s with
    ⟨-, e⟩ | ⟨-, e⟩ | ⟨-, e⟩ | ⟨-, e⟩ | ⟨-, e⟩ | ⟨-, e⟩ | ⟨mask, -, e⟩ | ⟨on_rank, -, e⟩ | ⟨-, e⟩
  · rw [e, (king_case_registry _ _ _ _ _ _ _ _ _ _).1]; exact Nat.and_self _
  · rw [e, (king_case_registry _ _ _ _ _ _ _ _ _ _).1]; exact Nat.and_self _
  · rw [e]; exact Nat.and_self _
  · rw [e]; exact Nat.and_self _
  · rw [e]; exact Nat.and_self _
  · rw [e]
    split_ifs
    · rw [(rook_case_registry _ _ _).1]; exact Nat.and_self _
    · rw [(rook_case_registry _ _ _).1, (rook_case_registry _ _ _).1]; exact Nat.and_self _
  · rw [e, (rook_case_registry _ _ _).1]; exact Nat.and_self _
  · rw [e]
    rcases pawn_case_registry piece_id new_position piece_positions w promotion_type on_rank s
      with ⟨-, -, hp, -⟩ | ⟨-, hp, -⟩
    · rw [hp]; exact promote_pawn_flags _ _ _ _
    · rw [hp]; exact Nat.and_self _
  · rw [e]; exact Nat.and_self _

/-- Every call of `valid_move`, accepted or not, returns a `promoted_pawns`
that has every bit of the `promoted_pawns` on entry. -/
theorem valid_move_flags (piece_id new_position : Nat) (piece_positions : Board)
    (castle en_passant_idx promoted_pawns promoted_pawn_types promotion_type
      captured_piece_index : Nat) (checkmate : Bool) :
    (valid_move piece_id new_position piece_positions castle en_passant_idx promoted_pawns
      promoted_pawn_types promotion_type captured_piece_index checkmate).promoted_pawns
      &&& promoted_pawns = promoted_pawns := by
  have hsw := valid_move_switch_flags piece_id new_position (piece_positions piece_id)
    (decide (piece_id < 16)) piece_positions promotion_type
    (entry_state castle promoted_pawns promoted_pawn_types captured_piece_index checkmate)
  unfold valid_move
  simp only
  split_ifs
  · exact Nat.and_self _
  · exact Nat.and_self _
  · exact hsw
  · rw [(valid_move_finish_fields _ _ _ _ _).2.2.1]; exact hsw

/-- When `is_pawn_promoted` reports a slot promoted: the slot is at most 31
and its flag is set. -/
theorem is_pawn_promoted_flag (pawn_index promoted_pawns promoted_pawn_types t : Nat) :
    (is_pawn_promoted pawn_index promoted_pawns promoted_pawn_types t).1 = true
      ↔ pawn_index ≤ 31 ∧ promoted_pawns &&& 1 <<< pawn_offset pawn_index ≠ 0 := by
  unfold is_pawn_promoted
  simp only
  by_cases h1 : pawn_index > 31
  · rw [if_pos h1]
    constructor
    · intro h; exact Bool.noConfusion h
    · intro h; omega
  · rw [if_neg h1]
    by_cases h2 : promoted_pawns &&& 1 <<< pawn_offset pawn_index > 0
    · rw [if_pos (decide_eq_true h2)]
      exact ⟨fun _ => ⟨by omega, by omega⟩, fun _ => rfl⟩
    · rw [if_neg (by simpa using h2)]
      constructor
      · intro h; exact Bool.noConfusion h
      · intro h; omega

/-- A registry that has every flag of another reports promoted every slot
that the other reports promoted. -/
theorem is_pawn_promoted_mono (pawn_index p q types_p types_q t t' : Nat)
    (hpq : q &&& p = p) (h : (is_pawn_promoted pawn_index p types_p t).1 = true) :
    (is_pawn_promoted pawn_index q types_q t').1 = true := by
  rw [is_pawn_promoted_flag] at h ⊢
  refine ⟨h.1, ?_⟩
  intro hz
  apply h.2
  calc p &&& 1 <<< pawn_offset pawn_index
      = (q &&& p) &&& 1 <<< pawn_offset pawn_index := by rw [hpq]
    _ = (q &&& 1 <<< pawn_offset pawn_index) &&& p := by
        rw [Nat.and_assoc, Nat.and_comm p, ← Nat.and_assoc]
    _ = 0 := by rw [hz, Nat.zero_and]

/-- C13. Promotion flags are never cleared: every call of `valid_move`,
accepted or not, returns a `promoted_pawns` that has every bit that was set on
entry, so a slot that `is_pawn_promoted` reports promoted on entry is reported
promoted in the returned registry; hence along every sequence of calls of
`move` a slot once reported promoted in a game stays reported promoted. -/
theorem promotion_flags_never_cleared :
    (∀ (piece_id new_position : Nat) (piece_positions : Board)
        (castle en_passant_idx promoted_pawns promoted_pawn_types promotion_type
          captured_piece_index : Nat) (checkmate : Bool),
      (valid_move piece_id new_position piece_positions castle en_passant_idx promoted_pawns
        promoted_pawn_types promotion_type captured_piece_index checkmate).promoted_pawns
        &&& promoted_pawns = promoted_pawns
      ∧ ∀ slot t t', (is_pawn_promoted slot promoted_pawns promoted_pawn_types t).1 = true →
        (is_pawn_promoted slot
          (valid_move piece_id new_position piece_positions castle en_passant_idx
            promoted_pawns promoted_pawn_types promotion_type captured_piece_index
            checkmate).promoted_pawns
          (valid_move piece_id new_position piece_positions castle en_passant_idx
            promoted_pawns promoted_pawn_types promotion_type captured_piece_index
            checkmate).promoted_pawn_types t').1 = true)
    ∧ (∀ (self : Nat) (game_index : Nat → Option Game) (calls : List MoveCall) (gid : Nat)
        (g : Game), game_index gid = some g →
      ∃ row, play self game_index calls gid = some row
        ∧ row.promoted_pawns &&& g.promoted_pawns = g.promoted_pawns
        ∧ ∀ slot t t', (is_pawn_promoted slot g.promoted_pawns g.promoted_pawn_types t).1 = true →
          (is_pawn_promoted slot row.promoted_pawns row.promoted_pawn_types t').1 = true) := by
  constructor
  · intro piece_id new_position piece_positions castle en_passant_idx promoted_pawns
      promoted_pawn_types promotion_type captured_piece_index checkmate
    refine ⟨valid_move_flags _ _ _ _ _ _ _ _ _ _, ?_⟩
    intro slot t t' h
    exact is_pawn_promoted_mono _ _ _ _ _ _ _ (valid_move_flags _ _ _ _ _ _ _ _ _ _) h
  · intro self game_index calls gid g hg
    obtain ⟨row, hrow, hkeep⟩ := play_keeps
      (fun a b => b.promoted_pawns &&& a.promoted_pawns = a.promoted_pawns)
      (fun a => Nat.and_self _) (fun a b c hab hbc => and_keeps_trans _ _ _ hab hbc)
      (fun self stray itr player piece_id new_position promotion_type row hrow => by
        obtain ⟨-, -, hp, -⟩ := move_row_fields _ _ _ _ _ _ _ _ hrow
        show row.promoted_pawns &&& itr.promoted_pawns = itr.promoted_pawns
        rw [hp]
        exact valid_move_flags _ _ _ _ _ _ _ _ _ _)
      self calls game_index gid g hg
    exact ⟨row, hrow, hkeep, fun slot t t' h => is_pawn_promoted_mono _ _ _ _ _ _ _ hkeep h⟩

/-- Shifting two numbers by the same amount and intersecting them. -/
theorem shiftLeft_and_shiftLeft (a b k : Nat) : (a <<< k) &&& (b <<< k) = (a &&& b) <<< k := by
  apply Nat.eq_of_testBit_eq
  intro i
  simp only [Nat.testBit_and, Nat.testBit_shiftLeft]
  cases decide (i ≥ k) <;> simp

/-- Intersection distributes over a union on the left. -/
theorem or_and_mask (a b m : Nat) : (a ||| b) &&& m = (a &&& m) ||| (b &&& m) := by
  apply Nat.eq_of_testBit_eq
  intro i
  simp only [Nat.testBit_and, Nat.testBit_or]
  cases Nat.testBit a i <;> cases Nat.testBit b i <;> cases Nat.testBit m i <;> rfl

/-- The flag masks of two different offsets are disjoint. -/
theorem flag_masks_disjoint (o o' : Nat) (h : o ≠ o') : (1 <<< o) &&& (1 <<< o') = 0 := by
  apply Nat.eq_of_testBit_eq
  intro i
  simp only [Nat.one_shiftLeft, Nat.testBit_and, Nat.testBit_two_pow, Nat.zero_testBit]
  by_cases h1 : o = i
  · have h2 : ¬ o' = i := fun e => h (h1.trans e.symm)
    simp [h2]
  · simp [h1]

/-- The kind written for one offset does not meet the kind mask of another. -/
theorem kind_masks_disjoint (t o o' : Nat) (h : o ≠ o') :
    ((t &&& 3) <<< (o * 2)) &&& (3 <<< (o' * 2)) = 0 := by
  apply Nat.eq_of_testBit_eq
  intro i
  have h3 : ∀ j, Nat.testBit 3 j = decide (j < 2) := fun j => Nat.testBit_two_pow_sub_one 2 j
  simp only [Nat.testBit_and, Nat.testBit_shiftLeft, h3, Nat.zero_testBit]
  by_cases ha : i ≥ o * 2 ∧ i - o * 2 < 2
  · have hb : ¬ (i ≥ o' * 2 ∧ i - o' * 2 < 2) := by omega
    rcases not_and_or.mp hb with hb | hb <;> simp [hb]
  · rcases not_and_or.mp ha with ha | ha <;> simp [ha]

/-- A mask added to a number is contained in the result. -/
theorem or_and_self_right (c m : Nat) : (c ||| m) &&& m = m := by
  apply Nat.eq_of_testBit_eq
  intro i
  simp only [Nat.testBit_and, Nat.testBit_or]
  cases Nat.testBit c i <;> cases Nat.testBit m i <;> rfl

/-- The low two bits of a number. -/
theorem and_three (t : Nat) : t &&& 3 = t % 4 := Nat.and_pow_two_sub_one_eq_mod t 2

/-- The answer of `is_pawn_promoted` for a slot at most 31 whose flag is set. -/
theorem is_pawn_promoted_set (pawn_index promoted_pawns promoted_pawn_types t : Nat)
    (hi : pawn_index ≤ 31) (hflag : promoted_pawns &&& 1 <<< pawn_offset pawn_index ≠ 0) :
    is_pawn_promoted pawn_index promoted_pawns promoted_pawn_types t
      = (true, ((promoted_pawn_types &&& (3 <<< (pawn_offset pawn_index * 2)))
          >>> (pawn_offset pawn_index * 2)) % 256) := by
  unfold is_pawn_promoted
  simp only
  rw [if_neg (by omega), if_pos (decide_eq_true (by omega))]

/-- The answer of `is_pawn_promoted` for a slot whose flag is not set. -/
theorem is_pawn_promoted_clear (pawn_index promoted_pawns promoted_pawn_types t : Nat)
    (hflag : promoted_pawns &&& 1 <<< pawn_offset pawn_index = 0) :
    is_pawn_promoted pawn_index promoted_pawns promoted_pawn_types t = (false, t) := by
  unfold is_pawn_promoted
  simp only
  split_ifs with h1 h2
  · rfl
  · simp [hflag] at h2
  · rfl

/-- After `promote_pawn` for a slot whose two kind bits were zero,
`is_pawn_promoted` reports the slot promoted with the low two bits of the
kind that was passed. -/
theorem promote_pawn_own (pawn_index promoted_pawns promoted_pawn_types t x : Nat)
    (hi : pawn_index ≤ 31)
    (hz : promoted_pawn_types &&& (3 <<< (pawn_offset pawn_index * 2)) = 0) :
    is_pawn_promoted pawn_index
      (promote_pawn pawn_index promoted_pawns promoted_pawn_types t).1
      (promote_pawn pawn_index promoted_pawns promoted_pawn_types t).2 x = (true, t % 4) := by
  have hp : promote_pawn pawn_index promoted_pawns promoted_pawn_types t
      = (promoted_pawns ||| (1 <<< pawn_offset pawn_index),
         promoted_pawn_types ||| ((t &&& 3) <<< (pawn_offset pawn_index * 2))) := by
    unfold promote_pawn
    rw [if_neg (by omega)]
  rw [hp]
  have hflag : (promoted_pawns ||| 1 <<< pawn_offset pawn_index)
      &&& 1 <<< pawn_offset pawn_index ≠ 0 := by
    rw [or_and_self_right, Nat.one_shiftLeft]
    exact Nat.ne_of_gt (Nat.two_pow_pos _)
  rw [is_pawn_promoted_set _ _ _ _ hi hflag]
  congr 1
  rw [or_and_mask, hz, Nat.zero_or, shiftLeft_and_shiftLeft, Nat.shiftLeft_shiftRight,
    Nat.and_assoc, Nat.and_self, and_three]
  omega

/-- `promote_pawn` for one slot does not change the answer of
`is_pawn_promoted` for a slot with another offset. -/
theorem promote_pawn_other (pawn_index other promoted_pawns promoted_pawn_types t x : Nat)
    (hoff : pawn_offset pawn_index ≠ pawn_offset other) :
    is_pawn_promoted other
      (promote_pawn pawn_index promoted_pawns promoted_pawn_types t).1
      (promote_pawn pawn_index promoted_pawns promoted_pawn_types t).2 x
      = is_pawn_promoted other promoted_pawns promoted_pawn_types x := by
  by_cases hi : pawn_index > 31
  · unfold promote_pawn
    rw [if_pos hi]
  have hp : promote_pawn pawn_index promoted_pawns promoted_pawn_types t
      = (promoted_pawns ||| (1 <<< pawn_offset pawn_index),
         promoted_pawn_types ||| ((t &&& 3) <<< (pawn_offset pawn_index * 2))) := by
    unfold promote_pawn
    rw [if_neg hi]
  rw [hp]
  have hflag : (promoted_pawns ||| 1 <<< pawn_offset pawn_index) &&& 1 <<< pawn_offset other
      = promoted_pawns &&& 1 <<< pawn_offset other := by
    rw [or_and_mask, flag_masks_disjoint _ _ hoff, Nat.or_zero]
  have hkind : (promoted_pawn_types ||| (t &&& 3) <<< (pawn_offset pawn_index * 2))
      &&& 3 <<< (pawn_offset other * 2) = promoted_pawn_types &&& 3 <<< (pawn_offset other * 2) := by
    rw [or_and_mask, kind_masks_disjoint _ _ _ hoff, Nat.or_zero]
  unfold is_pawn_promoted
  simp only [hflag, hkind]

/-- The offsets of two different pawn slots differ. -/
theorem pawn_offset_injective (s s' : Nat) (hs : is_pawn_slot s) (hs' : is_pawn_slot s')
    (hne : s' ≠ s) : pawn_offset s ≠ pawn_offset s' := by
  unfold is_pawn_slot at hs hs'
  unfold pawn_offset
  split_ifs <;> omega

/-- C15. Promotion registry round trip: for every pawn slot `s` (8..15 or
24..31), every kind `t` in 0..3 and every registry in which the two kind bits
of `s` are zero, `is_pawn_promoted` applied to the result of
`promote_pawn(s, t)` returns true with kind `t`; and for every pawn slot other
than `s` the answer of `is_pawn_promoted`, flag and kind, is the same before
and after. -/
theorem promotion_registry_round_trip (s t promoted_pawns promoted_pawn_types : Nat)
    (hs : is_pawn_slot s) (ht : t ≤ 3)
    (hz : promoted_pawn_types &&& (3 <<< (pawn_offset s * 2)) = 0) :
    (∀ x, is_pawn_promoted s (promote_pawn s promoted_pawns promoted_pawn_types t).1
        (promote_pawn s promoted_pawns promoted_pawn_types t).2 x = (true, t))
    ∧ ∀ s', is_pawn_slot s' → s' ≠ s → ∀ x,
        is_pawn_promoted s' (promote_pawn s promoted_pawns promoted_pawn_types t).1
          (promote_pawn s promoted_pawns promoted_pawn_types t).2 x
          = is_pawn_promoted s' promoted_pawns promoted_pawn_types x := by
  constructor
  · intro x
    have hi : s ≤ 31 := by unfold is_pawn_slot at hs; omega
    rw [promote_pawn_own _ _ _ _ _ hi hz]
    congr 1
    omega
  · intro s' hs' hne x
    exact promote_pawn_other _ _ _ _ _ _ (pawn_offset_injective s s' hs hs' hne)

/-- An instance of C15: in the empty registry, where
`is_pawn_promoted` reports Black pawn slot 27 as not promoted, `promote_pawn`
of slot 27 to a rook (kind 2) makes `is_pawn_promoted` report slot 27 promoted
with kind 2 and leaves the answer for White pawn slot 11 as it was. -/
theorem promotion_registry_round_trip_witness :
    is_pawn_slot 27 ∧ 2 ≤ 3 ∧ 0 &&& (3 <<< (pawn_offset 27 * 2)) = 0
    ∧ is_pawn_promoted 27 0 0 0 = (false, 0)
    ∧ promote_pawn 27 0 0 2 = (2048, 8388608)
    ∧ (∀ x, is_pawn_promoted 27 (promote_pawn 27 0 0 2).1 (promote_pawn 27 0 0 2).2 x
        = (true, 2))
    ∧ ∀ x, is_pawn_promoted 11 (promote_pawn 27 0 0 2).1 (promote_pawn 27 0 0 2).2 x
        = is_pawn_promoted 11 0 0 x :=
  ⟨by decide, by decide, by decide, by decide, by decide,
    (promotion_registry_round_trip 27 2 0 0 (by decide) (by decide) (by decide)).1,
    (promotion_registry_round_trip 27 2 0 0 (by decide) (by decide) (by decide)).2 11
      (by decide) (by decide)⟩

/-- The registry after the switch has not returned `false`: the registry of
`promote_pawn` when a pawn slot lands on its promotion rank, the registry on
entry otherwise. -/
theorem valid_move_switch_registry (piece_id new_position current_position : Nat)
    (w : Bool) (piece_positions : Board) (promotion_type : Nat) (s : MoveResult)
    (h : (valid_move_switch piece_id new_position current_position w piece_positions
      promotion_type s).ok = true) :
    (reaches_promotion_rank piece_id new_position →
      (valid_move_switch piece_id new_position current_position w piece_positions
        promotion_type s).promoted_pawns
        = (promote_pawn piece_id s.promoted_pawns s.promoted_pawn_types promotion_type).1
      ∧ (valid_move_switch piece_id new_position current_position w piece_positions
        promotion_type s).promoted_pawn_types
        = (promote_pawn piece_id s.promoted_pawns s.promoted_pawn_types promotion_type).2)
    ∧ (¬ reaches_promotion_rank piece_id new_position →
      (valid_move_switch piece_id new_position current_position w piece_positions
        promotion_type s).promoted_pawns = s.promoted_pawns
      ∧ (valid_move_switch piece_id new_position current_position w piece_positions
        promotion_type s).promoted_pawn_types = s.promoted_pawn_types) := by
  unfold reaches_promotion_rank
  rcases valid_move_switch_shape piece_id new_position current_position w piece_positions
    promotion_type s with
    ⟨hp, e⟩ | ⟨hp, e⟩ | ⟨hp, e⟩ | ⟨hp, e⟩ | ⟨hp, e⟩ | ⟨hp, e⟩ | ⟨mask, hp, e⟩
      | ⟨on_rank, hp, e⟩ | ⟨hp, e⟩
  · rw [e]; exact ⟨fun hr => by omega, fun _ => king_case_registry _ _ _ _ _ _ _ _ _ _⟩
  · rw [e]; exact ⟨fun hr => by omega, fun _ => king_case_registry _ _ _ _ _ _ _ _ _ _⟩
  · rw [e]; exact ⟨fun hr => by omega, fun _ => ⟨rfl, rfl⟩⟩
  · rw [e]; exact ⟨fun hr => by omega, fun _ => ⟨rfl, rfl⟩⟩
  · rw [e]; exact ⟨fun hr => by omega, fun _ => ⟨rfl, rfl⟩⟩
  · rw [e]
    refine ⟨fun hr => by omega, fun _ => ?_⟩
    split_ifs
    · exact rook_case_registry _ _ _
    · rw [(rook_case_registry _ _ _).1, (rook_case_registry _ _ _).2]
      exact rook_case_registry _ _ _
  · rw [e]; exact ⟨fun hr => by omega, fun _ => rook_case_registry _ _ _⟩
  · rw [e] at h ⊢
    rcases pawn_case_registry piece_id new_position piece_positions w promotion_type on_rank s
      with ⟨-, hon, h1, h2⟩ | ⟨hoff, h1, h2⟩
    · refine ⟨fun _ => ⟨h1, h2⟩, fun hn => ?_⟩
      exfalso
      apply hn
      rcases hp with ⟨a, b, c⟩ | ⟨a, b, c⟩
      · rw [c] at hon
        exact Or.inl ⟨a, b, of_decide_eq_true hon⟩
      · rw [c] at hon
        exact Or.inr ⟨a, b, of_decide_eq_true hon⟩
    · refine ⟨fun hr => ?_, fun _ => ⟨h1, h2⟩⟩
      exfalso
      rcases hoff with hoff | hoff
      · rw [hoff] at h
        exact Bool.noConfusion h
      · rcases hp with ⟨a, b, c⟩ | ⟨a, b, c⟩
        · rw [c] at hoff
          have := of_decide_eq_false hoff
          omega
        · rw [c] at hoff
          have := of_decide_eq_false hoff
          omega
  · rw [e]; exact ⟨fun hr => by omega, fun _ => ⟨rfl, rfl⟩⟩

/-- The registry that an accepted call of `valid_move` returns. -/
theorem valid_move_registry (piece_id new_position : Nat) (piece_positions : Board)
    (castle en_passant_idx promoted_pawns promoted_pawn_types promotion_type
      captured_piece_index : Nat) (checkmate : Bool)
    (h : (valid_move piece_id new_position piece_positions castle en_passant_idx promoted_pawns
      promoted_pawn_types promotion_type captured_piece_index checkmate).ok = true) :
    (reaches_promotion_rank piece_id new_position →
      (valid_move piece_id new_position piece_positions castle en_passant_idx promoted_pawns
        promoted_pawn_types promotion_type captured_piece_index checkmate).promoted_pawns
        = (promote_pawn piece_id promoted_pawns promoted_pawn_types promotion_type).1
      ∧ (valid_move piece_id new_position piece_positions castle en_passant_idx promoted_pawns
        promoted_pawn_types promotion_type captured_piece_index checkmate).promoted_pawn_types
        = (promote_pawn piece_id promoted_pawns promoted_pawn_types promotion_type).2)
    ∧ (¬ reaches_promotion_rank piece_id new_position →
      (valid_move piece_id new_position piece_positions castle en_passant_idx promoted_pawns
        promoted_pawn_types promotion_type captured_piece_index checkmate).promoted_pawns
        = promoted_pawns
      ∧ (valid_move piece_id new_position piece_positions castle en_passant_idx promoted_pawns
        promoted_pawn_types promotion_type captured_piece_index checkmate).promoted_pawn_types
        = promoted_pawn_types) := by
  obtain ⟨_, _, hsw, hfin⟩ := valid_move_accepted _ _ _ _ _ _ _ _ _ _ h
  rw [hfin, (valid_move_finish_fields _ _ _ _ _).2.2.1,
    (valid_move_finish_fields _ _ _ _ _).2.2.2.1]
  exact valid_move_switch_registry _ _ _ _ _ _ _ hsw

/-- Where the promotion commit holds. For every accepted move: if the moved
slot is a White pawn slot landing on a square above 56 or a Black pawn slot
landing on a square below 9, was not promoted before and had its two kind
bits zero, then in the returned registry `is_pawn_promoted` reports the slot
promoted with the kind `promotion_type` (low two bits); and if the move is
not the move of a pawn slot onto its promotion rank, the registry is returned
unchanged. -/
theorem promotion_committed_on_back_rank (piece_id new_position : Nat)
    (piece_positions : Board)
    (castle en_passant_idx promoted_pawns promoted_pawn_types promotion_type
      captured_piece_index : Nat) (checkmate : Bool)
    (h : (valid_move piece_id new_position piece_positions castle en_passant_idx promoted_pawns
      promoted_pawn_types promotion_type captured_piece_index checkmate).ok = true) :
    (reaches_promotion_rank piece_id new_position →
      (is_pawn_promoted piece_id promoted_pawns promoted_pawn_types 0).1 = false →
      promoted_pawn_types &&& (3 <<< (pawn_offset piece_id * 2)) = 0 →
      ∀ x, is_pawn_promoted piece_id
        (valid_move piece_id new_position piece_positions castle en_passant_idx promoted_pawns
          promoted_pawn_types promotion_type captured_piece_index checkmate).promoted_pawns
        (valid_move piece_id new_position piece_positions castle en_passant_idx promoted_pawns
          promoted_pawn_types promotion_type captured_piece_index checkmate).promoted_pawn_types
        x = (true, promotion_type % 4))
    ∧ (¬ reaches_promotion_rank piece_id new_position →
      (valid_move piece_id new_position piece_positions castle en_passant_idx promoted_pawns
        promoted_pawn_types promotion_type captured_piece_index checkmate).promoted_pawns
        = promoted_pawns
      ∧ (valid_move piece_id new_position piece_positions castle en_passant_idx promoted_pawns
        promoted_pawn_types promotion_type captured_piece_index checkmate).promoted_pawn_types
        = promoted_pawn_types) := by
  obtain ⟨hon, hoff⟩ := valid_move_registry _ _ _ _ _ _ _ _ _ _ h
  refine ⟨?_, hoff⟩
  intro hr _ hz x
  obtain ⟨h1, h2⟩ := hon hr
  rw [h1, h2]
  have hi : piece_id ≤ 31 := by unfold reaches_promotion_rank at hr; omega
  exact promote_pawn_own _ _ _ _ _ hi hz

/-- Instances of `promotion_committed_on_back_rank`. On `promotion_board` with
the empty registry the step of White pawn slot 8 from 49 to 57 with `promotion_type` 3
is accepted and the slot is then reported promoted with kind 3; the move of
White knight slot 4 from 2 to 19 is accepted and returns the registry (0, 0)
unchanged. -/
theorem promotion_committed_on_back_rank_witness :
    (valid_move 8 57 promotion_board 0 32 0 0 3 32 false).ok = true
    ∧ reaches_promotion_rank 8 57
    ∧ (is_pawn_promoted 8 0 0 0).1 = false
    ∧ (∀ x, is_pawn_promoted 8
        (valid_move 8 57 promotion_board 0 32 0 0 3 32 false).promoted_pawns
        (valid_move 8 57 promotion_board 0 32 0 0 3 32 false).promoted_pawn_types x
        = (true, 3 % 4))
    ∧ (valid_move 4 19 promotion_board 0 32 0 0 3 32 false).ok = true
    ∧ ¬ reaches_promotion_rank 4 19
    ∧ (valid_move 4 19 promotion_board 0 32 0 0 3 32 false).promoted_pawns = 0
    ∧ (valid_move 4 19 promotion_board 0 32 0 0 3 32 false).promoted_pawn_types = 0 :=
  ⟨by decide!, by decide, by decide,
    (promotion_committed_on_back_rank 8 57 promotion_board 0 32 0 0 3 32 false (by decide!)).1
      (by decide) (by decide) (by decide),
    by decide!, by decide,
    ((promotion_committed_on_back_rank 4 19 promotion_board 0 32 0 0 3 32 false
      (by decide!)).2 (by decide)).1,
    ((promotion_committed_on_back_rank 4 19 promotion_board 0 32 0 0 3 32 false
      (by decide!)).2 (by decide)).2⟩

/-- An instance of C11: with `castle` equal to `W_CAS_Q` on entry, the
accepted move of Black rook slot 22 from 57 to 49 returns `castle` with
`B_CAS_K` added and `W_CAS_Q` still set. -/
theorem castling_rights_lost_permanently_witness :
    (valid_move 22 49 rook_lift_board W_CAS_Q 32 0 0 0 32 false).ok = true
    ∧ (valid_move 22 49 rook_lift_board W_CAS_Q 32 0 0 0 32 false).castle
        = W_CAS_Q ||| B_CAS_K
    ∧ (valid_move 22 49 rook_lift_board W_CAS_Q 32 0 0 0 32 false).castle &&& W_CAS_Q
        = W_CAS_Q :=
  ⟨by decide!, by decide!,
    castling_rights_lost_permanently.1 22 49 rook_lift_board W_CAS_Q 32 0 0 0 32 false⟩

/-- An instance of C13: with slot 8 promoted on entry (registry (1, 2)), the
accepted capture by slot 8 on square 58 returns a `promoted_pawns` that still
has the flag of slot 8, and slot 8 is still reported promoted. -/
theorem promotion_flags_never_cleared_witness :
    (is_pawn_promoted 8 1 2 0).1 = true
    ∧ (valid_move 8 58 promoted_board 0 32 1 2 1 32 false).ok = true
    ∧ (valid_move 8 58 promoted_board 0 32 1 2 1 32 false).promoted_pawns &&& 1 = 1
    ∧ (is_pawn_promoted 8
        (valid_move 8 58 promoted_board 0 32 1 2 1 32 false).promoted_pawns
        (valid_move 8 58 promoted_board 0 32 1 2 1 32 false).promoted_pawn_types 0).1 = true :=
  ⟨by decide, by decide!,
    (promotion_flags_never_cleared.1 8 58 promoted_board 0 32 1 2 1 32 false).1,
    (promotion_flags_never_cleared.1 8 58 promoted_board 0 32 1 2 1 32 false).2 8 0 0
      (by decide)⟩

/-- C16, evaluated where the code breaks it. Game 7 reaches `smothered_board`
by eight accepted moves; on the last one `in_checkmate` returns true for White
and `move` records Black (account 200) as the winner. Yet White has a legal
response: the evaluator accepts the capture of the knight by pawn slot 9 from
10 to 19, the resulting board leaves the White king not attacked, and
`valid_move` accepts that move, as it does the captures by pawn slot 11 and by
knight slot 4. -/
theorem checkmate_declared_with_a_capture_left :
    entries (board_in smothered_table 7) = entries smothered_board
    ∧ winner_in smothered_table 7 = 200
    ∧ in_checkmate true smothered_board 0 0 = some true
    ∧ valid_pawn_move 9 19 smothered_board true 32 0 0 32
        = { ok := true, captured_piece_index := 20, en_passant_idx := 32 }
    ∧ in_check true (board_after smothered_board 9 19 20) 0 0 = false
    ∧ (valid_move 9 19 smothered_board 0 32 0 0 0 32 false).ok = true
    ∧ (valid_move 11 19 smothered_board 0 32 0 0 0 32 false).ok = true
    ∧ (valid_move 4 19 smothered_board 0 32 0 0 0 32 false).ok = true := by
  decide!

/-- C17, evaluated where the code breaks it. On `adjacent_kings_board` the
Black king on square 29 stands beside the White king on square 28, and
`valid_king_move`, called with the enemy's colour, accepts the step from 29
onto 28; `in_check` for White nevertheless returns false, and so does
`in_check` for Black. `in_check` passes the colour of the king under test, not
the enemy's, to `valid_king_move`, which then takes that king for a piece of
the mover and refuses. -/
theorem in_check_misses_adjacent_king :
    adjacent_kings_board 0 = 28 ∧ adjacent_kings_board 16 = 29
    ∧ valid_king_move 29 28 0xFF adjacent_kings_board false 0 = (true, 0)
    ∧ in_check true adjacent_kings_board 0 0 = false
    ∧ valid_king_move 28 29 0xFF adjacent_kings_board true 0 = (true, 16)
    ∧ in_check false adjacent_kings_board 0 0 = false
    ∧ (valid_king_move 29 28 0xFF adjacent_kings_board true 0).1 = false := by
  decide!

/-- The scan of the king and knight evaluators gives its verdict regardless
of the capture index on entry. -/
theorem landing_loop_verdict (piece_positions : Board) (new_position : Nat) (w : Bool)
    (l : List Nat) (a b : Nat) :
    (landing_loop piece_positions new_position w l a).1
      = (landing_loop piece_positions new_position w l b).1 := by
  induction l generalizing a b with
  | nil => rfl
  | cons index rest ih =>
    unfold landing_loop
    split_ifs
    · exact ih _ _
    · rfl
    · exact ih _ _

/-- The scan of the queen and bishop evaluators gives its verdict regardless
of the capture index on entry. -/
theorem sliding_loop_verdict (piece_positions : Board) (current_position new_position : Nat)
    (w : Bool) (l : List Nat) (a b : Nat) :
    (sliding_loop piece_positions current_position new_position w l a).1
      = (sliding_loop piece_positions current_position new_position w l b).1 := by
  induction l generalizing a b with
  | nil => rfl
  | cons index rest ih =>
    unfold sliding_loop
    split_ifs
    · exact ih _ _
    · rfl
    · rfl
    · exact ih _ _
    · exact ih _ _

/-- The scan of the rook evaluator gives its verdict regardless of the
capture index on entry. -/
theorem rook_loop_verdict (piece_positions : Board) (current_position new_position : Nat)
    (w : Bool) (l : List Nat) (a b : Nat) :
    (rook_loop piece_positions current_position new_position w l a).1
      = (rook_loop piece_positions current_position new_position w l b).1 := by
  induction l generalizing a b with
  | nil => rfl
  | cons index rest ih =>
    unfold rook_loop
    split_ifs
    · exact ih _ _
    · rfl
    · rfl
    · exact ih _ _

/-- The scan of a diagonal pawn step gives its verdict regardless of the
capture index on entry. -/
theorem pawn_diag_loop_verdict (piece_positions : Board) (new_position : Nat) (beside : Int)
    (w : Bool) (en_passant_idx : Nat) (l : List Nat) (a b : Nat) :
    (pawn_diag_loop piece_positions new_position beside w en_passant_idx l a).1
      = (pawn_diag_loop piece_positions new_position beside w en_passant_idx l b).1 := by
  induction l generalizing a b with
  | nil => rfl
  | cons index rest ih =>
    unfold pawn_diag_loop
    split_ifs
    · rfl
    · exact ih _ _
    · rfl
    · exact ih _ _

/-- The verdicts of the five evaluators and of `valid_pawn_move` do not depend
on the capture index on entry. -/
theorem verdict_ignores_capture_index (piece_positions : Board) (w : Bool)
    (current_position new_position a b : Nat) :
    (∀ castle, (valid_king_move current_position new_position castle piece_positions w a).1
        = (valid_king_move current_position new_position castle piece_positions w b).1)
    ∧ (valid_queen_move current_position new_position piece_positions w a).1
        = (valid_queen_move current_position new_position piece_positions w b).1
    ∧ (valid_bishop_move current_position new_position piece_positions w a).1
        = (valid_bishop_move current_position new_position piece_positions w b).1
    ∧ (valid_knight_move current_position new_position piece_positions w a).1
        = (valid_knight_move current_position new_position piece_positions w b).1
    ∧ (valid_rook_move current_position new_position piece_positions w a).1
        = (valid_rook_move current_position new_position piece_positions w b).1 := by
  refine ⟨fun castle => ?_, ?_, ?_, ?_, ?_⟩
  · unfold valid_king_move
    simp only
    split_ifs
    · rfl
    · rfl
    · exact landing_loop_verdict _ _ _ _ _ _
  · unfold valid_queen_move
    split_ifs
    · rfl
    · rfl
    · exact sliding_loop_verdict _ _ _ _ _ _ _
  · unfold valid_bishop_move
    split_ifs
    · rfl
    · rfl
    · exact sliding_loop_verdict _ _ _ _ _ _ _
  · unfold valid_knight_move
    simp only
    split_ifs
    · rfl
    · rfl
    · rfl
    · exact landing_loop_verdict _ _ _ _ _ _
  · unfold valid_rook_move
    split_ifs
    · rfl
    · rfl
    · exact rook_loop_verdict _ _ _ _ _ _ _

/-- The verdict of `valid_pawn_move` does not depend on the capture index on
entry. -/
theorem valid_pawn_move_verdict (pawn_index new_position : Nat) (piece_positions : Board)
    (w : Bool) (a b promoted_pawns promoted_pawn_types en_passant_idx : Nat) :
    (valid_pawn_move pawn_index new_position piece_positions w a promoted_pawns
      promoted_pawn_types en_passant_idx).ok
      = (valid_pawn_move pawn_index new_position piece_positions w b promoted_pawns
          promoted_pawn_types en_passant_idx).ok := by
  obtain ⟨-, hq, hb, hk, hr⟩ := verdict_ignores_capture_index piece_positions w
    (piece_positions pawn_index) new_position a b
  unfold valid_pawn_move
  simp only
  split_ifs <;>
    first
    | rfl
    | exact hq
    | exact hb
    | exact hk
    | exact hr
    | exact pawn_diag_loop_verdict _ _ _ _ _ _ _ _

/-- `in_check` is the disjunction of its sixteen tests. -/
theorem in_check_eq_or (w : Bool) (piece_positions : Board)
    (promoted_pawns promoted_pawn_types : Nat) :
    in_check w piece_positions promoted_pawns promoted_pawn_types
      = ((valid_king_move (if w then piece_positions 16 else piece_positions 0)
          (if w then piece_positions 0 else piece_positions 16) 0xFF piece_positions w 0).1
        || (valid_queen_move (if w then piece_positions 17 else piece_positions 1)
          (if w then piece_positions 0 else piece_positions 16) piece_positions (!w) 0).1
        || (valid_bishop_move (if w then piece_positions 18 else piece_positions 2)
          (if w then piece_positions 0 else piece_positions 16) piece_positions (!w) 0).1
        || (valid_bishop_move (if w then piece_positions 19 else piece_positions 3)
          (if w then piece_positions 0 else piece_positions 16) piece_positions (!w) 0).1
        || (valid_knight_move (if w then piece_positions 20 else piece_positions 4)
          (if w then piece_positions 0 else piece_positions 16) piece_positions (!w) 0).1
        || (valid_knight_move (if w then piece_positions 21 else piece_positions 5)
          (if w then piece_positions 0 else piece_positions 16) piece_positions (!w) 0).1
        || (valid_rook_move (if w then piece_positions 22 else piece_positions 6)
          (if w then piece_positions 0 else piece_positions 16) piece_positions (!w) 0).1
        || (valid_rook_move (if w then piece_positions 23 else piece_positions 7)
          (if w then piece_positions 0 else piece_positions 16) piece_positions (!w) 0).1
        || (List.range 8).any fun index =>
            (valid_pawn_move (index + if w then 24 else 8)
              (if w then piece_positions 0 else piece_positions 16) piece_positions (!w) 0
              promoted_pawns promoted_pawn_types 32).ok) := by
  unfold in_check
  simp only
  generalize (valid_king_move (if w = true then piece_positions 16 else piece_positions 0)
    (if w = true then piece_positions 0 else piece_positions 16) 0xFF piece_positions w 0).1 = k
  generalize (valid_queen_move (if w = true then piece_positions 17 else piece_positions 1)
    (if w = true then piece_positions 0 else piece_positions 16) piece_positions (!w) 0).1 = q
  generalize (valid_bishop_move (if w = true then piece_positions 18 else piece_positions 2)
    (if w = true then piece_positions 0 else piece_positions 16) piece_positions (!w) 0).1 = b1
  generalize (valid_bishop_move (if w = true then piece_positions 19 else piece_positions 3)
    (if w = true then piece_positions 0 else piece_positions 16) piece_positions (!w) 0).1 = b2
  generalize (valid_knight_move (if w = true then piece_positions 20 else piece_positions 4)
    (if w = true then piece_positions 0 else piece_positions 16) piece_positions (!w) 0).1 = n1
  generalize (valid_knight_move (if w = true then piece_positions 21 else piece_positions 5)
    (if w = true then piece_positions 0 else piece_positions 16) piece_positions (!w) 0).1 = n2
  generalize (valid_rook_move (if w = true then piece_positions 22 else piece_positions 6)
    (if w = true then piece_positions 0 else piece_positions 16) piece_positions (!w) 0).1 = r1
  generalize (valid_rook_move (if w = true then piece_positions 23 else piece_positions 7)
    (if w = true then piece_positions 0 else piece_positions 16) piece_positions (!w) 0).1 = r2
  generalize ((List.range 8).any fun index =>
    (valid_pawn_move (index + if w = true then 24 else 8)
      (if w = true then piece_positions 0 else piece_positions 16) piece_positions (!w) 0
      promoted_pawns promoted_pawn_types 32).ok) = p
  cases k <;> cases q <;> cases b1 <;> cases b2 <;> cases n1 <;> cases n2 <;> cases r1 <;>
    cases r2 <;> rfl

/-- Where C17 holds: `in_check` has no false negative for the enemy queen,
bishops, knights, rooks and pawns. If the evaluator of one of these enemy
slots (slot `o + 1` .. `o + 15`, with `o` 16 when the king under test is White
and 0 when it is Black), called with the enemy's colour, any capture index and
en-passant index 32, accepts a move from the slot's square onto the king's
square, then `in_check` returns true. -/
theorem in_check_sees_other_attackers (w : Bool) (piece_positions : Board)
    (promoted_pawns promoted_pawn_types captured_piece_index : Nat) :
    ((valid_queen_move (piece_positions ((if w then 16 else 0) + 1))
        (piece_positions (if w then 0 else 16)) piece_positions (!w)
        captured_piece_index).1 = true
      ∨ (∃ slot, (slot = 2 ∨ slot = 3)
        ∧ (valid_bishop_move (piece_positions ((if w then 16 else 0) + slot))
            (piece_positions (if w then 0 else 16)) piece_positions (!w)
            captured_piece_index).1 = true)
      ∨ (∃ slot, (slot = 4 ∨ slot = 5)
        ∧ (valid_knight_move (piece_positions ((if w then 16 else 0) + slot))
            (piece_positions (if w then 0 else 16)) piece_positions (!w)
            captured_piece_index).1 = true)
      ∨ (∃ slot, (slot = 6 ∨ slot = 7)
        ∧ (valid_rook_move (piece_positions ((if w then 16 else 0) + slot))
            (piece_positions (if w then 0 else 16)) piece_positions (!w)
            captured_piece_index).1 = true)
      ∨ (∃ slot, 8 ≤ slot ∧ slot ≤ 15
        ∧ (valid_pawn_move ((if w then 16 else 0) + slot)
            (piece_positions (if w then 0 else 16)) piece_positions (!w)
            captured_piece_index promoted_pawns promoted_pawn_types 32).ok = true)) →
    in_check w piece_positions promoted_pawns promoted_pawn_types = true := by
  intro h
  rw [in_check_eq_or]
  have hv := fun cur => verdict_ignores_capture_index piece_positions (!w) cur
    (piece_positions (if w then 0 else 16)) captured_piece_index 0
  have hpawn : ∀ slot, 8 ≤ slot → slot ≤ 15 →
      (valid_pawn_move ((if w then 16 else 0) + slot) (piece_positions (if w then 0 else 16))
        piece_positions (!w) captured_piece_index promoted_pawns promoted_pawn_types 32).ok
        = true →
      ((List.range 8).any fun index =>
        (valid_pawn_move (index + if w then 24 else 8)
          (if w then piece_positions 0 else piece_positions 16) piece_positions (!w) 0
          promoted_pawns promoted_pawn_types 32).ok) = true := by
    intro slot h8 h15 hok
    rw [valid_pawn_move_verdict _ _ _ _ _ 0] at hok
    refine List.any_eq_true.mpr ⟨slot - 8, List.mem_range.mpr (by omega), ?_⟩
    have e1 : (slot - 8 + if w then 24 else 8) = (if w then 16 else 0) + slot := by
      cases w <;> simp <;> omega
    have e2 : (if w then piece_positions 0 else piece_positions 16)
        = piece_positions (if w then 0 else 16) := by cases w <;> rfl
    rw [e1, e2]
    exact hok
  cases w
  all_goals
    simp only [Bool.false_eq_true, if_false, if_true, Nat.zero_add, Bool.not_false,
      Bool.not_true] at h hv hpawn ⊢
    rcases h with h | ⟨slot, hs | hs, h⟩ | ⟨slot, hs | hs, h⟩ | ⟨slot, hs | hs, h⟩
      | ⟨slot, h8, h15, h⟩
    · rw [(hv _).2.1] at h; simp [h]
    · subst hs; rw [(hv _).2.2.1] at h; simp [h]
    · subst hs; rw [(hv _).2.2.1] at h; simp [h]
    · subst hs; rw [(hv _).2.2.2.1] at h; simp [h]
    · subst hs; rw [(hv _).2.2.2.1] at h; simp [h]
    · subst hs; rw [(hv _).2.2.2.2] at h; simp [h]
    · subst hs; rw [(hv _).2.2.2.2] at h; simp [h]
    · simp [hpawn slot h8 h15 h]

/-- A square that `blocked` reports lies strictly between the two squares in
the numbering. -/
theorem blocked_between (current_position new_position test_position : Nat)
    (h : blocked current_position new_position test_position = true) :
    (current_position < test_position ∧ test_position < new_position)
    ∨ (new_position < test_position ∧ test_position < current_position) := by
  unfold blocked at h
  split_ifs at h with h1 h2 h3 h4
  · exact Or.inl ⟨h3.2.1, h3.2.2⟩
  · exact Or.inr ⟨h4.2.2, h4.2.1⟩

/-- The scans of `valid_rook_move` and of `valid_queen_move` return the same:
the two slots that only the queen's scan skips, those on the origin and those
on square 0, are never reported by `blocked`. -/
theorem rook_loop_eq_sliding_loop (piece_positions : Board)
    (current_position new_position : Nat) (w : Bool) (l : List Nat)
    (captured_piece_index : Nat) :
    rook_loop piece_positions current_position new_position w l captured_piece_index
      = sliding_loop piece_positions current_position new_position w l
          captured_piece_index := by
  induction l generalizing captured_piece_index with
  | nil => rfl
  | cons index rest ih =>
    unfold rook_loop sliding_loop
    by_cases hp : piece_positions index = new_position
    · rw [if_pos hp, if_pos hp]
      split_ifs
      · exact ih _
      · rfl
    · rw [if_neg hp, if_neg hp]
      by_cases hb : blocked current_position new_position (piece_positions index) = true
      · rw [if_pos hb, if_pos hb]
        have := blocked_between _ _ _ hb
        rw [if_pos (by omega)]
      · rw [if_neg hb, if_neg hb]
        split_ifs
        · exact ih _
        · exact ih _

/-- C18. Queen legality is the union of rook and bishop legality: on every
board, for every mover colour and all origin and destination squares,
`valid_queen_move` accepts if and only if `valid_rook_move` accepts or
`valid_bishop_move` accepts on the same arguments, and whichever of the two
accepts returns the same verdict and captured slot as `valid_queen_move`. -/
theorem queen_is_rook_or_bishop (current_position new_position : Nat) (piece_positions : Board)
    (is_whites_move : Bool) (captured_piece_index : Nat) :
    ((valid_queen_move current_position new_position piece_positions is_whites_move
        captured_piece_index).1 = true
      ↔ (valid_rook_move current_position new_position piece_positions is_whites_move
          captured_piece_index).1 = true
        ∨ (valid_bishop_move current_position new_position piece_positions is_whites_move
          captured_piece_index).1 = true)
    ∧ ((valid_rook_move current_position new_position piece_positions is_whites_move
          captured_piece_index).1 = true →
        valid_queen_move current_position new_position piece_positions is_whites_move
          captured_piece_index
        = valid_rook_move current_position new_position piece_positions is_whites_move
          captured_piece_index)
    ∧ ((valid_bishop_move current_position new_position piece_positions is_whites_move
          captured_piece_index).1 = true →
        valid_queen_move current_position new_position piece_positions is_whites_move
          captured_piece_index
        = valid_bishop_move current_position new_position piece_positions is_whites_move
          captured_piece_index) := by
  unfold valid_queen_move valid_rook_move valid_bishop_move
  rw [rook_loop_eq_sliding_loop]
  by_cases h0 : current_position = 0
  · simp [h0]
  · simp only [if_neg h0]
    generalize same_row current_position new_position = row
    generalize same_col current_position new_position = col
    generalize same_ne_diag current_position new_position = ne
    generalize same_nw_diag current_position new_position = nw
    generalize same_se_diag current_position new_position = se
    generalize same_sw_diag current_position new_position = sw
    generalize sliding_loop piece_positions current_position new_position is_whites_move
      (List.range 32) captured_piece_index = scan
    cases row <;> cases col <;> cases ne <;> cases nw <;> cases se <;> cases sw <;> simp

/-- An instance of C18: on `rook_check_board` the queen's move from 5 to 12 is
accepted with the capture of slot 22; the bishop evaluator accepts the same
move with the same capture and the rook evaluator refuses it. -/
theorem queen_is_rook_or_bishop_witness :
    valid_queen_move 5 12 rook_check_board true 32 = (true, 22)
    ∧ (valid_rook_move 5 12 rook_check_board true 32).1 = false
    ∧ valid_queen_move 5 12 rook_check_board true 32
        = valid_bishop_move 5 12 rook_check_board true 32 :=
  ⟨by decide!, by decide!,
    (queen_is_rook_or_bishop 5 12 rook_check_board true 32).2.2 (by decide!)⟩

/-- The scan of the king and knight evaluators accepts, and leaves the
capture index alone, when no scanned slot stands on the destination. -/
theorem landing_loop_free (piece_positions : Board) (new_position : Nat) (w : Bool)
    (l : List Nat) (captured_piece_index : Nat)
    (h : ∀ i ∈ l, piece_positions i ≠ new_position) :
    landing_loop piece_positions new_position w l captured_piece_index
      = (true, captured_piece_index) := by
  induction l with
  | nil => rfl
  | cons index rest ih =>
    unfold landing_loop
    rw [if_neg (h index (List.mem_cons_self _ _))]
    exact ih (fun i hi => h i (List.mem_cons_of_mem _ hi))

/-- A knight move that is accepted on some board to a square other than 0 is
a knight step. -/
theorem knight_step_of_accepted (current_position new_position : Nat)
    (piece_positions : Board) (w : Bool) (captured_piece_index : Nat)
    (hn : new_position ≠ 0)
    (h : (valid_knight_move current_position new_position piece_positions w
      captured_piece_index).1 = true) :
    knight_step current_position new_position = true := by
  unfold knight_step
  unfold valid_knight_move at h ⊢
  simp only at h ⊢
  split_ifs at h ⊢
  rw [landing_loop_free _ _ _ _ _ (fun i _ => fun e => hn e.symm)]

/-- A knight step onto a square on which none of the 32 slots stands is
accepted. -/
theorem accepted_of_knight_step (current_position new_position : Nat)
    (piece_positions : Board) (w : Bool) (captured_piece_index : Nat)
    (hfree : ∀ i < 32, piece_positions i ≠ new_position)
    (h : knight_step current_position new_position = true) :
    (valid_knight_move current_position new_position piece_positions w
      captured_piece_index).1 = true := by
  unfold knight_step at h
  unfold valid_knight_move at h ⊢
  simp only at h ⊢
  split_ifs at h ⊢
  rw [landing_loop_free _ _ _ _ _ (fun i hi => hfree i (List.mem_range.mp hi))]

/-- Knight steps between squares up to 64 can be taken back, and join
different squares. -/
theorem knight_step_symmetric_bounded :
    ∀ a < 65, ∀ b < 65, knight_step a b = true → knight_step b a = true ∧ a ≠ b := by
  decide!

/-- C19. Knight legality is symmetric: for all squares `a` and `b` in 1..64
and either colour, on a board where the knight, slot `k`, stands on `a` and no
other slot stands on `a` or `b`, if `valid_knight_move` accepts the move from
`a` to `b`, then on the board with the knight on `b` it accepts the move from
`b` to `a`. -/
theorem knight_legality_symmetric (piece_positions : Board) (is_whites_move : Bool)
    (k a b captured_piece_index captured_back : Nat)
    (ha : 1 ≤ a ∧ a ≤ 64) (hb : 1 ≤ b ∧ b ≤ 64)
    (hk : piece_positions k = a)
    (hothers : ∀ i < 32, i ≠ k → piece_positions i ≠ a ∧ piece_positions i ≠ b)
    (h : (valid_knight_move a b piece_positions is_whites_move captured_piece_index).1 = true) :
    (valid_knight_move b a (Function.update piece_positions k b) is_whites_move
      captured_back).1 = true := by
  have hstep := knight_step_of_accepted a b piece_positions is_whites_move
    captured_piece_index (by omega) h
  obtain ⟨hback, hne⟩ := knight_step_symmetric_bounded a (by omega) b (by omega) hstep
  apply accepted_of_knight_step _ _ _ _ _ _ hback
  intro i hi
  by_cases hik : i = k
  · rw [hik, Function.update_same]
    exact fun e => hne e.symm
  · rw [Function.update_noteq hik]
    exact (hothers i hi hik).1

/-- Spec scenario 1 as an instance of C19: in the starting position Black
knight slot 20 stands on square 58 and nothing else stands on 58 or 43; the
move from 58 to 43 is accepted, and with the knight on 43 so is the move from
43 back to 58. -/
theorem knight_legality_symmetric_witness :
    start_positions 20 = 58
    ∧ (∀ i < 32, i ≠ 20 → start_positions i ≠ 58 ∧ start_positions i ≠ 43)
    ∧ (valid_knight_move 58 43 start_positions false 32).1 = true
    ∧ (valid_knight_move 43 58 (Function.update start_positions 20 43) false 32).1 = true :=
  ⟨by decide, by decide, by decide!,
    knight_legality_symmetric start_positions false 20 58 43 32 32 (by decide) (by decide)
      (by decide) (by decide) (by decide!)⟩

/-- C20. Input rejection: whatever the table holds, the `move` action leaves
it as it is when the destination is 0 or greater than 64 or the slot id is
greater than 31; and `valid_move` rejects every request whose slot is already
captured (square 0) or whose destination is the slot's current square. -/
theorem input_rejection (self : Nat) (stray : Bool) (game_index : Nat → Option Game)
    (player game_id piece_id new_position promotion_type : Nat) (piece_positions : Board)
    (castle en_passant_idx promoted_pawns promoted_pawn_types captured_piece_index : Nat)
    (checkmate : Bool) :
    ((new_position = 0 ∨ new_position > 64 ∨ piece_id > 31) →
      move self stray game_index player game_id piece_id new_position promotion_type
        = game_index)
    ∧ ((piece_positions piece_id = 0 ∨ piece_positions piece_id = new_position) →
      (valid_move piece_id new_position piece_positions castle en_passant_idx promoted_pawns
        promoted_pawn_types promotion_type captured_piece_index checkmate).ok = false) := by
  constructor
  · intro h
    unfold move
    by_cases h1 : new_position > 64 ∨ new_position = 0
    · rw [if_pos h1]
    · rw [if_neg h1, if_pos (by omega)]
  · intro h
    unfold valid_move
    simp only
    by_cases h1 : piece_positions piece_id = 0
    · rw [if_pos h1]
      rfl
    · rw [if_neg h1, if_pos (by tauto)]
      rfl

/-- Spec scenario 2 and further instances of C20: on a new game the request
of White pawn slot 8 for square 65 leaves the table as it is, and so do the
requests for square 0 and for slot 32; on `promotion_board` the captured slot
22 cannot move, and in the starting position pawn slot 8 cannot move to its
own square 9. -/
theorem input_rejection_witness :
    move 1 false opening_table 100 7 8 65 0 = opening_table
    ∧ move 1 false opening_table 100 7 8 0 0 = opening_table
    ∧ move 1 false opening_table 100 7 32 17 0 = opening_table
    ∧ promotion_board 22 = 0
    ∧ (valid_move 22 41 promotion_board 0 32 0 0 0 32 false).ok = false
    ∧ start_positions 8 = 9
    ∧ (valid_move 8 9 start_positions 0 32 0 0 0 32 false).ok = false :=
  ⟨(input_rejection 1 false opening_table 100 7 8 65 0 start_positions 0 32 0 0 32 false).1
      (by decide),
    (input_rejection 1 false opening_table 100 7 8 0 0 start_positions 0 32 0 0 32 false).1
      (by decide),
    (input_rejection 1 false opening_table 100 7 32 17 0 start_positions 0 32 0 0 32 false).1
      (by decide),
    by decide,
    (input_rejection 1 false opening_table 100 7 22 41 0 promotion_board 0 32 0 0 32 false).2
      (by decide),
    by decide,
    (input_rejection 1 false opening_table 100 7 8 9 0 start_positions 0 32 0 0 32 false).2
      (by decide)⟩

set_option synthInstance.maxSize 1024 in
set_option synthInstance.maxHeartbeats 200000 in
/-- The six line predicates on squares 1..64, in terms of the rows
`(s - 1) / 8` and the columns `(s - 1) % 8`. -/
theorem line_predicates_bounded :
    ∀ a < 65, ∀ b < 65, 1 ≤ a → 1 ≤ b →
      (same_row a b = true ↔ (a - 1) / 8 = (b - 1) / 8)
      ∧ (same_col a b = true ↔ (a - 1) % 8 = (b - 1) % 8)
      ∧ (same_nw_diag a b = true ↔ ((b - 1) / 8 < (a - 1) / 8
        ∧ (a - 1) / 8 - (b - 1) / 8 + (b - 1) % 8 = (a - 1) % 8))
      ∧ (same_ne_diag a b = true ↔ ((b - 1) / 8 < (a - 1) / 8
        ∧ (a - 1) / 8 - (b - 1) / 8 + (a - 1) % 8 = (b - 1) % 8))
      ∧ (same_sw_diag a b = true ↔ ((a - 1) / 8 < (b - 1) / 8
        ∧ (b - 1) / 8 - (a - 1) / 8 + (b - 1) % 8 = (a - 1) % 8))
      ∧ (same_se_diag a b = true ↔ ((a - 1) / 8 < (b - 1) / 8
        ∧ (b - 1) / 8 - (a - 1) / 8 + (a - 1) % 8 = (b - 1) % 8)) := by
  decide!

/-- The relation `diagonal_shift` for the four diagonal directions, in terms
of rows and columns. -/
theorem diagonal_shift_iff (a b : Nat) :
    (diagonal_shift a b (-1) (-1) ↔ ((b - 1) / 8 < (a - 1) / 8
        ∧ (a - 1) / 8 - (b - 1) / 8 + (b - 1) % 8 = (a - 1) % 8))
    ∧ (diagonal_shift a b (-1) 1 ↔ ((b - 1) / 8 < (a - 1) / 8
        ∧ (a - 1) / 8 - (b - 1) / 8 + (a - 1) % 8 = (b - 1) % 8))
    ∧ (diagonal_shift a b 1 (-1) ↔ ((a - 1) / 8 < (b - 1) / 8
        ∧ (b - 1) / 8 - (a - 1) / 8 + (b - 1) % 8 = (a - 1) % 8))
    ∧ (diagonal_shift a b 1 1 ↔ ((a - 1) / 8 < (b - 1) / 8
        ∧ (b - 1) / 8 - (a - 1) / 8 + (a - 1) % 8 = (b - 1) % 8)) := by
  unfold diagonal_shift row_index col_index
  refine ⟨⟨?_, ?_⟩, ⟨?_, ?_⟩, ⟨?_, ?_⟩, ⟨?_, ?_⟩⟩
  · rintro ⟨k, _, _, hr, hc⟩
    omega
  · rintro ⟨h1, h2⟩
    exact ⟨(a - 1) / 8 - (b - 1) / 8, by omega, by omega, by omega, by omega⟩
  · rintro ⟨k, _, _, hr, hc⟩
    omega
  · rintro ⟨h1, h2⟩
    exact ⟨(a - 1) / 8 - (b - 1) / 8, by omega, by omega, by omega, by omega⟩
  · rintro ⟨k, _, _, hr, hc⟩
    omega
  · rintro ⟨h1, h2⟩
    exact ⟨(b - 1) / 8 - (a - 1) / 8, by omega, by omega, by omega, by omega⟩
  · rintro ⟨k, _, _, hr, hc⟩
    omega
  · rintro ⟨h1, h2⟩
    exact ⟨(b - 1) / 8 - (a - 1) / 8, by omega, by omega, by omega, by omega⟩

/-- C27. The diagonal predicates are exact: for all squares `a` and `b` in
1..64, with the row `(s - 1) / 8` and the column `(s - 1) % 8`,
`same_nw_diag a b` holds iff `b` is `k` rows and `k` columns below `a` for
some `k` at least 1, `same_ne_diag a b` iff it is `k` rows below and `k`
columns above, `same_sw_diag a b` iff `k` rows above and `k` columns below,
`same_se_diag a b` iff `k` rows and `k` columns above; and one of the four
holds iff `a` differs from `b` and their row distance equals their column
distance. -/
theorem diagonal_predicates_exact (a b : Nat) (ha : 1 ≤ a ∧ a ≤ 64) (hb : 1 ≤ b ∧ b ≤ 64) :
    (same_nw_diag a b = true ↔ diagonal_shift a b (-1) (-1))
    ∧ (same_ne_diag a b = true ↔ diagonal_shift a b (-1) 1)
    ∧ (same_sw_diag a b = true ↔ diagonal_shift a b 1 (-1))
    ∧ (same_se_diag a b = true ↔ diagonal_shift a b 1 1)
    ∧ ((same_nw_diag a b = true ∨ same_ne_diag a b = true ∨ same_sw_diag a b = true
          ∨ same_se_diag a b = true)
        ↔ (a ≠ b
          ∧ (row_index a - row_index b).natAbs = (col_index a - col_index b).natAbs)) := by
  obtain ⟨-, -, hnw, hne, hsw, hse⟩ :=
    line_predicates_bounded a (by omega) b (by omega) ha.1 hb.1
  obtain ⟨snw, sne, ssw, sse⟩ := diagonal_shift_iff a b
  refine ⟨hnw.trans snw.symm, hne.trans sne.symm, hsw.trans ssw.symm, hse.trans sse.symm, ?_⟩
  rw [hnw, hne, hsw, hse]
  unfold row_index col_index
  omega

/-- Instances of C27: square 1 is one row and one column below square 10 and
`same_nw_diag 10 1` holds; the squares 16 and 9, 7 apart at the two ends of
one row, are on no common diagonal, and neither are 8 and 1. -/
theorem diagonal_predicates_exact_witness :
    (same_nw_diag 10 1 = true ↔ diagonal_shift 10 1 (-1) (-1))
    ∧ same_nw_diag 10 1 = true
    ∧ ¬ (same_nw_diag 16 9 = true ∨ same_ne_diag 16 9 = true ∨ same_sw_diag 16 9 = true
          ∨ same_se_diag 16 9 = true)
    ∧ ¬ (same_nw_diag 8 1 = true ∨ same_ne_diag 8 1 = true ∨ same_sw_diag 8 1 = true
          ∨ same_se_diag 8 1 = true) :=
  ⟨(diagonal_predicates_exact 10 1 (by decide) (by decide)).1, by decide!,
    fun h => absurd ((diagonal_predicates_exact 16 9 (by decide) (by decide)).2.2.2.2.mp h).2
      (by decide),
    fun h => absurd ((diagonal_predicates_exact 8 1 (by decide) (by decide)).2.2.2.2.mp h).2
      (by decide)⟩

/-- The function `blocked` on squares up to 64, as a proposition. -/
theorem blocked_iff (a b t : Nat) (ha : a < 65) (hb : b < 65) (ht : t < 65) :
    blocked a b t = true ↔
      ((same_row a b = true ∧ same_row a t = true)
        ∨ (same_col a b = true ∧ same_col a t = true)
        ∨ (same_ne_diag a b = true ∧ same_ne_diag a t = true)
        ∨ (same_nw_diag a b = true ∧ same_nw_diag a t = true)
        ∨ (same_se_diag a b = true ∧ same_se_diag a t = true)
        ∨ (same_sw_diag a b = true ∧ same_sw_diag a t = true))
      ∧ ((a < b ∧ a < t ∧ t < b) ∨ (a > b ∧ a > t ∧ t > b)) := by
  unfold blocked
  rw [if_pos ⟨ha, hb, ht⟩]
  generalize same_row a b = r1
  generalize same_row a t = r2
  generalize same_col a b = c1
  generalize same_col a t = c2
  generalize same_ne_diag a b = d1
  generalize same_ne_diag a t = d2
  generalize same_nw_diag a b = d3
  generalize same_nw_diag a t = d4
  generalize same_se_diag a b = d5
  generalize same_se_diag a t = d6
  generalize same_sw_diag a b = d7
  generalize same_sw_diag a t = d8
  simp only [Bool.or_eq_true, Bool.and_eq_true]
  constructor
  · intro h
    split_ifs at h with h1 h2 h3
    · exact ⟨by simpa only [or_assoc] using h1, Or.inl h2⟩
    · exact ⟨by simpa only [or_assoc] using h1, Or.inr h3⟩
  · rintro ⟨h1, h2⟩
    rw [if_pos (by simpa only [or_assoc] using h1)]
    rcases h2 with h2 | h2
    · rw [if_pos h2]
    · rw [if_pos h2, ite_self]

/-- C28. The function `blocked` is exact betweenness: for all squares `a`
(from), `b` (to) and `t` (test) in 1..64, `blocked a b t` is true if and only
if `a` and `b` lie on a common row, column or diagonal and `t` is a square of
that line strictly between them: `b` is `n` one-square steps from `a` in the
direction of the line and `t` is `j` such steps from `a`, with `0 < j < n`. -/
theorem blocked_exact_betweenness (a b t : Nat) (ha : 1 ≤ a ∧ a ≤ 64) (hb : 1 ≤ b ∧ b ≤ 64)
    (ht : 1 ≤ t ∧ t ≤ 64) :
    blocked a b t = true ↔ steps_between a b t := by
  rw [blocked_iff a b t (by omega) (by omega) (by omega)]
  obtain ⟨br, bc, bnw, bne, bsw, bse⟩ :=
    line_predicates_bounded a (by omega) b (by omega) ha.1 hb.1
  obtain ⟨tr, tc, tnw, tne, tsw, tse⟩ :=
    line_predicates_bounded a (by omega) t (by omega) ha.1 ht.1
  rw [br, bc, bnw, bne, bsw, bse, tr, tc, tnw, tne, tsw, tse]
  unfold steps_between row_index col_index
  constructor
  · rintro ⟨hline, hord⟩
    rcases hline with h | h | h | h | h | h
    · rcases hord with o | o
      · exact ⟨0, by simp, 1, by simp, by simp, (b - 1) % 8 - (a - 1) % 8, by omega,
          (t - 1) % 8 - (a - 1) % 8, by omega, by omega, by omega, by omega, by omega, by omega⟩
      · exact ⟨0, by simp, -1, by simp, by simp, (a - 1) % 8 - (b - 1) % 8, by omega,
          (a - 1) % 8 - (t - 1) % 8, by omega, by omega, by omega, by omega, by omega, by omega⟩
    · rcases hord with o | o
      · exact ⟨1, by simp, 0, by simp, by simp, (b - 1) / 8 - (a - 1) / 8, by omega,
          (t - 1) / 8 - (a - 1) / 8, by omega, by omega, by omega, by omega, by omega, by omega⟩
      · exact ⟨-1, by simp, 0, by simp, by simp, (a - 1) / 8 - (b - 1) / 8, by omega,
          (a - 1) / 8 - (t - 1) / 8, by omega, by omega, by omega, by omega, by omega, by omega⟩
    · exact ⟨-1, by simp, 1, by simp, by simp, (a - 1) / 8 - (b - 1) / 8, by omega,
        (a - 1) / 8 - (t - 1) / 8, by omega, by omega, by omega, by omega, by omega, by omega⟩
    · exact ⟨-1, by simp, -1, by simp, by simp, (a - 1) / 8 - (b - 1) / 8, by omega,
        (a - 1) / 8 - (t - 1) / 8, by omega, by omega, by omega, by omega, by omega, by omega⟩
    · exact ⟨1, by simp, 1, by simp, by simp, (b - 1) / 8 - (a - 1) / 8, by omega,
        (t - 1) / 8 - (a - 1) / 8, by omega, by omega, by omega, by omega, by omega, by omega⟩
    · exact ⟨1, by simp, -1, by simp, by simp, (b - 1) / 8 - (a - 1) / 8, by omega,
        (t - 1) / 8 - (a - 1) / 8, by omega, by omega, by omega, by omega, by omega, by omega⟩
  · rintro ⟨row_step, hr, col_step, hc, hnz, n, hn, j, hj, hj0, e1, e2, e3, e4⟩
    simp only [List.mem_cons, List.mem_singleton, List.not_mem_nil, or_false] at hr hc
    rcases hr with rfl | rfl | rfl <;> rcases hc with rfl | rfl | rfl
    · exact ⟨Or.inr (Or.inr (Or.inr (Or.inl (by omega)))), Or.inr (by omega)⟩
    · exact ⟨Or.inr (Or.inl (by omega)), Or.inr (by omega)⟩
    · exact ⟨Or.inr (Or.inr (Or.inl (by omega))), Or.inr (by omega)⟩
    · exact ⟨Or.inl (by omega), Or.inr (by omega)⟩
    · simp at hnz
    · exact ⟨Or.inl (by omega), Or.inl (by omega)⟩
    · exact ⟨Or.inr (Or.inr (Or.inr (Or.inr (Or.inr (by omega))))), Or.inl (by omega)⟩
    · exact ⟨Or.inr (Or.inl (by omega)), Or.inl (by omega)⟩
    · exact ⟨Or.inr (Or.inr (Or.inr (Or.inr (Or.inl (by omega))))), Or.inl (by omega)⟩

/-- Instances of C28: square 28 is the third step of the seven from square 1
to square 64 along their diagonal, and `blocked 1 64 28` is true; square 9
lies between 8 and 10 by number only, they share no line, and `blocked 8 10 9`
is false. -/
theorem blocked_exact_betweenness_witness :
    blocked 1 64 28 = true ∧ steps_between 1 64 28
    ∧ blocked 8 10 9 = false ∧ ¬ steps_between 8 10 9 :=
  ⟨by decide!,
    (blocked_exact_betweenness 1 64 28 (by decide) (by decide) (by decide)).mp (by decide!),
    by decide!,
    fun h => absurd
      ((blocked_exact_betweenness 8 10 9 (by decide) (by decide) (by decide)).mpr h)
      (by decide!)⟩

/-- The scan of the king and knight evaluators accepts when every scanned
slot that stands on the destination is an enemy slot. -/
theorem landing_loop_no_friendly (piece_positions : Board) (new_position : Nat) (w : Bool)
    (l : List Nat) (captured_piece_index : Nat)
    (h : ∀ i ∈ l, piece_positions i = new_position → is_enemy_piece w i = true) :
    (landing_loop piece_positions new_position w l captured_piece_index).1 = true := by
  induction l generalizing captured_piece_index with
  | nil => rfl
  | cons index rest ih =>
    unfold landing_loop
    by_cases hp : piece_positions index = new_position
    · rw [if_pos hp, if_pos (h index (List.mem_cons_self _ _) hp)]
      exact ih _ (fun i hi => h i (List.mem_cons_of_mem _ hi))
    · rw [if_neg hp]
      exact ih _ (fun i hi => h i (List.mem_cons_of_mem _ hi))

/-- The verdict of `valid_king_move` for a destination other than 0: the
tests of the offset and of the edges, and then the scan of the slots. -/
theorem valid_king_move_verdict (current_position new_position castle : Nat)
    (piece_positions : Board) (w : Bool) (captured_piece_index : Nat) (hn : new_position ≠ 0) :
    (valid_king_move current_position new_position castle piece_positions w
        captured_piece_index).1
      = (king_step current_position new_position
          && (landing_loop piece_positions new_position w (List.range 32)
                captured_piece_index).1) := by
  unfold king_step valid_king_move
  simp only
  split_ifs
  · rfl
  · rfl
  · rw [landing_loop_free (fun _ => 0) _ _ _ _ (fun i _ => fun e => hn e.symm)]
    rfl

/-- The verdict of `valid_knight_move` for a destination other than 0: the
tests of the offset and of the edges, and then the scan of the slots. -/
theorem valid_knight_move_verdict (current_position new_position : Nat)
    (piece_positions : Board) (w : Bool) (captured_piece_index : Nat) (hn : new_position ≠ 0) :
    (valid_knight_move current_position new_position piece_positions w
        captured_piece_index).1
      = (knight_step current_position new_position
          && (landing_loop piece_positions new_position w (List.range 32)
                captured_piece_index).1) := by
  unfold knight_step valid_knight_move
  simp only
  split_ifs
  · rfl
  · rfl
  · rfl
  · rw [landing_loop_free (fun _ => 0) _ _ _ _ (fun i _ => fun e => hn e.symm)]
    rfl

/-- On squares 1..64 the offset and edge tests of `valid_king_move` accept
exactly the steps to a neighbouring square. -/
theorem king_step_bounded :
    ∀ a < 65, ∀ b < 65, 1 ≤ a → 1 ≤ b → (king_step a b = true ↔ king_adjacent a b) := by
  decide!

/-- On squares 1..64 the offset and edge tests of `valid_knight_move` accept
exactly the knight leaps. -/
theorem knight_step_bounded :
    ∀ a < 65, ∀ b < 65, 1 ≤ a → 1 ≤ b → (knight_step a b = true ↔ knight_leap a b) := by
  decide!

/-- C25. King step geometry: for all squares `a` (origin) and `b`
(destination) in 1..64, either colour and every board on which no slot of the
mover's colour stands on `b`, `valid_king_move` accepts if and only if `b`
differs from `a` and is at most one row and at most one column away (row
`(s - 1) / 8`, column `(s - 1) % 8`); in particular the offset +1 from a
square of the last column and the offset -1 from a square of the first column
are rejected. -/
theorem king_step_geometry (a b castle : Nat) (piece_positions : Board)
    (is_whites_move : Bool) (captured_piece_index : Nat)
    (ha : 1 ≤ a ∧ a ≤ 64) (hb : 1 ≤ b ∧ b ≤ 64)
    (hfree : ∀ i < 32, piece_positions i = b → is_enemy_piece is_whites_move i = true) :
    ((valid_king_move a b castle piece_positions is_whites_move captured_piece_index).1 = true
      ↔ king_adjacent a b)
    ∧ (col_index a = 7 → b = a + 1 →
        (valid_king_move a b castle piece_positions is_whites_move captured_piece_index).1
          = false)
    ∧ (col_index a = 0 → b + 1 = a →
        (valid_king_move a b castle piece_positions is_whites_move captured_piece_index).1
          = false) := by
  have hiff : (valid_king_move a b castle piece_positions is_whites_move
      captured_piece_index).1 = true ↔ king_adjacent a b := by
    rw [valid_king_move_verdict a b castle piece_positions is_whites_move captured_piece_index
      (by omega),
      landing_loop_no_friendly piece_positions b is_whites_move (List.range 32)
        captured_piece_index (fun i hi => hfree i (List.mem_range.mp hi)),
      Bool.and_true]
    exact king_step_bounded a (by omega) b (by omega) ha.1 hb.1
  refine ⟨hiff, ?_, ?_⟩
  · intro hc hab
    rw [Bool.eq_false_iff]
    intro hacc
    have hadj := hiff.mp hacc
    unfold king_adjacent at hadj
    unfold col_index at hc hadj
    unfold row_index at hadj
    omega
  · intro hc hab
    rw [Bool.eq_false_iff]
    intro hacc
    have hadj := hiff.mp hacc
    unfold king_adjacent at hadj
    unfold col_index at hc hadj
    unfold row_index at hadj
    omega

/-- Instances of C25 in the starting position with the White king on square
28 instead of 4: the step from 28 to 29, an empty neighbouring square, is
accepted; from square 8, in the last column, the offset +1 to square 9 is
rejected for Black, and from 9, in the first column, the offset -1 to 8. -/
theorem king_step_geometry_witness :
    king_adjacent 28 29
    ∧ (valid_king_move 28 29 0 (Function.update start_positions 0 28) true 32).1 = true
    ∧ (valid_king_move 8 9 0 start_positions false 32).1 = false
    ∧ (valid_king_move 9 8 0 start_positions false 32).1 = false :=
  ⟨by decide,
    (king_step_geometry 28 29 0 (Function.update start_positions 0 28) true 32 (by decide)
      (by decide) (by decide)).1.mpr (by decide),
    (king_step_geometry 8 9 0 start_positions false 32 (by decide) (by decide)
      (by decide)).2.1 (by decide) (by decide),
    (king_step_geometry 9 8 0 start_positions false 32 (by decide) (by decide)
      (by decide)).2.2 (by decide) (by decide)⟩

/-- C26. Knight geometry: for all squares `a` (origin) and `b` (destination)
in 1..64, either colour and every board on which no slot of the mover's
colour stands on `b`, `valid_knight_move` accepts if and only if the row and
column distances between `a` and `b` are 1 and 2, or 2 and 1. And from the
starting position `valid_move` accepts the move of Black knight slot 20 from
square 58 to square 43, with no capture. -/
theorem knight_geometry (a b : Nat) (piece_positions : Board) (is_whites_move : Bool)
    (captured_piece_index : Nat) (ha : 1 ≤ a ∧ a ≤ 64) (hb : 1 ≤ b ∧ b ≤ 64)
    (hfree : ∀ i < 32, piece_positions i = b → is_enemy_piece is_whites_move i = true) :
    ((valid_knight_move a b piece_positions is_whites_move captured_piece_index).1 = true
      ↔ knight_leap a b)
    ∧ start_positions 20 = 58
    ∧ (valid_move 20 43 start_positions 0 32 0 0 0 32 false).ok = true
    ∧ (valid_move 20 43 start_positions 0 32 0 0 0 32 false).captured_piece_index = 32 := by
  refine ⟨?_, by decide, by decide!, by decide!⟩
  rw [valid_knight_move_verdict a b piece_positions is_whites_move captured_piece_index
    (by omega),
    landing_loop_no_friendly piece_positions b is_whites_move (List.range 32)
      captured_piece_index (fun i hi => hfree i (List.mem_range.mp hi)),
    Bool.and_true]
  exact knight_step_bounded a (by omega) b (by omega) ha.1 hb.1

/-- Instances of C26 in the starting position: square 43 is a knight leap
from square 58 and the Black knight's move there is accepted; from square 8,
in the last column, the offset 10 to the empty square 18 would wrap around the
edge: square 18 is no knight leap from 8 and the move is rejected for White. -/
theorem knight_geometry_witness :
    knight_leap 58 43
    ∧ (valid_knight_move 58 43 start_positions false 32).1 = true
    ∧ ¬ knight_leap 8 18
    ∧ (valid_knight_move 8 18 start_positions true 32).1 ≠ true :=
  ⟨by decide,
    (knight_geometry 58 43 start_positions false 32 (by decide) (by decide)
      (by decide)).1.mpr (by decide),
    by decide,
    fun h => absurd ((knight_geometry 8 18 start_positions true 32 (by decide) (by decide)
      (by decide)).1.mp h) (by decide)⟩

/-- The part of `move` after the row is found returns without `modify`
exactly for the reasons of `row_refused`. -/
theorem move_row_none_iff (self : Nat) (stray : Bool) (itr : Game)
    (player piece_id new_position promotion_type : Nat) :
    move_row self stray itr player piece_id new_position promotion_type = none
      ↔ row_refused self itr player piece_id new_position promotion_type := by
  unfold move_row row_refused
  simp only
  generalize (valid_move piece_id new_position itr.piece_positions itr.castle
    itr.en_passant_idx itr.promoted_pawns itr.promoted_pawn_types promotion_type 32
    false) = r
  cases hok : r.ok
  · simp only [Bool.false_eq_true, if_false, ite_self, or_true]
  · by_cases h1 : itr.winner = self
    · simp [h1]
    by_cases h2 : itr.winner ≠ 0
    · simp [h1, h2]
    by_cases h3 : player = itr.player_w
    · by_cases h4 : itr.move_count % 2 ≠ 0
      · simp [h1, h2, h3, h4]
      by_cases h5 : piece_id > 15
      · simp [h1, h2, h3, h4, h5]
      · rw [if_neg h1, if_neg h2, if_pos h3, if_neg h4, if_neg h5, if_pos rfl]
        simp only [reduceCtorEq, false_iff]
        tauto
    · by_cases h6 : player = itr.player_b
      · by_cases h4 : itr.move_count % 2 = 0
        · rw [if_neg h1, if_neg h2, if_neg h3, if_pos h6, if_pos h4]
          simp only [true_iff]
          tauto
        by_cases h5 : piece_id < 16
        · rw [if_neg h1, if_neg h2, if_neg h3, if_pos h6, if_neg h4, if_pos h5]
          simp only [true_iff]
          tauto
        · rw [if_neg h1, if_neg h2, if_neg h3, if_pos h6, if_neg h4, if_neg h5, if_pos rfl]
          simp only [reduceCtorEq, false_iff]
          tauto
      · simp [h1, h2, h3, h6]

/-- C21. Rejection is atomic: for every table and every request that the
`move` action refuses (destination or slot id out of range, no such game,
game drawn or won, caller not a player, wrong turn, slot of the other colour,
or `valid_move` returning `false`, whatever it has written to its reference
parameters before), the table after the call is the table before the call,
so the stored row is unchanged in every field. -/
theorem rejection_is_atomic (self : Nat) (stray : Bool) (game_index : Nat → Option Game)
    (player game_id piece_id new_position promotion_type : Nat)
    (h : move_refused self game_index player game_id piece_id new_position promotion_type) :
    move self stray game_index player game_id piece_id new_position promotion_type
      = game_index := by
  unfold move
  unfold move_refused at h
  by_cases h1 : new_position > 64 ∨ new_position = 0
  · rw [if_pos h1]
  rw [if_neg h1]
  by_cases h2 : piece_id > 31
  · rw [if_pos h2]
  rw [if_neg h2]
  cases hfind : game_index game_id with
  | none => rfl
  | some itr =>
    rw [hfind] at h
    have hrow : row_refused self itr player piece_id new_position promotion_type := by
      rcases h with h | h | h | h
      · exact absurd (Or.inl h) h1
      · exact absurd (Or.inr h) h1
      · exact absurd h h2
      · exact h
    simp only
    rw [(move_row_none_iff self stray itr player piece_id new_position promotion_type).mpr hrow]

/-- Instances of C21 on three tables that hold game 7 with White to move. On
`king_walk_board` the White king steps from 20 to the attacked square 21:
`valid_move` has set both White castling bits when it returns `false`. On
`rook_check_board` pawn slot 8 advances from 9 to 25 while the king stays in
check: `valid_move` has set the en-passant index to 8. On
`checked_promotion_board` pawn slot 8 steps from 49 to 57 while the king
stays in check: `valid_move` has entered the promotion to a queen. In all
three cases the table after `move` is the table before. -/
theorem rejection_is_atomic_witness :
    ((valid_move 0 21 king_walk_board 0 32 0 0 0 32 false).ok = false
      ∧ (valid_move 0 21 king_walk_board 0 32 0 0 0 32 false).castle = 3
      ∧ move 1 false (table_on king_walk_board) 100 7 0 21 0 = table_on king_walk_board)
    ∧ ((valid_move 8 25 rook_check_board 0 32 0 0 0 32 false).ok = false
      ∧ (valid_move 8 25 rook_check_board 0 32 0 0 0 32 false).en_passant_idx = 8
      ∧ move 1 false (table_on rook_check_board) 100 7 8 25 0 = table_on rook_check_board)
    ∧ ((valid_move 8 57 checked_promotion_board 0 32 0 0 3 32 false).ok = false
      ∧ (valid_move 8 57 checked_promotion_board 0 32 0 0 3 32 false).promoted_pawns = 1
      ∧ (valid_move 8 57 checked_promotion_board 0 32 0 0 3 32 false).promoted_pawn_types = 3
      ∧ move 1 false (table_on checked_promotion_board) 100 7 8 57 3
          = table_on checked_promotion_board) :=
  ⟨⟨by decide!, by decide!,
      rejection_is_atomic 1 false (table_on king_walk_board) 100 7 0 21 0 (by decide!)⟩,
    ⟨by decide!, by decide!,
      rejection_is_atomic 1 false (table_on rook_check_board) 100 7 8 25 0 (by decide!)⟩,
    ⟨by decide!, by decide!, by decide!,
      rejection_is_atomic 1 false (table_on checked_promotion_board) 100 7 8 57 3
        (by decide!)⟩⟩

/-- Every request that `move` does not refuse is applied: the stored move
counter goes up by one. -/
theorem move_counted_unless_refused (self : Nat) (stray : Bool)
    (game_index : Nat → Option Game)
    (player game_id piece_id new_position promotion_type : Nat)
    (h : ¬ move_refused self game_index player game_id piece_id new_position promotion_type) :
    move_count_in (move self stray game_index player game_id piece_id new_position
        promotion_type) game_id
      = (move_count_in game_index game_id + 1) % 4294967296 := by
  unfold move_refused at h
  unfold move
  rw [if_neg (by tauto), if_neg (by tauto)]
  unfold move_count_in
  cases hfind : game_index game_id with
  | none =>
    rw [hfind] at h
    exact absurd (Or.inr (Or.inr (Or.inr trivial))) h
  | some itr =>
    rw [hfind] at h
    simp only
    cases hrow : move_row self stray itr player piece_id new_position promotion_type with
    | none =>
      exact absurd (Or.inr (Or.inr (Or.inr ((move_row_none_iff self stray itr player piece_id
        new_position promotion_type).mp hrow)))) h
    | some row =>
      simp only [Function.update_same]
      unfold move_row at hrow
      simp only at hrow
      split_ifs at hrow
      · rw [← Option.some.inj hrow]
        rfl
      · rw [← Option.some.inj hrow]
        rfl

/-- C22, evaluated where the code breaks it. Game 7 reaches, by two accepted
moves from the opening, a board with White pawn slot 8 on square 17 and Black
pawn slot 24 on square 41, both one row off their home ranks and neither
promoted. `valid_pawn_move` accepts the two-square advance of either pawn,
from 17 to 33 and from 41 to 25, and names the pawn as en-passant index; the
`move` action then stores White's advance, whatever the undefined checkmate
flag is. -/
theorem double_advance_off_the_home_rank :
    entries (board_in late_double_table 7)
      = [4, 5, 3, 6, 2, 7, 1, 8, 17, 10, 11, 12, 13, 14, 15, 16,
         60, 61, 59, 62, 58, 63, 57, 64, 41, 50, 51, 52, 53, 54, 55, 56]
    ∧ double_pawn_advance 8 33 (board_in late_double_table 7) 0 0
    ∧ ¬ (9 ≤ board_in late_double_table 7 8 ∧ board_in late_double_table 7 8 ≤ 16)
    ∧ valid_pawn_move 8 33 (board_in late_double_table 7) true 32 0 0 32
        = { ok := true, captured_piece_index := 32, en_passant_idx := 8 }
    ∧ double_pawn_advance 24 25 (board_in late_double_table 7) 0 0
    ∧ ¬ (49 ≤ board_in late_double_table 7 24 ∧ board_in late_double_table 7 24 ≤ 56)
    ∧ valid_pawn_move 24 25 (board_in late_double_table 7) false 32 0 0 32
        = { ok := true, captured_piece_index := 32, en_passant_idx := 24 }
    ∧ ∀ stray : Bool,
        entries (board_in (move 1 stray late_double_table 100 7 8 33 0) 7)
          = [4, 5, 3, 6, 2, 7, 1, 8, 33, 10, 11, 12, 13, 14, 15, 16,
             60, 61, 59, 62, 58, 63, 57, 64, 41, 50, 51, 52, 53, 54, 55, 56]
        ∧ en_passant_in (move 1 stray late_double_table 100 7 8 33 0) 7 = 8
        ∧ move_count_in (move 1 stray late_double_table 100 7 8 33 0) 7 = 3 := by
  decide!

/-- C23, evaluated where the code breaks it. In the row that `newgame`
creates the White king, slot 0, stands on square 4, not on square 5 as the
header comment says; square 5 holds the White queen, slot 1. -/
theorem white_king_starts_on_square_four (game_id player_w player_b : Nat) :
    (new_game game_id player_w player_b).piece_positions 0 = 4
    ∧ (new_game game_id player_w player_b).piece_positions 0 ≠ 5
    ∧ (new_game game_id player_w player_b).piece_positions 1 = 5 := by
  have h0 : start_positions 0 = 4 := by decide
  have h1 : start_positions 1 = 5 := by decide
  exact ⟨h0, fun h => absurd (h0.symm.trans h) (by decide), h1⟩

/-- The `move` action never touches a row whose winner is set: the check that
`concede` and `draw` lack. -/
theorem move_keeps_set_winner (self : Nat) (stray : Bool) (game_index : Nat → Option Game)
    (player game_id piece_id new_position promotion_type : Nat) (itr : Game)
    (hfind : game_index game_id = some itr) (hwon : itr.winner ≠ 0) :
    move self stray game_index player game_id piece_id new_position promotion_type
      = game_index := by
  unfold move
  split_ifs
  · rfl
  · rfl
  · rw [hfind]
    simp only
    rw [(move_row_none_iff self stray itr player piece_id new_position promotion_type).mpr
      (Or.inr (Or.inl hwon))]

/-- C24, evaluated where the code breaks it. In `smothered_table` Black,
account 200, has won game 7; when the winner then calls `concede` the winner
becomes White, account 100. When White declares a draw in a new game and then
concedes, Black is the winner; Black's call of `draw` then makes the contract
account 1 the winner, the mark of a drawn game. And in a game that both
players have declared drawn, a call of `concede` by Black makes White the
winner. -/
theorem winner_overwritten_after_the_end :
    winner_in smothered_table 7 = 200
    ∧ winner_in (concede smothered_table 200 7) 7 = 100
    ∧ winner_in (concede (draw 1 opening_table 100 7) 100 7) 7 = 200
    ∧ winner_in (draw 1 (concede (draw 1 opening_table 100 7) 100 7) 200 7) 7 = 1
    ∧ winner_in (draw 1 (draw 1 opening_table 100 7) 200 7) 7 = 1
    ∧ winner_in (concede (draw 1 (draw 1 opening_table 100 7) 200 7) 200 7) 7 = 100 := by
  decide!

/-- Whenever `in_checkmate` returns `true`, `in_check` is true on the same
board: every path to `return true` passes the final test. -/
theorem in_checkmate_in_check (check_white : Bool) (piece_positions : Board)
    (promoted_pawns promoted_pawn_types : Nat)
    (h : in_checkmate check_white piece_positions promoted_pawns promoted_pawn_types
      = some true) :
    in_check check_white piece_positions promoted_pawns promoted_pawn_types = true := by
  unfold in_checkmate at h
  simp only at h
  generalize in_check check_white piece_positions promoted_pawns promoted_pawn_types = c at h ⊢
  cases c
  · split_ifs at h <;> simp_all
  · rfl

/-- The checkmate flag of an accepted call of `valid_move` is the result of
`in_checkmate` for the opponent on the new board, with the registry the call
returns. -/
theorem valid_move_checkmate (piece_id new_position : Nat) (piece_positions : Board)
    (castle en_passant_idx promoted_pawns promoted_pawn_types promotion_type
      captured_piece_index : Nat) (checkmate : Bool)
    (h : (valid_move piece_id new_position piece_positions castle en_passant_idx promoted_pawns
      promoted_pawn_types promotion_type captured_piece_index checkmate).ok = true) :
    (valid_move piece_id new_position piece_positions castle en_passant_idx promoted_pawns
      promoted_pawn_types promotion_type captured_piece_index checkmate).checkmate
    = in_checkmate (!decide (piece_id < 16))
        (board_after piece_positions piece_id new_position
          (valid_move piece_id new_position piece_positions castle en_passant_idx
            promoted_pawns promoted_pawn_types promotion_type captured_piece_index
            checkmate).captured_piece_index)
        (valid_move piece_id new_position piece_positions castle en_passant_idx promoted_pawns
          promoted_pawn_types promotion_type captured_piece_index checkmate).promoted_pawns
        (valid_move piece_id new_position piece_positions castle en_passant_idx promoted_pawns
          promoted_pawn_types promotion_type captured_piece_index
          checkmate).promoted_pawn_types := by
  obtain ⟨_, _, _, hfin⟩ := valid_move_accepted _ _ _ _ _ _ _ _ _ _ h
  rw [hfin] at h ⊢
  obtain ⟨_, _, hp, ht, hc⟩ := valid_move_finish_fields piece_id new_position piece_positions
    (decide (piece_id < 16)) (valid_move_switch piece_id new_position (piece_positions piece_id)
      (decide (piece_id < 16)) piece_positions promotion_type
      (entry_state castle promoted_pawns promoted_pawn_types captured_piece_index checkmate))
  rw [hp, ht, hc]
  unfold valid_move_finish at h ⊢
  simp only at h ⊢
  split_ifs at h ⊢
  rfl

/-- The winner of a row written by `move`: the caller when the checkmate flag
is set, the winner of the row before otherwise. -/
theorem move_row_winner (self : Nat) (stray : Bool) (itr row : Game)
    (player piece_id new_position promotion_type : Nat)
    (h : move_row self stray itr player piece_id new_position promotion_type = some row) :
    row.winner
      = if (valid_move piece_id new_position itr.piece_positions itr.castle itr.en_passant_idx
          itr.promoted_pawns itr.promoted_pawn_types promotion_type 32 false).checkmate.getD
            stray = true
        then player else itr.winner := by
  unfold move_row at h
  simp only at h
  split_ifs at h
  · rw [← Option.some.inj h]
    rfl
  · rw [← Option.some.inj h]
    rfl

/-- Where the winner is set only in check. For every board, registry and
colour, if `in_checkmate` returns `true` then `in_check` is true for that
colour on the same board; and when an accepted move changes the winner, on a
flag that `in_checkmate` has returned (its king index was inside the vector),
the opponent's king is attacked on the new board that `valid_move` has built:
the moved slot on its destination, the captured slot on square 0. -/
theorem winner_set_in_check_on_defined_flag (check_white : Bool) (piece_positions : Board)
    (promoted_pawns promoted_pawn_types self : Nat) (stray : Bool) (itr row : Game)
    (player piece_id new_position promotion_type : Nat) :
    (in_checkmate check_white piece_positions promoted_pawns promoted_pawn_types = some true →
      in_check check_white piece_positions promoted_pawns promoted_pawn_types = true)
    ∧ (move_row self stray itr player piece_id new_position promotion_type = some row →
        row.winner ≠ itr.winner →
        (valid_move piece_id new_position itr.piece_positions itr.castle itr.en_passant_idx
          itr.promoted_pawns itr.promoted_pawn_types promotion_type 32 false).checkmate ≠ none →
        in_check (!decide (piece_id < 16))
          (board_after itr.piece_positions piece_id new_position
            (valid_move piece_id new_position itr.piece_positions itr.castle itr.en_passant_idx
              itr.promoted_pawns itr.promoted_pawn_types promotion_type 32
              false).captured_piece_index)
          (valid_move piece_id new_position itr.piece_positions itr.castle itr.en_passant_idx
            itr.promoted_pawns itr.promoted_pawn_types promotion_type 32 false).promoted_pawns
          (valid_move piece_id new_position itr.piece_positions itr.castle itr.en_passant_idx
            itr.promoted_pawns itr.promoted_pawn_types promotion_type 32
            false).promoted_pawn_types = true) := by
  refine ⟨in_checkmate_in_check _ _ _ _, ?_⟩
  intro hrow hwin hdef
  have hok := (move_row_fields self stray itr row player piece_id new_position promotion_type
    hrow).1
  have hw := move_row_winner self stray itr row player piece_id new_position promotion_type hrow
  have hflag := valid_move_checkmate piece_id new_position itr.piece_positions itr.castle
    itr.en_passant_idx itr.promoted_pawns itr.promoted_pawn_types promotion_type 32 false hok
  apply in_checkmate_in_check
  rw [← hflag]
  generalize (valid_move piece_id new_position itr.piece_positions itr.castle
    itr.en_passant_idx itr.promoted_pawns itr.promoted_pawn_types promotion_type 32
    false).checkmate = flag at hw hdef ⊢
  cases flag with
  | none => exact absurd rfl hdef
  | some c =>
    cases c
    · rw [if_neg (by simp)] at hw
      exact absurd hw hwin
    · rfl

/-- An instance of `winner_set_in_check_on_defined_flag`, the last move of
`smothered_table`: Black knight slot 20 goes from 25 to 19, `in_checkmate`
returns `true` for White, the row gets Black, account 200, as winner, and the
White king is in check on the new board. -/
theorem winner_set_in_check_on_defined_flag_witness :
    in_checkmate true smothered_board 0 0 = some true
    ∧ in_check true smothered_board 0 0 = true
    ∧ ((move_row 1 false smothering_game 200 20 19 0).getD smothering_game).winner = 200
    ∧ in_check (!decide (20 < 16))
        (board_after smothering_game.piece_positions 20 19
          (valid_move 20 19 smothering_game.piece_positions smothering_game.castle
            smothering_game.en_passant_idx smothering_game.promoted_pawns
            smothering_game.promoted_pawn_types 0 32 false).captured_piece_index)
        (valid_move 20 19 smothering_game.piece_positions smothering_game.castle
          smothering_game.en_passant_idx smothering_game.promoted_pawns
          smothering_game.promoted_pawn_types 0 32 false).promoted_pawns
        (valid_move 20 19 smothering_game.piece_positions smothering_game.castle
          smothering_game.en_passant_idx smothering_game.promoted_pawns
          smothering_game.promoted_pawn_types 0 32 false).promoted_pawn_types = true :=
  ⟨by decide!,
    (winner_set_in_check_on_defined_flag true smothered_board 0 0 1 false smothering_game
      smothering_game 200 20 19 0).1 (by decide!),
    by decide!,
    (winner_set_in_check_on_defined_flag true smothered_board 0 0 1 false smothering_game
      ((move_row 1 false smothering_game 200 20 19 0).getD smothering_game) 200 20 19 0).2
      (some_getD_of_isSome _ _ (by decide!)) (by decide!) (by decide!)⟩

/-- C30, evaluated where the code breaks it. Game 7 reaches, by ten accepted
moves from the opening, a board with no shared square on which White rook
slot 6 is captured (square 0), its home square 1 and the squares 2 and 3 are
empty, and the castling mask is still 0. `valid_move` then accepts the
castling request of the White king from 4 to 2, and `move` stores the king on
square 2 and the captured rook slot 6 on square 3, whatever the undefined
checkmate flag is. On `lost_black_rook_board`, with Black rook slot 22
captured, `valid_move` accepts the Black king's castling request from 60 to
58 as well. -/
theorem castling_revives_captured_rook :
    entries (board_in lost_rook_table 7)
      = [4, 5, 10, 6, 19, 7, 0, 8, 9, 18, 0, 12, 13, 14, 15, 32,
         60, 61, 59, 62, 11, 63, 57, 64, 49, 50, 51, 52, 53, 54, 55, 56]
    ∧ no_shared_square (board_in lost_rook_table 7)
    ∧ board_in lost_rook_table 7 (castling_rook 2) = 0
    ∧ castle_in lost_rook_table 7 = 0
    ∧ move_count_in lost_rook_table 7 = 10
    ∧ castling_request 0 (board_in lost_rook_table 7 0) 2
    ∧ (valid_move 0 2 (board_in lost_rook_table 7) 0 32 0 0 0 32 false).ok = true
    ∧ (∀ stray : Bool,
        move_count_in (move 1 stray lost_rook_table 100 7 0 2 0) 7 = 11
        ∧ entries (board_in (move 1 stray lost_rook_table 100 7 0 2 0) 7)
          = [2, 5, 10, 6, 19, 7, 3, 8, 9, 18, 0, 12, 13, 14, 15, 32,
             60, 61, 59, 62, 11, 63, 57, 64, 49, 50, 51, 52, 53, 54, 55, 56])
    ∧ lost_black_rook_board (castling_rook 58) = 0
    ∧ castling_request 16 (lost_black_rook_board 16) 58
    ∧ (valid_move 16 58 lost_black_rook_board 0 32 0 0 0 32 false).ok = true := by
  decide!

/-- An accepted move keeps the kind of a promoted pawn slot `s`, unless it is
the move of `s` itself onto its promotion rank: the registry changes only by
a call of `promote_pawn` for the moved slot. -/
theorem promoted_kind_kept_by_other_moves (s k x piece_id new_position : Nat)
    (piece_positions : Board)
    (castle en_passant_idx promoted_pawns promoted_pawn_types promotion_type
      captured_piece_index : Nat) (checkmate : Bool) (hs : is_pawn_slot s)
    (hk : is_pawn_promoted s promoted_pawns promoted_pawn_types x = (true, k))
    (h : (valid_move piece_id new_position piece_positions castle en_passant_idx promoted_pawns
      promoted_pawn_types promotion_type captured_piece_index checkmate).ok = true)
    (hother : piece_id ≠ s ∨ ¬ reaches_promotion_rank piece_id new_position) :
    is_pawn_promoted s
      (valid_move piece_id new_position piece_positions castle en_passant_idx promoted_pawns
        promoted_pawn_types promotion_type captured_piece_index checkmate).promoted_pawns
      (valid_move piece_id new_position piece_positions castle en_passant_idx promoted_pawns
        promoted_pawn_types promotion_type captured_piece_index checkmate).promoted_pawn_types x
      = (true, k) := by
  obtain ⟨hon, hoff⟩ := valid_move_registry _ _ _ _ _ _ _ _ _ _ h
  by_cases hr : reaches_promotion_rank piece_id new_position
  · obtain ⟨h1, h2⟩ := hon hr
    rw [h1, h2]
    have hne : piece_id ≠ s := by
      rcases hother with hne | hnr
      · exact hne
      · exact absurd hr hnr
    have hp : is_pawn_slot piece_id := by
      unfold reaches_promotion_rank at hr
      unfold is_pawn_slot
      omega
    rw [promote_pawn_other _ _ _ _ _ _
      (pawn_offset_injective piece_id s hp hs (fun e => hne e.symm))]
    exact hk
  · obtain ⟨h1, h2⟩ := hoff hr
    rw [h1, h2]
    exact hk

/-- C31, evaluated where the code breaks it. Game 7 reaches, by ten accepted
moves from the opening, a position in which White pawn slot 8 stands on
square 57 and the registry reports it promoted with kind 2, a rook. The next
move of that slot along its promotion rank, the capture on square 58 with
`promotion_type` 1, is accepted, whatever the undefined checkmate flag is,
and the stored registry then reports slot 8 promoted with kind 3, a queen:
`promote_pawn` has run again and has OR-ed the argument into the kind. -/
theorem promoted_pawn_changes_kind :
    entries (board_in promoted_rook_table 7)
      = [4, 5, 3, 6, 2, 7, 1, 8, 57, 10, 11, 12, 13, 14, 15, 16,
         60, 61, 59, 62, 58, 48, 0, 64, 49, 0, 51, 52, 53, 54, 55, 56]
    ∧ move_count_in promoted_rook_table 7 = 10
    ∧ is_pawn_promoted 8 (registry_in promoted_rook_table 7).1
        (registry_in promoted_rook_table 7).2 0 = (true, PROMOTED_ROOK)
    ∧ ∀ stray : Bool,
        move_count_in (move 1 stray promoted_rook_table 100 7 8 58 1) 7 = 11
        ∧ board_in (move 1 stray promoted_rook_table 100 7 8 58 1) 7 8 = 58
        ∧ is_pawn_promoted 8 (registry_in (move 1 stray promoted_rook_table 100 7 8 58 1) 7).1
            (registry_in (move 1 stray promoted_rook_table 100 7 8 58 1) 7).2 0
          = (true, PROMOTED_QUEEN) := by
  decide!

/-- C32, evaluated where the code breaks it. Game 7 reaches, by six accepted
moves from the opening, a position with White pawn slot 15 on square 16, the
last square of the second row, and Black knight slot 20 on square 25, the
first square of the fourth row. `valid_pawn_move` accepts the offset +9 of
the pawn from 16 to 25 as a capture of the knight, and `move` stores it,
whatever the undefined checkmate flag is, although square 25 is two rows
ahead and seven columns aside. On `wrapped_attack_board` `in_check` reports
the White king on square 40 attacked, by the offset -9 of Black pawn slot 24
on square 49 and by nothing else: without that pawn the king is not
attacked. -/
theorem pawn_capture_wraps_around_the_edge :
    entries (board_in wrap_capture_table 7)
      = [4, 5, 3, 6, 2, 7, 1, 8, 9, 10, 11, 36, 13, 14, 15, 16,
         60, 61, 59, 62, 25, 63, 57, 64, 49, 50, 51, 52, 53, 54, 55, 56]
    ∧ (is_pawn_promoted 15 (registry_in wrap_capture_table 7).1
        (registry_in wrap_capture_table 7).2 0).1 = false
    ∧ valid_pawn_move 15 25 (board_in wrap_capture_table 7) true 32 0 0 32
        = { ok := true, captured_piece_index := 20, en_passant_idx := 32 }
    ∧ ¬ one_step_diagonal true 16 25
    ∧ row_index 25 = row_index 16 + 2
    ∧ col_index 16 = 7 ∧ col_index 25 = 0
    ∧ (∀ stray : Bool,
        move_count_in (move 1 stray wrap_capture_table 100 7 15 25 0) 7 = 7
        ∧ entries (board_in (move 1 stray wrap_capture_table 100 7 15 25 0) 7)
          = [4, 5, 3, 6, 2, 7, 1, 8, 9, 10, 11, 36, 13, 14, 15, 25,
             60, 61, 59, 62, 0, 63, 57, 64, 49, 50, 51, 52, 53, 54, 55, 56])
    ∧ (valid_pawn_move 24 40 wrapped_attack_board false 0 0 0 32).ok = true
    ∧ ¬ one_step_diagonal false 49 40
    ∧ in_check true wrapped_attack_board 0 0 = true
    ∧ in_check true (Function.update wrapped_attack_board 24 0) 0 0 = false := by
  decide!

/-- The function `in_checkmate` reads outside the board vector exactly when
the king's square, its first index, is not below 32. -/
theorem in_checkmate_none_iff (check_white : Bool) (piece_positions : Board)
    (promoted_pawns promoted_pawn_types : Nat) :
    in_checkmate check_white piece_positions promoted_pawns promoted_pawn_types = none
      ↔ 32 ≤ checkmate_probe_index check_white piece_positions := by
  unfold in_checkmate checkmate_probe_index
  simp only
  by_cases h : (if check_white then piece_positions 0 else piece_positions 16) < 32
  · rw [if_pos h]
    constructor
    · intro hn
      split_ifs at hn
    · intro hge
      omega
  · rw [if_neg h]
    exact ⟨fun _ => by omega, fun _ => rfl⟩

/-- C33, evaluated where the code breaks it. The starting position has 32
entries in 1..64 and both kings alive. For Black `in_checkmate` indexes the
32-entry vector with 60, the square of the Black king, and so does every
board with that king on a square from 32 on. `valid_move` accepts White's
first move, pawn slot 8 from 9 to 17, and its call of `in_checkmate` for
Black makes that access. -/
theorem in_checkmate_indexes_with_the_king_square :
    (∀ i < 32, 1 ≤ start_positions i ∧ start_positions i ≤ 64)
    ∧ checkmate_probe_index false start_positions = 60
    ∧ in_checkmate false start_positions 0 0 = none
    ∧ (∀ (check_white : Bool) (piece_positions : Board) (promoted_pawns promoted_pawn_types : Nat),
        32 ≤ checkmate_probe_index check_white piece_positions →
        in_checkmate check_white piece_positions promoted_pawns promoted_pawn_types = none)
    ∧ (valid_move 8 17 start_positions 0 32 0 0 0 32 false).ok = true
    ∧ checkmate_probe_index false (board_after start_positions 8 17 32) = 60
    ∧ (valid_move 8 17 start_positions 0 32 0 0 0 32 false).checkmate = none :=
  ⟨by decide, by decide, by decide!,
    fun check_white piece_positions promoted_pawns promoted_pawn_types h =>
      (in_checkmate_none_iff check_white piece_positions promoted_pawns
        promoted_pawn_types).mpr h,
    by decide!, by decide!, by decide!⟩

/-- C3, evaluated where the code breaks it. Game 7 reaches, by ten accepted
moves from the opening, a board with Black knight slot 20 on square 11, next
to the White king on 4, and Black pawn slot 27 on square 20. The last of
these moves ends with `in_checkmate` for White, whose probe with offset 7
finds the king step from 4 to 11 accepted by `valid_king_move`, as a capture,
and calls `in_check` on `capture_probe_board`, where the king stands on 11
and the knight is still there. `in_check` then calls `valid_pawn_move` for
Black pawn slot 27 with destination 11 and en-passant index 32: the scan
meets the White king, slot 0, on the destination first and leaves the loop,
and the evaluator accepts, for every value of the capture index on entry,
although Black knight slot 20 stands on the destination. That verdict alone
makes `in_check` true on the probed board. -/
theorem black_pawn_lands_on_friendly_slot :
    move_count_in knight_capture_table 7 = 10
    ∧ entries (board_in knight_capture_table 7)
      = [4, 5, 3, 6, 2, 22, 1, 8, 9, 10, 0, 12, 13, 14, 15, 16,
         60, 61, 59, 62, 11, 63, 57, 64, 49, 50, 51, 20, 53, 54, 55, 56]
    ∧ (valid_king_move 4 11 255 (board_in knight_capture_table 7) true 32).1 = true
    ∧ entries capture_probe_board
      = [11, 5, 3, 6, 1, 22, 1, 8, 9, 10, 0, 12, 13, 14, 15, 16,
         60, 61, 59, 62, 11, 63, 57, 64, 49, 50, 51, 20, 53, 54, 55, 56]
    ∧ capture_probe_board 27 = 20
    ∧ (is_pawn_promoted 27 0 0 0).1 = false
    ∧ capture_probe_board 20 = 11 ∧ is_enemy_piece false 20 = false
    ∧ (∀ captured_piece_index : Nat,
        (valid_pawn_move 27 11 capture_probe_board false captured_piece_index 0 0 32).ok
          = true)
    ∧ in_check true capture_probe_board 0 0 = true
    ∧ in_check true (Function.update capture_probe_board 27 0) 0 0 = false :=
  ⟨by decide!, by decide!, by decide!, by decide!, by decide!, by decide, by decide!,
    by decide,
    fun captured_piece_index =>
      (valid_pawn_move_verdict 27 11 capture_probe_board false captured_piece_index 0 0 0
        32).trans (by decide!),
    by decide!, by decide!⟩

/-- C14, evaluated where the code breaks it. In `promoted_rook_table`, reached
by ten accepted moves from the opening, the registry is (1, 2): pawn slot 8,
on square 57, was promoted before, with kind 2. Its move along the promotion
rank to square 58 with `promotion_type` 3 is therefore none of the moves that
commit a promotion, yet `valid_move` accepts it and returns the registry
(1, 3), and `move` stores that registry, whatever the undefined checkmate
flag is. -/
theorem promotion_repeated_for_promoted_slot :
    registry_in promoted_rook_table 7 = (1, 2)
    ∧ board_in promoted_rook_table 7 8 = 57
    ∧ (is_pawn_promoted 8 1 2 0).1 = true
    ∧ (valid_move 8 58 (board_in promoted_rook_table 7) (castle_in promoted_rook_table 7)
        (en_passant_in promoted_rook_table 7) 1 2 3 32 false).ok = true
    ∧ (valid_move 8 58 (board_in promoted_rook_table 7) (castle_in promoted_rook_table 7)
        (en_passant_in promoted_rook_table 7) 1 2 3 32 false).promoted_pawns = 1
    ∧ (valid_move 8 58 (board_in promoted_rook_table 7) (castle_in promoted_rook_table 7)
        (en_passant_in promoted_rook_table 7) 1 2 3 32 false).promoted_pawn_types = 3
    ∧ ∀ stray : Bool,
        move_count_in (move 1 stray promoted_rook_table 100 7 8 58 3) 7 = 11
        ∧ registry_in (move 1 stray promoted_rook_table 100 7 8 58 3) 7 = (1, 3)
        ∧ registry_in (move 1 stray promoted_rook_table 100 7 8 58 3) 7
            ≠ registry_in promoted_rook_table 7 := by
  decide!

end Chess
